import Mathlib

/-!
# QCamera3 channel layer: a shallow embedding

Embedding of `QCamera2/HAL3/QCamera3Channel.cpp`.  Every member function is a
pure function from the object state (and an oracle `Env` giving the return
codes of the external collaborators: the driver operations table, the stream
objects, the allocator) to a return code, the new object state and the ordered
list of calls made on the collaborators.  A dereference of a null pointer is
the value `none`.  The EXIF helpers of the same file compute on `float` and
`double` values; these are the rational numbers they denote, rounded as
IEEE 754 rounds after every operation.
-/

namespace QCamera3

/-! ## Status codes (android `utils/Errors.h`, values of `errno.h`) -/

/-- Status `NO_ERROR` / `OK`. -/
def NO_ERROR : Int := 0
/-- Status `UNKNOWN_ERROR`, the 32-bit pattern 0x80000000. -/
def UNKNOWN_ERROR : Int := -2147483648
/-- Status `NO_MEMORY`, that is `-ENOMEM`. -/
def NO_MEMORY : Int := -12
/-- Status `BAD_VALUE`, that is `-EINVAL`. -/
def BAD_VALUE : Int := -22
/-- Status `DEAD_OBJECT`, that is `-EPIPE`. -/
def DEAD_OBJECT : Int := -32
/-- Status `BAD_INDEX`, that is `-EOVERFLOW`. -/
def BAD_INDEX : Int := -75

/-- Value of `CAMERA3_BUFFER_STATUS_OK`. -/
def CAMERA3_BUFFER_STATUS_OK : Int := 0
/-- Value of `CAMERA3_BUFFER_STATUS_ERROR`. -/
def CAMERA3_BUFFER_STATUS_ERROR : Int := 1

/-- Value of `EINVAL` (`errno.h`). -/
def EINVAL : Int := 22
/-- Value of `ENOMEM` (`errno.h`). -/
def ENOMEM : Int := 12

/-- Value of `HAL_PIXEL_FORMAT_BLOB` (android `system/graphics.h`). -/
def HAL_PIXEL_FORMAT_BLOB : Int := 33
/-- Value of `HAL_PIXEL_FORMAT_IMPLEMENTATION_DEFINED` (android
`system/graphics.h`). -/
def HAL_PIXEL_FORMAT_IMPLEMENTATION_DEFINED : Int := 34

/-- The `#define MIN_STREAMING_BUFFER_NUM 3` of the source file. -/
def MIN_STREAMING_BUFFER_NUM : Nat := 3

/-- Reinterpretation of a 32-bit pattern as `int32_t`. -/
def toInt32 (n : Nat) : Int :=
  if n % 4294967296 < 2147483648 then (n % 4294967296 : Nat) else (n % 4294967296 : Nat) - 4294967296

/-- Conversion of an integer to `uint32_t`. -/
def toUInt32 (i : Int) : Nat := (i % 4294967296).toNat

/-- Conversion of an unsigned value to `uint8_t`. -/
def toUInt8 (n : Nat) : Nat := n % 256

/-! ## Data model -/

/-- Driver stream types used by the channels. -/
inductive cam_stream_type_t
  | CAM_STREAM_TYPE_PREVIEW
  | CAM_STREAM_TYPE_VIDEO
  | CAM_STREAM_TYPE_SNAPSHOT
  | CAM_STREAM_TYPE_METADATA
  deriving DecidableEq, Repr

/-- Driver pixel formats used by the channels. -/
inductive cam_format_t
  | CAM_FORMAT_YUV_420_NV12
  | CAM_FORMAT_YUV_420_NV21
  | CAM_FORMAT_MAX
  deriving DecidableEq, Repr

/-- Width and height of a stream. -/
structure cam_dimension_t where
  width : Nat
  height : Nat
  deriving DecidableEq, Repr

/-- A caller-owned `buffer_handle_t*`, identified by its address. -/
abbrev BufferHandle := Nat

/-- The framework stream a channel serves (`camera3_stream_t`). -/
structure camera3_stream_t where
  format : Int
  width : Nat
  height : Nat
  deriving DecidableEq, Repr

/-- A stream object as the channel sees it: the arguments it was constructed
and initialised with, and the handle `getMyHandle()` reports. -/
structure QCamera3Stream where
  camHandle : Nat
  channelHandle : Nat
  myHandle : Nat
  streamType : cam_stream_type_t
  streamFormat : cam_format_t
  streamDim : cam_dimension_t
  minStreamBufNum : Nat
  deriving DecidableEq, Repr

/-- One element of a super-buffer (`mm_camera_buf_def_t`): owning stream
handle and 32-bit buffer index. -/
structure mm_camera_buf_def_t where
  stream_id : Nat
  buf_idx : Nat
  deriving DecidableEq, Repr

/-- The driver callback payload (`mm_camera_super_buf_t`): `num_bufs` and the
array of element pointers, a null pointer being `none`. -/
structure mm_camera_super_buf_t where
  num_bufs : Nat
  bufs : List (Option mm_camera_buf_def_t)
  deriving DecidableEq, Repr

/-- Array access `super_frame->bufs[i]`. -/
def mm_camera_super_buf_t.buf (sb : mm_camera_super_buf_t) (i : Nat) : Option mm_camera_buf_def_t :=
  sb.bufs.getD i none

/-- The buffer result handed to the delivery callback
(`camera3_stream_buffer_t`). -/
structure camera3_stream_buffer_t where
  stream : camera3_stream_t
  buffer : BufferHandle
  status : Int
  acquire_fence : Int
  release_fence : Int
  deriving DecidableEq, Repr

/-- One slot of an imported buffer pool: the caller handle registered in it,
the frame number last marked on it and the allocated size of the buffer. -/
structure MemSlot where
  handle : BufferHandle
  frameNumber : Nat
  size : Nat := 0
  deriving DecidableEq, Repr

/-- Modelled from the spec: the imported (gralloc) buffer memory, whose class
is outside this file: an array of slots, indexed by matching the caller
handle, each slot recording a frame number. -/
structure QCamera3GrallocMemory where
  slots : List MemSlot
  deriving DecidableEq, Repr

/-- Bundle attributes passed to `add_channel`. -/
structure mm_camera_channel_attr_t where
  notify_mode : Nat
  look_back : Nat
  post_frame_skip : Nat
  water_mark : Nat
  max_unmatched_frames : Nat
  deriving DecidableEq, Repr

/-- A call made by the channel on one of its collaborators, in the order the
code makes them. -/
inductive Call
  | add_channel (camHandle : Nat) (attr : Option mm_camera_channel_attr_t) (dataCB : Bool)
  | start_channel (camHandle channelHandle : Nat)
  | stop_channel (camHandle channelHandle : Nat)
  | request_super_buf (camHandle channelHandle num : Nat)
  | streamNew (camHandle channelHandle : Nat)
  | streamInit (s : QCamera3Stream)
  | streamDelete (s : QCamera3Stream)
  | streamStart (s : QCamera3Stream)
  | streamStop (s : QCamera3Stream)
  | streamBufDone (s : QCamera3Stream) (index : Nat)
  | channelCB (metadata : Option mm_camera_super_buf_t)
      (buffer : Option camera3_stream_buffer_t) (frame_number : Nat) (userData : Nat)
  | postprocStart (memory : QCamera3GrallocMemory) (index : Nat)
  | postprocProcessData (frame : mm_camera_super_buf_t)
  | trailerWrite (buf_vaddr : Nat) (offset : Int) (jpeg_blob_id jpeg_size : Nat)
  | cleanInvalidateCache (index : Int)
  | releaseJpegJobData (jobId : Nat)
  deriving DecidableEq, Repr

/-- Return codes of the external collaborators, which the channel code does
not decide: the driver operations table, the stream objects and the
allocator. -/
structure Env where
  add_channel : Nat
  start_channel : Int
  stop_channel : Int
  request_super_buf : Int
  newStreamNull : Bool
  streamMyHandle : Nat
  streamInit : cam_stream_type_t → cam_format_t → cam_dimension_t → Nat → Int
  streamStart : QCamera3Stream → Int
  streamStop : QCamera3Stream → Int
  streamBufDone : QCamera3Stream → Nat → Int
  mallocNull : Bool
  newBufferArrayNull : Bool
  newMemoryNull : Bool
  memRegisterBuffers : Int
  heapAllocate : Int

/-- The base channel object: the members of `QCamera3Channel` the code reads
or writes.  `mStreams` is the fixed array of stream pointers. -/
structure QCamera3Channel where
  m_camHandle : Nat
  m_bIsActive : Bool
  m_handle : Nat
  m_numStreams : Nat
  mStreams : List (Option QCamera3Stream)
  mUserData : Nat
  deriving DecidableEq, Repr

/-- Result of a member function returning `int32_t`. -/
structure Outcome (σ : Type) where
  rc : Int
  chan : σ
  calls : List Call
  deriving DecidableEq

/-! ## QCamera3Channel -/

/-- Constructor `QCamera3Channel(cam_handle, ...)`: inactive, no handle, no
stream, the stream table zeroed.  `MAX_STREAM_NUM_IN_BUNDLE` is the size of
the table. -/
def QCamera3Channel.ctor (MAX_STREAM_NUM_IN_BUNDLE cam_handle userData : Nat) : QCamera3Channel :=
  { m_camHandle := cam_handle
    m_bIsActive := false
    m_handle := 0
    m_numStreams := 0
    mStreams := List.replicate MAX_STREAM_NUM_IN_BUNDLE none
    mUserData := userData }

/-- The streams visited by `for (i = 0; i < m_numStreams; i++) if
(mStreams[i] != NULL)`, in loop order. -/
def QCamera3Channel.loopStreams (ch : QCamera3Channel) : List QCamera3Stream :=
  (List.range ch.m_numStreams).filterMap (fun i => ch.mStreams.getD i none)

/-- Member `QCamera3Channel::init`. -/
def QCamera3Channel.init (env : Env) (ch : QCamera3Channel)
    (attr : Option mm_camera_channel_attr_t) (dataCB : Bool) : Outcome QCamera3Channel :=
  let ch1 := { ch with m_handle := env.add_channel }
  let calls := [Call.add_channel ch.m_camHandle attr dataCB]
  if ch1.m_handle = 0 then
    { rc := UNKNOWN_ERROR, chan := ch1, calls := calls }
  else
    { rc := NO_ERROR, chan := ch1, calls := calls }

/-- Member `QCamera3Channel::addStream`; `minStreamBufNum` is a `uint8_t`. -/
def QCamera3Channel.addStream (MAX_STREAM_NUM_IN_BUNDLE : Nat) (env : Env) (ch : QCamera3Channel)
    (streamType : cam_stream_type_t) (streamFormat : cam_format_t)
    (streamDim : cam_dimension_t) (minStreamBufNum : Nat) : Outcome QCamera3Channel :=
  if ch.m_numStreams ≥ 1 then
    { rc := BAD_VALUE, chan := ch, calls := [] }
  else if ch.m_numStreams ≥ MAX_STREAM_NUM_IN_BUNDLE then
    { rc := BAD_VALUE, chan := ch, calls := [] }
  else if env.newStreamNull then
    { rc := NO_MEMORY, chan := ch, calls := [Call.streamNew ch.m_camHandle ch.m_handle] }
  else
    let pStream : QCamera3Stream :=
      { camHandle := ch.m_camHandle
        channelHandle := ch.m_handle
        myHandle := env.streamMyHandle
        streamType := streamType
        streamFormat := streamFormat
        streamDim := streamDim
        minStreamBufNum := toUInt8 minStreamBufNum }
    let rc := env.streamInit streamType streamFormat streamDim (toUInt8 minStreamBufNum)
    if rc = 0 then
      { rc := rc
        chan := { ch with mStreams := ch.mStreams.set ch.m_numStreams (some pStream)
                          m_numStreams := ch.m_numStreams + 1 }
        calls := [Call.streamNew ch.m_camHandle ch.m_handle, Call.streamInit pStream] }
    else
      { rc := rc
        chan := ch
        calls := [Call.streamNew ch.m_camHandle ch.m_handle, Call.streamInit pStream,
                  Call.streamDelete pStream] }

/-- Member `QCamera3Channel::start`.  The return values of the streams'
`start()` and `stop()` are not read. -/
def QCamera3Channel.start (env : Env) (ch : QCamera3Channel) : Outcome QCamera3Channel :=
  let starts := ch.loopStreams.map Call.streamStart
  let rc := env.start_channel
  let drv := [Call.start_channel ch.m_camHandle ch.m_handle]
  if rc ≠ NO_ERROR then
    { rc := rc, chan := ch, calls := starts ++ drv ++ ch.loopStreams.map Call.streamStop }
  else
    { rc := rc, chan := { ch with m_bIsActive := true }, calls := starts ++ drv }

/-- Member `QCamera3Channel::stop`. -/
def QCamera3Channel.stop (env : Env) (ch : QCamera3Channel) : Outcome QCamera3Channel :=
  let rc := NO_ERROR
  if !ch.m_bIsActive then
    { rc := rc, chan := ch, calls := [] }
  else
    let rc := env.stop_channel
    { rc := rc
      chan := { ch with m_bIsActive := false }
      calls := [Call.stop_channel ch.m_camHandle ch.m_handle] ++ ch.loopStreams.map Call.streamStop }

/-- Inner loop of `bufDone`: the first `j < m_numStreams` with `mStreams[j]`
non-null and of the given handle. -/
def QCamera3Channel.findStream (ch : QCamera3Channel) (stream_id : Nat) : Option QCamera3Stream :=
  ch.loopStreams.find? (fun s => s.myHandle = stream_id)

/-- Member `QCamera3Channel::bufDone`: the outer loop as a fold over
`i < num_bufs`, carrying `rc` and the calls made so far. -/
def QCamera3Channel.bufDone (env : Env) (ch : QCamera3Channel)
    (recvd_frame : mm_camera_super_buf_t) : Outcome QCamera3Channel :=
  let step := fun (acc : Int × List Call) (i : Nat) =>
    match recvd_frame.buf i with
    | none => acc
    | some b =>
      match ch.findStream b.stream_id with
      | none => acc
      | some s => (env.streamBufDone s b.buf_idx, acc.2 ++ [Call.streamBufDone s b.buf_idx])
  let r := (List.range recvd_frame.num_bufs).foldl step (NO_ERROR, [])
  { rc := r.1, chan := ch, calls := r.2 }

/-- Modelled from the spec: the lifecycle of a stream object (init, start,
steady state, stop), which lives in the stream class outside this file.  A
stream counts as started after a call of its `start()` and as stopped after
a call of its `stop()`; the function replays a list of calls from the
initial flag `started`. -/
def streamStartedAfter (s : QCamera3Stream) (started : Bool) : List Call → Bool
  | [] => started
  | Call.streamStart t :: rest => streamStartedAfter s (if t = s then true else started) rest
  | Call.streamStop t :: rest => streamStartedAfter s (if t = s then false else started) rest
  | _ :: rest => streamStartedAfter s started rest

/-- An operation of the base channel, with its arguments. -/
inductive ChannelOp
  | init (attr : Option mm_camera_channel_attr_t) (dataCB : Bool)
  | addStream (streamType : cam_stream_type_t) (streamFormat : cam_format_t)
      (streamDim : cam_dimension_t) (minStreamBufNum : Nat)
  | start
  | stop
  | bufDone (recvd_frame : mm_camera_super_buf_t)

/-- State after one operation of the base channel. -/
def QCamera3Channel.apply (MAX_STREAM_NUM_IN_BUNDLE : Nat) (ch : QCamera3Channel) :
    Env × ChannelOp → QCamera3Channel
  | (env, ChannelOp.init attr dataCB) => (ch.init env attr dataCB).chan
  | (env, ChannelOp.addStream t f d n) =>
      (ch.addStream MAX_STREAM_NUM_IN_BUNDLE env t f d n).chan
  | (env, ChannelOp.start) => (ch.start env).chan
  | (env, ChannelOp.stop) => (ch.stop env).chan
  | (env, ChannelOp.bufDone sb) => (ch.bufDone env sb).chan

/-- State reached from construction by a sequence of operations, each with
its own collaborator return codes. -/
def QCamera3Channel.run (MAX_STREAM_NUM_IN_BUNDLE cam_handle userData : Nat)
    (ops : List (Env × ChannelOp)) : QCamera3Channel :=
  ops.foldl (QCamera3Channel.apply MAX_STREAM_NUM_IN_BUNDLE)
    (QCamera3Channel.ctor MAX_STREAM_NUM_IN_BUNDLE cam_handle userData)

/-! ## Buffer memory -/

/-- Search of `getMatchBufIndex`: index of the first slot from position `i`
holding `key`, or -1. -/
def matchFrom (key : BufferHandle) : List MemSlot → Nat → Int
  | [], _ => -1
  | s :: rest, i => if s.handle = key then (i : Int) else matchFrom key rest (i + 1)

/-- Modelled from the spec: `getMatchBufIndex`, the index of the slot whose
handle is the caller handle, negative when the handle was never
registered. -/
def QCamera3GrallocMemory.getMatchBufIndex (m : QCamera3GrallocMemory) (key : BufferHandle) : Int :=
  matchFrom key m.slots 0

/-- Modelled from the spec: `markFrameNumber`, which records the 32-bit
frame number against the slot; an index outside the pool is refused. -/
def QCamera3GrallocMemory.markFrameNumber (m : QCamera3GrallocMemory) (index : Nat)
    (frameNumber : Nat) : Int × QCamera3GrallocMemory :=
  match m.slots[index]? with
  | some s =>
    (NO_ERROR, { slots := m.slots.set index { s with frameNumber := frameNumber % 4294967296 } })
  | none => (BAD_INDEX, m)

/-- Modelled from the spec: `getFrameNumber`, the frame number stored in the
slot as an `int32_t`, -1 for an index outside the pool. -/
def QCamera3GrallocMemory.getFrameNumber (m : QCamera3GrallocMemory) (index : Nat) : Int :=
  match m.slots[index]? with
  | some s => toInt32 s.frameNumber
  | none => -1

/-- Modelled from the spec: `getSize`, the allocated size of the buffer in
the slot, `BAD_INDEX` for an index outside the pool. -/
def QCamera3GrallocMemory.getSize (m : QCamera3GrallocMemory) (index : Int) : Int :=
  if index < 0 then BAD_INDEX
  else
    match m.slots[index.toNat]? with
    | some s => (s.size : Int)
    | none => BAD_INDEX

/-- Modelled from the spec: `registerBuffers` of the imported memory, which
takes the caller handles in order, one slot each, no frame number marked;
`bufSize h` is the allocated size of the buffer behind `h`. -/
def QCamera3GrallocMemory.ofHandles (handles : List BufferHandle) (bufSize : BufferHandle → Nat) :
    QCamera3GrallocMemory :=
  { slots := handles.map (fun h => { handle := h, frameNumber := 0, size := bufSize h }) }

/-- Modelled from the spec: the heap-owned buffer memory (metadata and YUV
intermediates): a number of buffers of one size. -/
structure QCamera3HeapMemory where
  count : Nat
  size : Nat
  deriving DecidableEq, Repr

/-! ## QCamera3RegularChannel -/

/-- The regular (preview/video) channel: the base object and the members
added by `QCamera3RegularChannel`; a null `mCamera3Buffers` or `mMemory` is
`none`. -/
structure QCamera3RegularChannel where
  base : QCamera3Channel
  mCamera3Stream : camera3_stream_t
  mNumBufs : Nat
  mCamera3Buffers : Option (List BufferHandle)
  mMemory : Option QCamera3GrallocMemory
  deriving DecidableEq, Repr

/-- Member `QCamera3RegularChannel::request`.  The local `rc` is NO_ERROR
when it is tested after `start()`, whose return value is not assigned.
`none` is the dereference of a null `mStreams[0]`. -/
def QCamera3RegularChannel.request (env : Env) (c : QCamera3RegularChannel)
    (buffer : BufferHandle) (frameNumber : Nat) : Option (Outcome QCamera3RegularChannel) :=
  let rc : Int := NO_ERROR
  let started : Outcome QCamera3Channel :=
    if !c.base.m_bIsActive then c.base.start env
    else { rc := NO_ERROR, chan := c.base, calls := [] }
  let c1 : QCamera3RegularChannel := { c with base := started.chan }
  if (!c.base.m_bIsActive) && decide (rc ≠ NO_ERROR) then
    some { rc := rc, chan := c1, calls := started.calls }
  else
    match c1.mMemory with
    | none => some { rc := NO_MEMORY, chan := c1, calls := started.calls }
    | some mem =>
      let index := mem.getMatchBufIndex buffer
      if index < 0 then
        some { rc := DEAD_OBJECT, chan := c1, calls := started.calls }
      else
        match c1.base.mStreams.getD 0 none with
        | none => none
        | some s0 =>
          let rc := env.streamBufDone s0 index.toNat
          let calls := started.calls ++ [Call.streamBufDone s0 index.toNat]
          if rc ≠ NO_ERROR then
            some { rc := rc, chan := c1, calls := calls }
          else
            let marked := mem.markFrameNumber index.toNat frameNumber
            some { rc := marked.1, chan := { c1 with mMemory := some marked.2 }, calls := calls }

/-- Member `QCamera3RegularChannel::streamCbRoutine`; it returns nothing and
changes no member, so the result is the list of calls.  `none` is a read
through a null `mCamera3Buffers` or `mMemory`, or past the handle array. -/
def QCamera3RegularChannel.streamCbRoutine (c : QCamera3RegularChannel)
    (super_frame : Option mm_camera_super_buf_t) (stream : Option QCamera3Stream) :
    Option (List Call) :=
  match super_frame with
  | none => some []
  | some sf =>
    if sf.num_bufs ≠ 1 then some []
    else
      match sf.buf 0 with
      | none => some []
      | some b0 =>
        let frameIndex := toUInt8 b0.buf_idx
        if frameIndex ≥ c.mNumBufs then
          match stream with
          | some s => some [Call.streamBufDone s frameIndex]
          | none => some []
        else
          match c.mCamera3Buffers with
          | none => none
          | some bufs =>
            match bufs[frameIndex]? with
            | none => none
            | some resultBuffer =>
              match c.mMemory with
              | none => none
              | some mem =>
                let resultFrameNumber := mem.getFrameNumber frameIndex
                let result : camera3_stream_buffer_t :=
                  { stream := c.mCamera3Stream
                    buffer := resultBuffer
                    status := CAMERA3_BUFFER_STATUS_OK
                    acquire_fence := -1
                    release_fence := -1 }
                some [Call.channelCB none (some result) (toUInt32 resultFrameNumber) c.base.mUserData]

/-- Member `QCamera3RegularChannel::registerBuffers`.  `buffers` is the
caller's array and `privFlags h` the `flags` word of the private handle behind
the buffer `h`; the two flag masks of `gralloc_priv.h` and the table size are
parameters.  `none` is a read past the end of `buffers`. -/
def QCamera3RegularChannel.registerBuffers
    (MAX_STREAM_NUM_IN_BUNDLE PRIV_FLAGS_VIDEO_ENCODER PRIV_FLAGS_HW_TEXTURE : Nat)
    (env : Env) (c : QCamera3RegularChannel) (num_buffers : Nat)
    (buffers : List BufferHandle) (privFlags : BufferHandle → Nat) :
    Option (Outcome QCamera3RegularChannel) :=
  match buffers[0]? with
  | none => none
  | some b0 =>
    let flags := privFlags b0
    let r0 := c.base.init env none false
    let c1 : QCamera3RegularChannel := { c with base := r0.chan }
    if r0.rc < 0 then
      some { rc := r0.rc, chan := c1, calls := r0.calls }
    else
      let classified : Option (cam_stream_type_t × cam_format_t) :=
        if c.mCamera3Stream.format = HAL_PIXEL_FORMAT_IMPLEMENTATION_DEFINED then
          if flags &&& PRIV_FLAGS_VIDEO_ENCODER ≠ 0 then
            some (cam_stream_type_t.CAM_STREAM_TYPE_VIDEO, cam_format_t.CAM_FORMAT_YUV_420_NV12)
          else if flags &&& PRIV_FLAGS_HW_TEXTURE ≠ 0 then
            some (cam_stream_type_t.CAM_STREAM_TYPE_PREVIEW, cam_format_t.CAM_FORMAT_YUV_420_NV21)
          else none
        else none
      match classified with
      | none => some { rc := -EINVAL, chan := c1, calls := r0.calls }
      | some (streamType, streamFormat) =>
        let c2 : QCamera3RegularChannel := { c1 with mNumBufs := num_buffers }
        if env.newBufferArrayNull then
          some { rc := -ENOMEM, chan := { c2 with mCamera3Buffers := none }, calls := r0.calls }
        else if num_buffers ≤ buffers.length then
          let c3 : QCamera3RegularChannel :=
            { c2 with mCamera3Buffers := some (buffers.take num_buffers) }
          let streamDim : cam_dimension_t :=
            { width := c.mCamera3Stream.width, height := c.mCamera3Stream.height }
          let r1 := c3.base.addStream MAX_STREAM_NUM_IN_BUNDLE env streamType streamFormat
            streamDim num_buffers
          some { rc := r1.rc, chan := { c3 with base := r1.chan }, calls := r0.calls ++ r1.calls }
        else none

/-! ## QCamera3MetadataChannel -/

/-- The metadata channel: the base object and its heap memory. -/
structure QCamera3MetadataChannel where
  base : QCamera3Channel
  mMemory : Option QCamera3HeapMemory
  deriving DecidableEq, Repr

/-- Member `QCamera3MetadataChannel::streamCbRoutine`.  `none` is the
dereference of a null `stream` or of a null `bufs[0]`. -/
def QCamera3MetadataChannel.streamCbRoutine (c : QCamera3MetadataChannel)
    (super_frame : Option mm_camera_super_buf_t) (stream : Option QCamera3Stream) :
    Option (List Call) :=
  let requestNumber : Nat := 0
  match super_frame with
  | none => some []
  | some sf =>
    if sf.num_bufs ≠ 1 then some []
    else
      match stream, sf.buf 0 with
      | some s, some b0 =>
        some [Call.channelCB (some sf) none requestNumber c.base.mUserData,
              Call.streamBufDone s b0.buf_idx]
      | _, _ => none

/-- Member `QCamera3MetadataChannel::initialize`; `metadataSize` is
`sizeof(metadata_buffer_t)`. -/
def QCamera3MetadataChannel.initializeChannel (MAX_STREAM_NUM_IN_BUNDLE metadataSize : Nat)
    (env : Env) (c : QCamera3MetadataChannel) : Outcome QCamera3MetadataChannel :=
  if c.mMemory.isSome || decide (c.base.m_numStreams > 0) then
    { rc := -EINVAL, chan := c, calls := [] }
  else
    let r0 := c.base.init env none false
    if r0.rc < 0 then
      { rc := r0.rc, chan := { c with base := r0.chan }, calls := r0.calls }
    else
      let streamDim : cam_dimension_t := { width := metadataSize, height := 1 }
      let r1 := r0.chan.addStream MAX_STREAM_NUM_IN_BUNDLE env
        cam_stream_type_t.CAM_STREAM_TYPE_METADATA cam_format_t.CAM_FORMAT_MAX streamDim
        MIN_STREAMING_BUFFER_NUM
      { rc := r1.rc, chan := { c with base := r1.chan }, calls := r0.calls ++ r1.calls }

/-- Member `QCamera3MetadataChannel::request`; neither argument is read. -/
def QCamera3MetadataChannel.request (env : Env) (c : QCamera3MetadataChannel)
    (_buffer : BufferHandle) (_frameNumber : Nat) : Outcome QCamera3MetadataChannel :=
  if !c.base.m_bIsActive then
    let r := c.base.start env
    { rc := r.rc, chan := { c with base := r.chan }, calls := r.calls }
  else
    { rc := 0, chan := c, calls := [] }

/-- Member `QCamera3MetadataChannel::registerBuffers`; neither argument is
read. -/
def QCamera3MetadataChannel.registerBuffers (c : QCamera3MetadataChannel)
    (_num_buffers : Nat) (_buffers : List BufferHandle) : Outcome QCamera3MetadataChannel :=
  { rc := -EINVAL, chan := c, calls := [] }

/-! ## QCamera3PicChannel -/

/-- The per-request still-capture settings (`jpeg_settings_t`): the members
the channel reads.  `lens_focal_length` is a `float` and `gps_coordinates` an
array of three `double`s (latitude, longitude, altitude), each given by the
rational number it denotes; `gps_timestamp` is an `int64_t`. -/
structure jpeg_settings_t where
  max_jpeg_size : Int
  jpeg_orientation : Int
  jpeg_quality : Int
  thumbnail_size : cam_dimension_t
  lens_focal_length : ℚ := 0
  gps_processing_method : Int := 0
  gps_coordinates : ℚ × ℚ × ℚ := (0, 0, 0)
  gps_timestamp : Int := 0
  deriving DecidableEq, Repr

/-- Modelled from the spec: the post-processor's record of encode jobs in
flight, keyed by job identifier; a job is found by its identifier and is
released when its completion has been delivered. -/
structure QCamera3PostProcessor where
  ongoingJobs : List Nat
  deriving DecidableEq, Repr

/-- Status of an encode job (`jpeg_job_status_t`). -/
inductive jpeg_job_status_t
  | JPEG_JOB_STATUS_DONE
  | JPEG_JOB_STATUS_ERROR
  deriving DecidableEq, Repr

/-- The encoder's output descriptor (`mm_jpeg_output_t`): address of the
output buffer and number of bytes the encoder filled. -/
structure mm_jpeg_output_t where
  buf_vaddr : Nat
  buf_filled_len : Nat
  deriving DecidableEq, Repr

/-- Value of `CAMERA3_JPEG_BLOB_ID` (android `hardware/camera3.h`). -/
def CAMERA3_JPEG_BLOB_ID : Nat := 255

/-- Size in bytes of `camera3_jpeg_blob_t` (a `uint16_t` identifier and a
`uint32_t` length, aligned). -/
def sizeofJpegHeader : Int := 8

/-- The static member `QCamera3PicChannel::kMaxBuffers`. -/
def QCamera3PicChannel_kMaxBuffers : Nat := 1

/-- Modelled from the spec: the enumerator of the burst notify mode, declared
in a header outside this file. -/
def MM_CAMERA_SUPER_BUF_NOTIFY_BURST : Nat := 0

/-- The picture (still capture) channel: the base object and the members
`QCamera3PicChannel` adds that the stream callback and the request path
use.  `mJpegSettings` is null after construction. -/
structure QCamera3PicChannel where
  base : QCamera3Channel
  mCamera3Stream : camera3_stream_t
  mNumBufs : Nat
  mCamera3Buffers : Option (List BufferHandle)
  mCurrentBufIndex : Int
  mMemory : Option QCamera3GrallocMemory
  mYuvMemory : Option QCamera3HeapMemory
  mJpegSettings : Option jpeg_settings_t := none
  m_postprocessor : QCamera3PostProcessor := { ongoingJobs := [] }
  deriving DecidableEq, Repr

/-- Member `QCamera3PicChannel::streamCbRoutine`; `env.mallocNull` says
whether the `malloc` of the frame copy fails. -/
def QCamera3PicChannel.streamCbRoutine (env : Env) (c : QCamera3PicChannel)
    (super_frame : Option mm_camera_super_buf_t) (stream : Option QCamera3Stream) :
    List Call :=
  match super_frame with
  | none => []
  | some sf =>
    if sf.num_bufs ≠ 1 then []
    else
      match sf.buf 0 with
      | none => []
      | some b0 =>
        let frameIndex := toUInt8 b0.buf_idx
        if frameIndex ≥ c.mNumBufs then
          match stream with
          | some s => [Call.streamBufDone s frameIndex]
          | none => []
        else if env.mallocNull then
          match stream with
          | some s => [Call.streamBufDone s frameIndex]
          | none => []
        else
          [Call.postprocProcessData sf]

/-- Member `QCamera3PicChannel::request`.  The results of
`m_postprocessor.start` and of `request_super_buf` are not returned. -/
def QCamera3PicChannel.request (env : Env) (c : QCamera3PicChannel) (buffer : BufferHandle)
    (frameNumber : Nat) (jpegSettings : Option jpeg_settings_t) : Outcome QCamera3PicChannel :=
  let c0 : QCamera3PicChannel := { c with mJpegSettings := jpegSettings }
  let started : Outcome QCamera3Channel :=
    if !c.base.m_bIsActive then c.base.start env
    else { rc := NO_ERROR, chan := c.base, calls := [] }
  let rc := started.rc
  let c1 : QCamera3PicChannel := { c0 with base := started.chan }
  if rc ≠ NO_ERROR then
    { rc := rc, chan := c1, calls := started.calls }
  else
    match c1.mMemory with
    | none => { rc := NO_MEMORY, chan := c1, calls := started.calls }
    | some mem =>
      let index := mem.getMatchBufIndex buffer
      if index < 0 then
        { rc := DEAD_OBJECT, chan := c1, calls := started.calls }
      else
        let marked := mem.markFrameNumber index.toNat frameNumber
        { rc := marked.1
          chan := { c1 with mMemory := some marked.2, mCurrentBufIndex := index }
          calls := started.calls ++
            [Call.postprocStart marked.2 index.toNat,
             Call.request_super_buf c1.base.m_camHandle c1.base.m_handle 1] }

/-- What a member function returning nothing leaves behind: the object and
the calls made. -/
structure Effect (σ : Type) where
  chan : σ
  calls : List Call
  deriving DecidableEq

/-- The value `maxJpegSize` computed by `jpegEvtHandle` from the request's
`max_jpeg_size` and the size of the current output buffer. -/
def jpegEvtMaxJpegSize (max_jpeg_size bufferSize : Int) : Int :=
  if max_jpeg_size ≤ 0 ∨ max_jpeg_size > bufferSize then bufferSize else max_jpeg_size

/-- The static member `QCamera3PicChannel::jpegEvtHandle`; `userdata` is the
channel pointer.  The trailer write is the call `trailerWrite` with the byte
displacement `maxJpegSize - sizeof(jpegHeader)` from `buf_vaddr`.  `none` is a
dereference of a null `p_output`, `mJpegSettings`, `mMemory` or
`mCamera3Buffers`, or a read outside the handle array. -/
def QCamera3PicChannel.jpegEvtHandle (status : jpeg_job_status_t) (_client_hdl : Nat)
    (jobId : Nat) (p_output : Option mm_jpeg_output_t) (userdata : Option QCamera3PicChannel) :
    Option (Effect (Option QCamera3PicChannel)) :=
  match userdata with
  | none => some { chan := none, calls := [] }
  | some obj =>
    let job : Bool := decide (jobId ∈ obj.m_postprocessor.ongoingJobs)
    let resultStatus : Int :=
      if job = false ∨ status = jpeg_job_status_t.JPEG_JOB_STATUS_ERROR then
        CAMERA3_BUFFER_STATUS_ERROR
      else CAMERA3_BUFFER_STATUS_OK
    match p_output, obj.mJpegSettings, obj.mMemory with
    | some out, some settings, some mem =>
      let jpeg_blob_id := CAMERA3_JPEG_BLOB_ID
      let jpeg_size := out.buf_filled_len % 4294967296
      let maxJpegSize :=
        jpegEvtMaxJpegSize settings.max_jpeg_size (mem.getSize obj.mCurrentBufIndex)
      let write := Call.trailerWrite out.buf_vaddr (maxJpegSize - sizeofJpegHeader)
        jpeg_blob_id jpeg_size
      let sync := Call.cleanInvalidateCache obj.mCurrentBufIndex
      match obj.mCamera3Buffers with
      | none => none
      | some bufs =>
        if obj.mCurrentBufIndex < 0 then none
        else
          match bufs[obj.mCurrentBufIndex.toNat]? with
          | none => none
          | some resultBuffer =>
            let resultFrameNumber := mem.getFrameNumber obj.mCurrentBufIndex.toNat
            let result : camera3_stream_buffer_t :=
              { stream := obj.mCamera3Stream
                buffer := resultBuffer
                status := resultStatus
                acquire_fence := -1
                release_fence := -1 }
            let cb := Call.channelCB none (some result) (toUInt32 resultFrameNumber)
              obj.base.mUserData
            if job then
              some { chan := some { obj with m_postprocessor :=
                                      { ongoingJobs := obj.m_postprocessor.ongoingJobs.erase jobId } }
                     calls := [write, sync, cb, Call.releaseJpegJobData jobId] }
            else
              some { chan := some obj, calls := [write, sync, cb] }
    | _, _, _ => none

/-- Member `QCamera3PicChannel::initialize`. -/
def QCamera3PicChannel.initializeChannel (MAX_STREAM_NUM_IN_BUNDLE : Nat) (env : Env)
    (c : QCamera3PicChannel) : Outcome QCamera3PicChannel :=
  let attr : mm_camera_channel_attr_t :=
    { notify_mode := MM_CAMERA_SUPER_BUF_NOTIFY_BURST
      look_back := 1
      post_frame_skip := 1
      water_mark := 1
      max_unmatched_frames := 1 }
  let r0 := c.base.init env (some attr) true
  if r0.rc < 0 then
    { rc := r0.rc, chan := { c with base := r0.chan }, calls := r0.calls }
  else
    let streamDim : cam_dimension_t :=
      { width := c.mCamera3Stream.width, height := c.mCamera3Stream.height }
    let num_buffers := QCamera3PicChannel_kMaxBuffers + 1
    let r1 := r0.chan.addStream MAX_STREAM_NUM_IN_BUNDLE env
      cam_stream_type_t.CAM_STREAM_TYPE_SNAPSHOT cam_format_t.CAM_FORMAT_YUV_420_NV21
      streamDim num_buffers
    { rc := r1.rc, chan := { c with base := r1.chan }, calls := r0.calls ++ r1.calls }

/-- Member `QCamera3PicChannel::registerBuffers`.  `none` is a read past the
end of `buffers`. -/
def QCamera3PicChannel.registerBuffers (MAX_STREAM_NUM_IN_BUNDLE : Nat) (env : Env)
    (c : QCamera3PicChannel) (num_buffers : Nat) (buffers : List BufferHandle) :
    Option (Outcome QCamera3PicChannel) :=
  let r0 := c.initializeChannel MAX_STREAM_NUM_IN_BUNDLE env
  if r0.rc < 0 then some r0
  else if r0.chan.mCamera3Stream.format = HAL_PIXEL_FORMAT_BLOB then
    let c1 : QCamera3PicChannel := { r0.chan with mNumBufs := num_buffers }
    if env.newBufferArrayNull then
      some { rc := -ENOMEM, chan := { c1 with mCamera3Buffers := none }, calls := r0.calls }
    else if num_buffers ≤ buffers.length then
      some { rc := r0.rc
             chan := { c1 with mCamera3Buffers := some (buffers.take num_buffers) }
             calls := r0.calls }
    else none
  else
    some { rc := -EINVAL, chan := r0.chan, calls := r0.calls }

/-- Member `QCamera3PicChannel::getStreamBufs`: the new state and the memory
returned to the stream, `none` for a null return.  `bufSize` gives the
allocated size of a caller buffer. -/
def QCamera3PicChannel.getStreamBufs (env : Env) (c : QCamera3PicChannel) (len : Nat)
    (bufSize : BufferHandle → Nat) : QCamera3PicChannel × Option QCamera3HeapMemory :=
  match c.mCamera3Buffers with
  | none => (c, none)
  | some bufs =>
    if c.mNumBufs = 0 then (c, none)
    else if env.newMemoryNull then ({ c with mMemory := none }, none)
    else if env.memRegisterBuffers < 0 then ({ c with mMemory := none }, none)
    else
      let c1 : QCamera3PicChannel :=
        { c with mMemory := some (QCamera3GrallocMemory.ofHandles (bufs.take c.mNumBufs) bufSize) }
      if env.mallocNull then ({ c1 with mYuvMemory := none }, none)
      else if env.heapAllocate < 0 then ({ c1 with mYuvMemory := none }, none)
      else
        let yuv : QCamera3HeapMemory :=
          { count := QCamera3PicChannel_kMaxBuffers + 1, size := len }
        ({ c1 with mYuvMemory := some yuv }, some yuv)

/-! ## Floating-point values

A finite `float` or `double` is given by the rational number it denotes.  An
operation of C on such values is the exact operation followed by the rounding
of IEEE 754 to the nearest value of the operation's type (binary32 for
`float`, binary64 for `double`), a tie going to the even significand.
Overflow to infinity is not modelled: an overflowed value keeps its sign, and
every magnitude read below goes through a conversion to `int`, which is
undefined once the value has left the range of `int`. -/

/-- The integer nearest to a rational that is not negative, a tie going to
the even neighbour. -/
def roundNearestEven (x : ℚ) : ℤ :=
  if x - ⌊x⌋ < 1 / 2 then ⌊x⌋
  else if 1 / 2 < x - ⌊x⌋ then ⌊x⌋ + 1
  else if ⌊x⌋ % 2 = 0 then ⌊x⌋ else ⌊x⌋ + 1

/-- The number of binary digits of `n`, found with at most `fuel` halvings. -/
def bitLength : ℕ → ℕ → ℕ
  | 0, _ => 0
  | fuel + 1, n => if n = 0 then 0 else bitLength fuel (n / 2) + 1

/-- The binary exponent of a positive rational `x`: the `e` with
`2 ^ e ≤ x < 2 ^ (e + 1)`. -/
def binaryExponent (x : ℚ) : ℤ :=
  if (2 : ℚ) ^ ((bitLength x.num.natAbs x.num.natAbs : ℤ) - (bitLength x.den x.den : ℤ)) ≤ x then
    (bitLength x.num.natAbs x.num.natAbs : ℤ) - (bitLength x.den x.den : ℤ)
  else (bitLength x.num.natAbs x.num.natAbs : ℤ) - (bitLength x.den x.den : ℤ) - 1

/-- The exponent of the last significand bit of a magnitude `x` in a binary
format of `p` significand bits whose least exponent is `emin`. -/
def ulpExponent (p : ℕ) (emin : ℤ) (x : ℚ) : ℤ :=
  max (binaryExponent x) emin - (p - 1)

/-- Rounding of a magnitude to a binary format of `p` significand bits whose
least exponent is `emin`: to nearest, ties to even. -/
def roundMagnitude (p : ℕ) (emin : ℤ) (x : ℚ) : ℚ :=
  if x = 0 then 0
  else (roundNearestEven (x / (2 : ℚ) ^ ulpExponent p emin x) : ℚ) * (2 : ℚ) ^ ulpExponent p emin x

/-- Rounding of a rational to a binary format: the sign is kept and the
magnitude rounded. -/
def roundBinary (p : ℕ) (emin : ℤ) (x : ℚ) : ℚ :=
  if x < 0 then -roundMagnitude p emin (-x) else roundMagnitude p emin x

/-- The `float` nearest to a rational (binary32: 24 significand bits, least
exponent -126). -/
def toFloat (x : ℚ) : ℚ := roundBinary 24 (-126) x

/-- The `double` nearest to a rational (binary64: 53 significand bits, least
exponent -1022). -/
def toDouble (x : ℚ) : ℚ := roundBinary 53 (-1022) x

/-- The integral part of a value, the fraction being dropped (towards
zero). -/
def truncate (x : ℚ) : ℤ := if x < 0 then -⌊-x⌋ else ⌊x⌋

/-- Conversion of a floating value to `int`: the fraction is dropped, and
the behaviour is undefined (`none`) when the integral part is not in the
range of `int`. -/
def floatToInt (x : ℚ) : Option ℤ :=
  if -2147483648 ≤ truncate x ∧ truncate x ≤ 2147483647 then some (truncate x) else none

/-- The number written by `snprintf(str, sizeof(str), "%f", value)`: the
value rounded to six decimals, its sign apart (a negative value that rounds
to zero is written `-0.000000`, which reads back as a zero).  The text is
cut after 29 characters; a value that long is beyond the range of `int`. -/
def printf_f (value : ℚ) : ℚ :=
  if value < 0 then -((roundNearestEven (-value * 1000000) : ℚ) / 1000000)
  else (roundNearestEven (value * 1000000) : ℚ) / 1000000

/-- Library function `atof` on the text of a decimal number: the nearest
`double`. -/
def atof (str : ℚ) : ℚ := toDouble str

/-- Library function `strtof` on the text of a decimal number: the nearest
`float`. -/
def strtof (str : ℚ) : ℚ := toFloat str

/-! ## EXIF helpers -/

/-- Modelled from the spec: the type `rat_t` of a header outside the
sources, a rational number given by a 32-bit unsigned numerator and
denominator. -/
structure rat_t where
  num : Nat
  denom : Nat
  deriving DecidableEq, Repr

/-- Function `getRational` on a non-null `rat`: the two `int`s are stored in
the unsigned members; the status is `NO_ERROR`. -/
def getRational (num denom : Int) : rat_t := { num := toUInt32 num, denom := toUInt32 denom }

/-- Function `parseGPSCoordinate` on a non-null `coord`, the text being
given by the decimal number it holds: the three rationals stored (the status
is `NO_ERROR`), `none` when a conversion to `int` is undefined. -/
def parseGPSCoordinate (coord_str : ℚ) : Option (List rat_t) :=
  let degF : ℚ := toFloat (atof coord_str)
  let degF : ℚ := if degF < 0 then -degF else degF
  match floatToInt degF with
  | none => none
  | some deg =>
    let minF : ℚ := toFloat (toFloat (degF - toFloat deg) * 60)
    match floatToInt minF with
    | none => none
    | some min =>
      let secF : ℚ := toFloat (toFloat (minF - toFloat min) * 60)
      match floatToInt (toFloat (secF * 10000)) with
      | none => none
      | some sec => some [getRational deg 1, getRational min 1, getRational sec 10000]

/-- Function `getExifLatitude`: status, the three rationals and the text of
`latRef`. -/
def getExifLatitude (value : ℚ) : Option (Int × List rat_t × String) :=
  let str := printf_f value
  match parseGPSCoordinate str with
  | none => none
  | some latitude =>
    let latitudeValue : ℚ := strtof str
    some (NO_ERROR, latitude, if latitudeValue < 0 then "S" else "N")

/-- Function `getExifLongitude`: status, the three rationals and the text of
`lonRef`. -/
def getExifLongitude (value : ℚ) : Option (Int × List rat_t × String) :=
  let str := printf_f value
  match parseGPSCoordinate str with
  | none => none
  | some longitude =>
    let longitudeValue : ℚ := strtof str
    some (NO_ERROR, longitude, if longitudeValue < 0 then "W" else "E")

/-- The broken-down time `struct tm`: the members read here. -/
structure tm where
  tm_sec : Int
  tm_min : Int
  tm_hour : Int
  tm_mday : Int
  tm_mon : Int
  tm_year : Int
  deriving DecidableEq, Repr

/-- The functions of the C library whose results the EXIF helpers take over
as they are: `atol` on the decimal text of an integer, `gmtime` (`none` for
a null return) and the text written by
`strftime(gpsDateStamp, bufLen, "%Y:%m:%d", UTCTimestamp)`. -/
structure Libc where
  atol : Int → Int
  gmtime : Int → Option tm
  strftime_Ymd : tm → String

/-- The text of `printf`'s `%0<width>d` for an `int`. -/
def printf_0d (width : Nat) (i : Int) : String :=
  if i < 0 then
    "-" ++ String.mk (List.replicate (width - 1 - (toString i.natAbs).length) '0')
      ++ toString i.natAbs
  else String.mk (List.replicate (width - (toString i.natAbs).length) '0') ++ toString i.natAbs

/-- The first `count` characters of a buffer that holds a text followed by
zero characters. -/
def bufferChars (text : String) (count : Nat) : String :=
  String.mk ((text.data ++ List.replicate count (Char.ofNat 0)).take count)

/-- Function `getExifDateTime`, `timeinfo` being the local time that
`time` and `localtime` give at the call: status, the text written into
`dateTime` (at most 19 characters) and `count`. -/
def getExifDateTime (timeinfo : tm) : Int × String × Nat :=
  (NO_ERROR,
   (printf_0d 4 (timeinfo.tm_year + 1900) ++ ":" ++ printf_0d 2 (timeinfo.tm_mon + 1) ++ ":"
      ++ printf_0d 2 timeinfo.tm_mday ++ " " ++ printf_0d 2 timeinfo.tm_hour ++ ":"
      ++ printf_0d 2 timeinfo.tm_min ++ ":" ++ printf_0d 2 timeinfo.tm_sec).take 19,
   20)

/-- Constant `FOCAL_LENGTH_DECIMAL_PRECISION`. -/
def FOCAL_LENGTH_DECIMAL_PRECISION : Int := 100

/-- Constant `EXIF_ASCII_PREFIX_SIZE`. -/
def EXIF_ASCII_PREFIX_SIZE : Nat := 8

/-- Constant `ExifAsciiPrefix`: the characters `ASCII` and three zero
characters. -/
def ExifAsciiPrefix : String :=
  String.mk ([ 'A', 'S', 'C', 'I', 'I' ] ++ List.replicate 3 (Char.ofNat 0))

/-- Function `getExifFocalLength`: status and the rational stored, `none`
when the conversion to `int` is undefined. -/
def getExifFocalLength (value : ℚ) : Option (Int × rat_t) :=
  match floatToInt (toFloat (value * FOCAL_LENGTH_DECIMAL_PRECISION)) with
  | none => none
  | some focalLengthValue =>
    some (NO_ERROR, getRational focalLengthValue FOCAL_LENGTH_DECIMAL_PRECISION)

/-- Function `getExifGpsProcessingMethod`: status, the characters written
(the prefix, the decimal text of the value and a closing zero) and
`count`. -/
def getExifGpsProcessingMethod (value : Int) : Int × String × Nat :=
  (NO_ERROR,
   ExifAsciiPrefix ++ toString value ++ String.mk [Char.ofNat 0],
   EXIF_ASCII_PREFIX_SIZE + (toString value).length + 1)

/-- Function `getExifAltitude`: status, the rational stored and the byte
`altRef`, `none` when the conversion to `int` is undefined. -/
def getExifAltitude (value : ℚ) : Option (Int × rat_t × Nat) :=
  let str := printf_f value
  let value : ℚ := atof str
  let altRef : Nat := if value < 0 then 1 else 0
  let value : ℚ := if value < 0 then -value else value
  match floatToInt (toDouble (value * 1000)) with
  | none => none
  | some num => some (NO_ERROR, getRational num 1000, altRef)

/-- Function `getExifGpsDateTimeStamp`: status, the text of `gpsDateStamp`
and the three rationals of `gpsTimeStamp`, `none` when `gmtime` returns a
null pointer, which is then read. -/
def getExifGpsDateTimeStamp (libc : Libc) (value : Int) : Option (Int × String × List rat_t) :=
  let unixTime : Int := libc.atol value
  match libc.gmtime unixTime with
  | none => none
  | some UTCTimestamp =>
    some (NO_ERROR, libc.strftime_Ymd UTCTimestamp,
      [ getRational UTCTimestamp.tm_hour 1, getRational UTCTimestamp.tm_min 1,
        getRational UTCTimestamp.tm_sec 1 ])

/-- The tag identifiers used by `getExifData`; their values are constants of
a header outside the sources. -/
inductive exif_tag_id_t
  | EXIFTAGID_EXIF_DATE_TIME_ORIGINAL
  | EXIFTAGID_FOCAL_LENGTH
  | EXIFTAGID_GPS_PROCESSINGMETHOD
  | EXIFTAGID_GPS_LATITUDE
  | EXIFTAGID_GPS_LATITUDE_REF
  | EXIFTAGID_GPS_LONGITUDE
  | EXIFTAGID_GPS_LONGITUDE_REF
  | EXIFTAGID_GPS_ALTITUDE
  | EXIFTAGID_GPS_ALTITUDE_REF
  | EXIFTAGID_GPS_DATESTAMP
  | EXIFTAGID_GPS_TIMESTAMP
  deriving DecidableEq, Repr

/-- The entry types used by `getExifData`. -/
inductive exif_tag_type_t
  | EXIF_BYTE
  | EXIF_ASCII
  | EXIF_RATIONAL
  deriving DecidableEq, Repr

/-- The value of an entry: characters, rationals or a byte. -/
inductive ExifValue
  | ascii (chars : String)
  | rationals (rats : List rat_t)
  | byte (b : Nat)
  deriving DecidableEq, Repr

/-- One entry of the EXIF list: tag, type, count and value. -/
structure ExifEntry where
  tag_id : exif_tag_id_t
  type : exif_tag_type_t
  count : Nat
  data : ExifValue
  deriving DecidableEq, Repr

/-- Modelled from the spec: member `addEntry` of `QCamera3Exif`, defined
outside the sources, puts the entry at the end of the ordered tag list. -/
def QCamera3Exif.addEntry (exif : List ExifEntry) (tag_id : exif_tag_id_t)
    (type : exif_tag_type_t) (count : Nat) (data : ExifValue) : List ExifEntry :=
  exif ++ [{ tag_id := tag_id, type := type, count := count, data := data }]

/-- Member `QCamera3PicChannel::getExifData`, the `QCamera3Exif` object
having been allocated: the ordered list of the entries added, `none` when
`mJpegSettings` is null and read or a helper's behaviour is undefined.
`timeinfo` is the local time at the call, which `getExifDateTime` reads. -/
def QCamera3PicChannel.getExifData (libc : Libc) (timeinfo : tm) (c : QCamera3PicChannel) :
    Option (List ExifEntry) :=
  let exif : List ExifEntry := []
  let dateTime := getExifDateTime timeinfo
  let exif :=
    if dateTime.1 = NO_ERROR then
      QCamera3Exif.addEntry exif .EXIFTAGID_EXIF_DATE_TIME_ORIGINAL .EXIF_ASCII dateTime.2.2
        (.ascii (bufferChars dateTime.2.1 dateTime.2.2))
    else exif
  match c.mJpegSettings with
  | none => none
  | some mJpegSettings =>
    match getExifFocalLength mJpegSettings.lens_focal_length with
    | none => none
    | some focalLength =>
      let exif :=
        if focalLength.1 = NO_ERROR then
          QCamera3Exif.addEntry exif .EXIFTAGID_FOCAL_LENGTH .EXIF_RATIONAL 1
            (.rationals [focalLength.2])
        else exif
      let gpsProcessingMethod := getExifGpsProcessingMethod mJpegSettings.gps_processing_method
      let exif :=
        if gpsProcessingMethod.1 = NO_ERROR then
          QCamera3Exif.addEntry exif .EXIFTAGID_GPS_PROCESSINGMETHOD .EXIF_ASCII
            gpsProcessingMethod.2.2 (.ascii gpsProcessingMethod.2.1)
        else exif
      match getExifLatitude mJpegSettings.gps_coordinates.1 with
      | none => none
      | some latitude =>
        let exif :=
          if latitude.1 = NO_ERROR then
            QCamera3Exif.addEntry
              (QCamera3Exif.addEntry exif .EXIFTAGID_GPS_LATITUDE .EXIF_RATIONAL 3
                (.rationals latitude.2.1))
              .EXIFTAGID_GPS_LATITUDE_REF .EXIF_ASCII 2 (.ascii (bufferChars latitude.2.2 2))
          else exif
        match getExifLongitude mJpegSettings.gps_coordinates.2.1 with
        | none => none
        | some longitude =>
          let exif :=
            if longitude.1 = NO_ERROR then
              QCamera3Exif.addEntry
                (QCamera3Exif.addEntry exif .EXIFTAGID_GPS_LONGITUDE .EXIF_RATIONAL 3
                  (.rationals longitude.2.1))
                .EXIFTAGID_GPS_LONGITUDE_REF .EXIF_ASCII 2 (.ascii (bufferChars longitude.2.2 2))
            else exif
          match getExifAltitude mJpegSettings.gps_coordinates.2.2 with
          | none => none
          | some altitude =>
            let exif :=
              if altitude.1 = NO_ERROR then
                QCamera3Exif.addEntry
                  (QCamera3Exif.addEntry exif .EXIFTAGID_GPS_ALTITUDE .EXIF_RATIONAL 1
                    (.rationals [altitude.2.1]))
                  .EXIFTAGID_GPS_ALTITUDE_REF .EXIF_BYTE 1 (.byte altitude.2.2)
              else exif
            match getExifGpsDateTimeStamp libc mJpegSettings.gps_timestamp with
            | none => none
            | some gpsDateTimeStamp =>
              let exif :=
                if gpsDateTimeStamp.1 = NO_ERROR then
                  QCamera3Exif.addEntry
                    (QCamera3Exif.addEntry exif .EXIFTAGID_GPS_DATESTAMP .EXIF_ASCII
                      (gpsDateTimeStamp.2.1.length + 1)
                      (.ascii (bufferChars gpsDateTimeStamp.2.1
                        (gpsDateTimeStamp.2.1.length + 1))))
                    .EXIFTAGID_GPS_TIMESTAMP .EXIF_RATIONAL 3
                    (.rationals gpsDateTimeStamp.2.2)
                else exif
              some exif

/-! ## The forwarding of bufDone, in the words of its description -/

/-- The elements of a super-buffer that `bufDone` forwards, as the
description has it: in element order, every non-null element among the first
`num_bufs` whose `stream_id` is the handle of an owned stream, paired with
that stream. -/
def forwardedElements (ch : QCamera3Channel) (sb : mm_camera_super_buf_t) :
    List (QCamera3Stream × Nat) :=
  (List.range sb.num_bufs).filterMap (fun i =>
    (sb.buf i).bind (fun b => (ch.findStream b.stream_id).map (fun s => (s, b.buf_idx))))

/-! ## Concrete objects used to exercise the definitions -/

/-- A collaborator oracle with the given driver start and stop codes, every
other call succeeding. -/
def envWith (startRc stopRc : Int) : Env :=
  { add_channel := 7
    start_channel := startRc
    stop_channel := stopRc
    request_super_buf := 0
    newStreamNull := false
    streamMyHandle := 3
    streamInit := fun _ _ _ _ => 0
    streamStart := fun _ => 0
    streamStop := fun _ => 0
    streamBufDone := fun _ _ => 0
    mallocNull := false
    newBufferArrayNull := false
    newMemoryNull := false
    memRegisterBuffers := 0
    heapAllocate := 0 }

/-- A preview stream with handle 3 on channel 7 of camera 1. -/
def sampleStream : QCamera3Stream :=
  { camHandle := 1
    channelHandle := 7
    myHandle := 3
    streamType := cam_stream_type_t.CAM_STREAM_TYPE_PREVIEW
    streamFormat := cam_format_t.CAM_FORMAT_YUV_420_NV21
    streamDim := { width := 640, height := 480 }
    minStreamBufNum := 2 }

/-- A channel of camera 1 owning `sampleStream`, with a table of four
slots. -/
def sampleChannel (active : Bool) : QCamera3Channel :=
  { m_camHandle := 1
    m_bIsActive := active
    m_handle := 7
    m_numStreams := 1
    mStreams := [some sampleStream, none, none, none]
    mUserData := 9 }

/-- An oracle in which every stream refuses to start while the driver-level
channel start succeeds. -/
def envStreamStartFails : Env :=
  { envWith 0 0 with streamStart := fun _ => -1 }

/-- Whether a call is the driver's stop_channel. -/
def Call.isStopChannel : Call → Bool
  | Call.stop_channel _ _ => true
  | _ => false

/-- Whether a call is a stream's bufDone. -/
def Call.isStreamBufDone : Call → Bool
  | Call.streamBufDone _ _ => true
  | _ => false

/-- Whether a call is the delivery callback. -/
def Call.isChannelCB : Call → Bool
  | Call.channelCB _ _ _ _ => true
  | _ => false

/-- A freshly constructed channel of camera 1 after a successful init(): no
stream yet, a table of four slots. -/
def emptyChannel : QCamera3Channel :=
  ((QCamera3Channel.ctor 4 1 9).init (envWith 0 0) none false).chan

/-- A sequence of operations that tries to add a stream three times. -/
def sampleOps : List (Env × ChannelOp) :=
  [ (envWith 0 0, ChannelOp.init none false),
    (envWith 0 0, ChannelOp.addStream cam_stream_type_t.CAM_STREAM_TYPE_PREVIEW
        cam_format_t.CAM_FORMAT_YUV_420_NV21 { width := 640, height := 480 } 2),
    (envWith 0 0, ChannelOp.addStream cam_stream_type_t.CAM_STREAM_TYPE_VIDEO
        cam_format_t.CAM_FORMAT_YUV_420_NV12 { width := 640, height := 480 } 2),
    (envWith 0 0, ChannelOp.start),
    (envWith 0 0, ChannelOp.addStream cam_stream_type_t.CAM_STREAM_TYPE_VIDEO
        cam_format_t.CAM_FORMAT_YUV_420_NV12 { width := 640, height := 480 } 2),
    (envWith 0 0, ChannelOp.stop) ]

/-- A regular channel of camera 1 with two registered buffers, handles 100
and 200, and its gralloc memory created. -/
def sampleRegular (active : Bool) : QCamera3RegularChannel :=
  { base := sampleChannel active
    mCamera3Stream := { format := 34, width := 640, height := 480 }
    mNumBufs := 2
    mCamera3Buffers := some [100, 200]
    mMemory := some { slots := [{ handle := 100, frameNumber := 0 },
                                { handle := 200, frameNumber := 0 }] } }

/-- A one-element super-buffer of stream 3 with the given driver buffer
index. -/
def singleBuf (buf_idx : Nat) : mm_camera_super_buf_t :=
  { num_bufs := 1, bufs := [some { stream_id := 3, buf_idx := buf_idx }] }

/-- Whether a call is the driver's start_channel. -/
def Call.isStartChannel : Call → Bool
  | Call.start_channel _ _ => true
  | _ => false

/-- Whether a call is a stream's start. -/
def Call.isStreamStart : Call → Bool
  | Call.streamStart _ => true
  | _ => false

/-- Whether a call is the driver's add_channel. -/
def Call.isAddChannel : Call → Bool
  | Call.add_channel _ _ _ => true
  | _ => false

/-- Whether a call constructs or initialises a stream. -/
def Call.isStreamCreate : Call → Bool
  | Call.streamNew _ _ => true
  | Call.streamInit _ => true
  | _ => false

/-- Whether a call starts the post-processor. -/
def Call.isPostprocStart : Call → Bool
  | Call.postprocStart _ _ => true
  | _ => false

/-- Whether a call hands a frame to the post-processor. -/
def Call.isPostprocProcessData : Call → Bool
  | Call.postprocProcessData _ => true
  | _ => false

/-- Whether a call is the driver's request_super_buf. -/
def Call.isRequestSuperBuf : Call → Bool
  | Call.request_super_buf _ _ _ => true
  | _ => false

/-- A picture channel of camera 1 with two registered output buffers,
handles 100 and 200, and its gralloc memory created. -/
def samplePic (active : Bool) : QCamera3PicChannel :=
  { base := sampleChannel active
    mCamera3Stream := { format := 33, width := 640, height := 480 }
    mNumBufs := 2
    mCamera3Buffers := some [100, 200]
    mCurrentBufIndex := -1
    mMemory := some { slots := [{ handle := 100, frameNumber := 0 },
                                { handle := 200, frameNumber := 0 }] }
    mYuvMemory := some { count := 2, size := 460800 } }

/-- A freshly constructed metadata channel of camera 1, table of four
slots. -/
def sampleMetadata : QCamera3MetadataChannel :=
  { base := QCamera3Channel.ctor 4 1 9, mMemory := none }

/-- A freshly constructed regular channel of camera 1 for a stream of the
given pixel format, table of four slots. -/
def freshRegular (format : Int) : QCamera3RegularChannel :=
  { base := QCamera3Channel.ctor 4 1 9
    mCamera3Stream := { format := format, width := 640, height := 480 }
    mNumBufs := 0
    mCamera3Buffers := none
    mMemory := none }

/-- A two-element super-buffer of stream 3. -/
def doubleBuf : mm_camera_super_buf_t :=
  { num_bufs := 2, bufs := [some { stream_id := 3, buf_idx := 0 },
                            some { stream_id := 3, buf_idx := 1 }] }

/-- An inactive metadata channel of camera 1 owning `sampleStream`. -/
def metadataWithStream : QCamera3MetadataChannel :=
  { base := sampleChannel false, mMemory := none }

/-- An oracle in which the driver accepts the channel and the stream's init
fails. -/
def envStreamInitFails : Env :=
  { envWith 0 0 with streamInit := fun _ _ _ _ => -1 }

/-- Whether a call is the write of the JPEG trailer. -/
def Call.isTrailerWrite : Call → Bool
  | Call.trailerWrite _ _ _ _ => true
  | _ => false

/-- An active picture channel of camera 1 that has served a request with the
given `max_jpeg_size`: two output buffers (handles 100 and 200) of 2000 bytes
each, the current slot 1 carrying frame number 5, encode job 77 in flight. -/
def picInFlight (max_jpeg_size : Int) : QCamera3PicChannel :=
  { base := sampleChannel true
    mCamera3Stream := { format := 33, width := 640, height := 480 }
    mNumBufs := 2
    mCamera3Buffers := some [100, 200]
    mCurrentBufIndex := 1
    mMemory := some { slots := [{ handle := 100, frameNumber := 0, size := 2000 },
                                { handle := 200, frameNumber := 5, size := 2000 }] }
    mYuvMemory := some { count := 2, size := 460800 }
    mJpegSettings := some { max_jpeg_size := max_jpeg_size, jpeg_orientation := 0
                            jpeg_quality := 85, thumbnail_size := { width := 0, height := 0 } }
    m_postprocessor := { ongoingJobs := [77] } }

/-- The settings used in the concrete runs: a cap of 1000 bytes. -/
def sampleSettings : jpeg_settings_t :=
  { max_jpeg_size := 1000, jpeg_orientation := 0, jpeg_quality := 85
    thumbnail_size := { width := 0, height := 0 } }

/-- A freshly constructed picture channel of camera 1 for a stream of the
given pixel format, table of four slots. -/
def freshPic (format : Int) : QCamera3PicChannel :=
  { base := QCamera3Channel.ctor 4 1 9
    mCamera3Stream := { format := format, width := 640, height := 480 }
    mNumBufs := 0
    mCamera3Buffers := none
    mCurrentBufIndex := -1
    mMemory := none
    mYuvMemory := none }

/-- A C library for the concrete runs: `atol` reads the integer back,
`gmtime` is right for the seconds of the first of January 1970 and
`strftime` writes year, month and day with four, two and two digits. -/
def sampleLibc : Libc :=
  { atol := fun v => v
    gmtime := fun t =>
      if 0 ≤ t ∧ t < 86400 then
        some { tm_sec := t % 60, tm_min := t / 60 % 60, tm_hour := t / 3600, tm_mday := 1,
               tm_mon := 0, tm_year := 70 }
      else none
    strftime_Ymd := fun t =>
      printf_0d 4 (t.tm_year + 1900) ++ ":" ++ printf_0d 2 (t.tm_mon + 1) ++ ":"
        ++ printf_0d 2 t.tm_mday }

/-- The local time 2014-03-09 12:30:45. -/
def sampleNoon : tm :=
  { tm_sec := 45, tm_min := 30, tm_hour := 12, tm_mday := 9, tm_mon := 2, tm_year := 114 }

/-- The local time one second later. -/
def sampleNoonLater : tm := { sampleNoon with tm_sec := 46 }

/-- Settings with a focal length of 4.5 and a position of 37.7749 north,
122.4194 west, 16 above sea level, fixed at 3661 seconds. -/
def sampleGpsSettings : jpeg_settings_t :=
  { max_jpeg_size := 1000, jpeg_orientation := 0, jpeg_quality := 85
    thumbnail_size := { width := 0, height := 0 }
    lens_focal_length := 9 / 2
    gps_processing_method := 0
    gps_coordinates := (toDouble (377749 / 10000), -toDouble (1224194 / 10000), 16)
    gps_timestamp := 3661 }

/-- A picture channel holding the settings `sampleGpsSettings`, for a
stream of the given pixel format. -/
def samplePicGps (format : Int) : QCamera3PicChannel :=
  { freshPic format with mJpegSettings := some sampleGpsSettings }

end QCamera3

/-! # The parameter batch of the test application

Embedding of `initBatchUpdate` and `AddSetParmEntryToBatch` of
`QCamera2/stack/mm-camera-test/src/mm_qcamera_app.c`. -/

namespace MmQCameraApp

/-- Status returned by the batch functions. -/
inductive Status
  | MM_CAMERA_OK
  | MM_CAMERA_E_GENERAL
  deriving DecidableEq, Repr

/-- The parameter table `parm_buffer_t`: the head of the list of flagged
entries and, for each entry, its next-flagged link and its payload bytes. -/
structure parm_buffer_t where
  first_flagged_entry : Nat
  next_flagged_entry : Nat → Nat
  data : Nat → List Nat

/-- Modelled from the spec: the macro `GET_FIRST_PARAM_ID`, defined in a
header outside the sources, reads the head of the flagged list. -/
def GET_FIRST_PARAM_ID (t : parm_buffer_t) : Nat := t.first_flagged_entry

/-- Modelled from the spec: the macro `SET_FIRST_PARAM_ID` writes the head of
the flagged list. -/
def SET_FIRST_PARAM_ID (t : parm_buffer_t) (id : Nat) : parm_buffer_t :=
  { t with first_flagged_entry := id }

/-- Modelled from the spec: the macro `GET_NEXT_PARAM_ID` reads the
next-flagged link of an entry. -/
def GET_NEXT_PARAM_ID (current : Nat) (t : parm_buffer_t) : Nat := t.next_flagged_entry current

/-- Modelled from the spec: the macro `SET_NEXT_PARAM_ID` writes the
next-flagged link of an entry. -/
def SET_NEXT_PARAM_ID (current : Nat) (t : parm_buffer_t) (next : Nat) : parm_buffer_t :=
  { t with next_flagged_entry := Function.update t.next_flagged_entry current next }

/-- Function `initBatchUpdate`: the table is zeroed and the head set to
`CAM_INTF_PARM_MAX`; `entrySize` is `sizeof(parm_type_t)`. -/
def initBatchUpdate (CAM_INTF_PARM_MAX entrySize : Nat) (_old : parm_buffer_t) :
    Status × parm_buffer_t :=
  (Status.MM_CAMERA_OK,
   { first_flagged_entry := CAM_INTF_PARM_MAX
     next_flagged_entry := fun _ => 0
     data := fun _ => List.replicate entrySize 0 })

/-- The search loop `while (position > GET_NEXT_PARAM_ID(current, p_table))
current = GET_NEXT_PARAM_ID(current, p_table);`, run for at most `fuel`
tests of its condition; `none` when the fuel is used up. -/
def searchLoop (t : parm_buffer_t) (position : Nat) : Nat → Nat → Option Nat
  | 0, _ => none
  | fuel + 1, current =>
    if position > GET_NEXT_PARAM_ID current t then
      searchLoop t position fuel (GET_NEXT_PARAM_ID current t)
    else some current

/-- Function `AddSetParmEntryToBatch`; `fuel` bounds the search loop and
`entrySize` is `sizeof(parm_type_t)`.  `none` when the loop does not end
within the fuel. -/
def AddSetParmEntryToBatch (fuel entrySize : Nat) (p_table : parm_buffer_t)
    (paramType paramLength : Nat) (paramValue : List Nat) : Option (Status × parm_buffer_t) :=
  let position := paramType
  let current := GET_FIRST_PARAM_ID p_table
  let linked : Option parm_buffer_t :=
    if position = current then some p_table
    else if position < current then
      some (SET_FIRST_PARAM_ID (SET_NEXT_PARAM_ID position p_table current) position)
    else
      match searchLoop p_table position fuel current with
      | none => none
      | some current =>
        if position ≠ GET_NEXT_PARAM_ID current p_table then
          let next := GET_NEXT_PARAM_ID current p_table
          some (SET_NEXT_PARAM_ID position (SET_NEXT_PARAM_ID current p_table position) next)
        else some p_table
  match linked with
  | none => none
  | some t =>
    if paramLength > entrySize then some (Status.MM_CAMERA_E_GENERAL, t)
    else
      some (Status.MM_CAMERA_OK,
        { t with data := Function.update t.data paramType
                   (paramValue.take paramLength ++ (t.data paramType).drop paramLength) })

/-- One call of `AddSetParmEntryToBatch`: type, length and value. -/
structure AddCall where
  paramType : Nat
  paramLength : Nat
  paramValue : List Nat

/-- The table after `initBatchUpdate` and then the given calls of
`AddSetParmEntryToBatch`, in order; `none` when a search loop does not end
within the fuel. -/
def runBatch (fuel CAM_INTF_PARM_MAX entrySize : Nat) (old : parm_buffer_t)
    (calls : List AddCall) : Option parm_buffer_t :=
  calls.foldl
    (fun acc c => acc.bind (fun t =>
      (AddSetParmEntryToBatch fuel entrySize t c.paramType c.paramLength c.paramValue).map
        (fun r => r.2)))
    (some (initBatchUpdate CAM_INTF_PARM_MAX entrySize old).2)

/-- The entries visited by following the next-flagged links from `current`
until `CAM_INTF_PARM_MAX` is reached, for at most `fuel` steps; `none` when
the limit is not reached within the fuel. -/
def flaggedFrom (CAM_INTF_PARM_MAX : Nat) (t : parm_buffer_t) : Nat → Nat → Option (List Nat)
  | 0, _ => none
  | fuel + 1, current =>
    if current = CAM_INTF_PARM_MAX then some []
    else (flaggedFrom CAM_INTF_PARM_MAX t fuel (t.next_flagged_entry current)).map
      (fun rest => current :: rest)

/-- The flagged entries of a table, from `first_flagged_entry`. -/
def flaggedList (CAM_INTF_PARM_MAX : Nat) (t : parm_buffer_t) : Option (List Nat) :=
  flaggedFrom CAM_INTF_PARM_MAX t (CAM_INTF_PARM_MAX + 1) t.first_flagged_entry

/-- Insertion of a type into a strictly ascending list, a type already
present being left alone: what the claim says one call does to the visited
list. -/
def insertSorted (p : Nat) : List Nat → List Nat
  | [] => [p]
  | x :: xs =>
    if p = x then x :: xs
    else if p < x then p :: x :: xs
    else x :: insertSorted p xs

/-- The links `next` chain the list `l` from `current` and end at
`CAM_INTF_PARM_MAX`. -/
def Linked (CAM_INTF_PARM_MAX : Nat) (next : Nat → Nat) : Nat → List Nat → Prop
  | current, [] => current = CAM_INTF_PARM_MAX
  | current, x :: xs => current = x ∧ x < CAM_INTF_PARM_MAX ∧ Linked CAM_INTF_PARM_MAX next (next x) xs

/-- A table whose content does not matter, as `initBatchUpdate` finds it. -/
def staleTable : parm_buffer_t :=
  { first_flagged_entry := 3, next_flagged_entry := fun i => i + 5, data := fun _ => [] }

/-- Four calls adding the types 7, 2, 7 and 5, the third one with a value too
long for an entry of 4 bytes. -/
def sampleAdds : List AddCall :=
  [ { paramType := 7, paramLength := 4, paramValue := [1, 0, 0, 0] },
    { paramType := 2, paramLength := 1, paramValue := [9] },
    { paramType := 7, paramLength := 8, paramValue := [1, 2, 3, 4, 5, 6, 7, 8] },
    { paramType := 5, paramLength := 4, paramValue := [4, 4, 4, 4] } ]

end MmQCameraApp

namespace QCamera3

/-! ## Lemmas on the call lists -/

theorem mem_loopStreams (ch : QCamera3Channel) (s : QCamera3Stream) :
    s ∈ ch.loopStreams ↔ ∃ i, i < ch.m_numStreams ∧ ch.mStreams.getD i none = some s := by
  simp [QCamera3Channel.loopStreams, List.mem_filterMap]

theorem streamStartedAfter_append (s : QCamera3Stream) (xs ys : List Call) :
    ∀ b, streamStartedAfter s b (xs ++ ys)
      = streamStartedAfter s (streamStartedAfter s b xs) ys := by
  induction xs with
  | nil => intro b; rfl
  | cons x xs ih =>
    intro b
    cases x <;> simp [streamStartedAfter, ih]

theorem streamStartedAfter_stops_false (s : QCamera3Stream) (l : List QCamera3Stream) :
    streamStartedAfter s false (l.map Call.streamStop) = false := by
  induction l with
  | nil => rfl
  | cons t l ih => simp [streamStartedAfter, ih]

theorem streamStartedAfter_stops_of_mem (s : QCamera3Stream) (l : List QCamera3Stream)
    (hs : s ∈ l) : ∀ b, streamStartedAfter s b (l.map Call.streamStop) = false := by
  induction l with
  | nil => cases hs
  | cons t l ih =>
    intro b
    by_cases hts : t = s
    · simp [streamStartedAfter, hts, streamStartedAfter_stops_false]
    · have hmem : s ∈ l := by
        rcases List.mem_cons.mp hs with h | h
        · exact absurd h.symm hts
        · exact h
      simp [streamStartedAfter, hts, ih hmem]

/-! ## Channel start and stop -/

/-- Claim C1: stop() on an inactive channel returns NO_ERROR, makes no call at
all on the driver or on a stream, and leaves the whole object, the active flag
included, as it was. -/
theorem stop_inactive_is_noop (env : Env) (ch : QCamera3Channel)
    (h : ch.m_bIsActive = false) :
    (ch.stop env).rc = NO_ERROR ∧ (ch.stop env).calls = [] ∧ (ch.stop env).chan = ch
      ∧ (ch.stop env).chan.m_bIsActive = false := by
  simp [QCamera3Channel.stop, h]

theorem stop_inactive_is_noop_witness :
    (sampleChannel false).m_bIsActive = false ∧
    ((sampleChannel false).stop (envWith 0 (-5))).rc = NO_ERROR ∧
    ((sampleChannel false).stop (envWith 0 (-5))).calls = [] ∧
    ((sampleChannel false).stop (envWith 0 (-5))).chan = sampleChannel false ∧
    ((sampleChannel false).stop (envWith 0 (-5))).chan.m_bIsActive = false :=
  ⟨rfl, stop_inactive_is_noop (envWith 0 (-5)) (sampleChannel false) rfl⟩

/-- Claim C2: when the driver's start_channel returns a non-zero code, start()
returns that code, the calls are the stream starts, the driver start and then
a stop of every stream that was started, so that no stream started during the
call remains started, and the object (the active flag included) is
unchanged. -/
theorem start_driver_failure_rolls_back (env : Env) (ch : QCamera3Channel)
    (h : env.start_channel ≠ NO_ERROR) :
    (ch.start env).rc = env.start_channel ∧
    (ch.start env).chan.m_bIsActive = ch.m_bIsActive ∧
    (ch.start env).chan = ch ∧
    (ch.start env).calls
      = ch.loopStreams.map Call.streamStart
          ++ [Call.start_channel ch.m_camHandle ch.m_handle]
          ++ ch.loopStreams.map Call.streamStop ∧
    ∀ s, Call.streamStart s ∈ (ch.start env).calls →
      ∀ b, streamStartedAfter s b (ch.start env).calls = false := by
  have hcalls : (ch.start env).calls
      = ch.loopStreams.map Call.streamStart
          ++ [Call.start_channel ch.m_camHandle ch.m_handle]
          ++ ch.loopStreams.map Call.streamStop := by
    simp [QCamera3Channel.start, h]
  refine ⟨by simp [QCamera3Channel.start, h], by simp [QCamera3Channel.start, h],
    by simp [QCamera3Channel.start, h], hcalls, ?_⟩
  intro s hs b
  have hmem : s ∈ ch.loopStreams := by
    rw [hcalls] at hs
    simpa using hs
  rw [hcalls, streamStartedAfter_append]
  exact streamStartedAfter_stops_of_mem s ch.loopStreams hmem _

theorem start_driver_failure_rolls_back_witness :
    (envWith (-19) 0).start_channel ≠ NO_ERROR ∧
    ((sampleChannel false).start (envWith (-19) 0)).rc = -19 ∧
    ((sampleChannel false).start (envWith (-19) 0)).chan.m_bIsActive = false ∧
    ((sampleChannel false).start (envWith (-19) 0)).chan = sampleChannel false ∧
    ((sampleChannel false).start (envWith (-19) 0)).calls
      = (sampleChannel false).loopStreams.map Call.streamStart
          ++ [Call.start_channel 1 7]
          ++ (sampleChannel false).loopStreams.map Call.streamStop ∧
    ∀ s, Call.streamStart s ∈ ((sampleChannel false).start (envWith (-19) 0)).calls →
      ∀ b, streamStartedAfter s b ((sampleChannel false).start (envWith (-19) 0)).calls = false :=
  ⟨by decide, start_driver_failure_rolls_back (envWith (-19) 0) (sampleChannel false) (by decide)⟩

/-- Counterexample to claim C3 as stated: an inactive channel whose only
stream fails to start, with the driver-level start succeeding, has its active
flag set by start(). -/
theorem start_sets_active_despite_stream_failure :
    (sampleChannel false).m_bIsActive = false ∧
    sampleStream ∈ (sampleChannel false).loopStreams ∧
    envStreamStartFails.streamStart sampleStream ≠ 0 ∧
    ((sampleChannel false).start envStreamStartFails).rc = NO_ERROR ∧
    ((sampleChannel false).start envStreamStartFails).chan.m_bIsActive = true := by
  decide

/-- Claim C3, amended: start() sets the active flag exactly when the
driver-level start_channel returns NO_ERROR; when it fails the flag keeps its
previous value, so an inactive channel is active afterwards only if the driver
start succeeded; the return codes of the streams' start() and stop() have no
influence on the result. -/
theorem start_active_iff_driver_ok (env : Env) (ch : QCamera3Channel)
    (f g : QCamera3Stream → Int) :
    (env.start_channel = NO_ERROR → (ch.start env).chan.m_bIsActive = true) ∧
    (env.start_channel ≠ NO_ERROR → (ch.start env).chan.m_bIsActive = ch.m_bIsActive) ∧
    (ch.m_bIsActive = false → (ch.start env).chan.m_bIsActive = true →
      env.start_channel = NO_ERROR) ∧
    (ch.start { env with streamStart := f, streamStop := g }).rc = (ch.start env).rc ∧
    (ch.start { env with streamStart := f, streamStop := g }).chan = (ch.start env).chan ∧
    (ch.start { env with streamStart := f, streamStop := g }).calls = (ch.start env).calls := by
  refine ⟨?_, ?_, ?_, rfl, rfl, rfl⟩
  · intro h; simp [QCamera3Channel.start, h]
  · intro h; simp [QCamera3Channel.start, h]
  · intro h1 h2
    by_contra hne
    simp [QCamera3Channel.start, hne, h1] at h2

theorem start_active_iff_driver_ok_witness :
    ((envWith 0 0).start_channel = NO_ERROR ∧
      ((sampleChannel false).start (envWith 0 0)).chan.m_bIsActive = true) ∧
    ((envWith (-19) 0).start_channel ≠ NO_ERROR ∧
      ((sampleChannel false).start (envWith (-19) 0)).chan.m_bIsActive = false) :=
  ⟨⟨by decide,
     (start_active_iff_driver_ok (envWith 0 0) (sampleChannel false)
        (fun _ => -1) (fun _ => -1)).1 (by decide)⟩,
   ⟨by decide,
     (start_active_iff_driver_ok (envWith (-19) 0) (sampleChannel false)
        (fun _ => -1) (fun _ => -1)).2.1 (by decide)⟩⟩

/-- Claim C4: stop() on an active channel calls the driver's stop_channel
exactly once and first, then stop on every non-null stream of the table below
the stream count, clears the active flag whatever stop_channel returned, and
returns stop_channel's code. -/
theorem stop_active_stops_all (env : Env) (ch : QCamera3Channel)
    (h : ch.m_bIsActive = true) :
    (ch.stop env).rc = env.stop_channel ∧
    (ch.stop env).chan = { ch with m_bIsActive := false } ∧
    (ch.stop env).chan.m_bIsActive = false ∧
    (ch.stop env).calls
      = Call.stop_channel ch.m_camHandle ch.m_handle :: ch.loopStreams.map Call.streamStop ∧
    (ch.stop env).calls.countP Call.isStopChannel = 1 ∧
    (∀ i s, i < ch.m_numStreams → ch.mStreams.getD i none = some s →
      Call.streamStop s ∈ (ch.stop env).calls) := by
  have hcalls : (ch.stop env).calls
      = Call.stop_channel ch.m_camHandle ch.m_handle :: ch.loopStreams.map Call.streamStop := by
    simp [QCamera3Channel.stop, h]
  refine ⟨by simp [QCamera3Channel.stop, h], by simp [QCamera3Channel.stop, h],
    by simp [QCamera3Channel.stop, h], hcalls, ?_, ?_⟩
  · rw [hcalls, List.countP_cons]
    have hz : ∀ l : List QCamera3Stream,
        (l.map Call.streamStop).countP Call.isStopChannel = 0 := by
      intro l
      induction l with
      | nil => rfl
      | cons t l ih => simp [List.countP_cons, Call.isStopChannel, ih]
    simp [hz, Call.isStopChannel]
  · intro i s hi hs
    rw [hcalls]
    refine List.mem_cons_of_mem _ (List.mem_map.mpr ⟨s, ?_, rfl⟩)
    exact (mem_loopStreams ch s).mpr ⟨i, hi, hs⟩

theorem stop_active_stops_all_witness :
    (sampleChannel true).m_bIsActive = true ∧
    ((sampleChannel true).stop (envWith 0 (-5))).rc = -5 ∧
    ((sampleChannel true).stop (envWith 0 (-5))).chan.m_bIsActive = false ∧
    ((sampleChannel true).stop (envWith 0 (-5))).calls
      = [Call.stop_channel 1 7, Call.streamStop sampleStream] :=
  have h := stop_active_stops_all (envWith 0 (-5)) (sampleChannel true) rfl
  ⟨rfl, h.1, h.2.2.1, h.2.2.2.1⟩

/-! ## Adding streams -/

theorem addStream_numStreams_le (MAX : Nat) (env : Env) (ch : QCamera3Channel)
    (t : cam_stream_type_t) (f : cam_format_t) (d : cam_dimension_t) (n : Nat)
    (h : ch.m_numStreams ≤ 1) :
    (ch.addStream MAX env t f d n).chan.m_numStreams ≤ 1 := by
  unfold QCamera3Channel.addStream
  by_cases h1 : ch.m_numStreams ≥ 1
  · simp [h1, h]
  · have h0 : ch.m_numStreams = 0 := by omega
    simp only [h1, if_false]
    split_ifs <;> simp [h0]

theorem apply_numStreams_le (MAX : Nat) (ch : QCamera3Channel) (op : Env × ChannelOp)
    (h : ch.m_numStreams ≤ 1) :
    (ch.apply MAX op).m_numStreams ≤ 1 := by
  obtain ⟨env, o⟩ := op
  cases o with
  | init attr dataCB =>
    simp only [QCamera3Channel.apply, QCamera3Channel.init]
    split_ifs <;> exact h
  | addStream t f d n => exact addStream_numStreams_le MAX env ch t f d n h
  | start =>
    simp only [QCamera3Channel.apply, QCamera3Channel.start]
    split_ifs <;> exact h
  | stop =>
    simp only [QCamera3Channel.apply, QCamera3Channel.stop]
    split_ifs <;> exact h
  | bufDone sb => exact h

theorem foldl_apply_numStreams_le (MAX : Nat) (ops : List (Env × ChannelOp)) :
    ∀ ch : QCamera3Channel, ch.m_numStreams ≤ 1 →
      (ops.foldl (QCamera3Channel.apply MAX) ch).m_numStreams ≤ 1 := by
  induction ops with
  | nil => intro ch h; exact h
  | cons op ops ih =>
    intro ch h
    exact ih _ (apply_numStreams_le MAX ch op h)

/-- Claim C5: a channel never holds more than one stream.  On a channel that
already holds a stream addStream returns the failure code BAD_VALUE, makes no
call (no stream is constructed or initialised) and leaves the object, stream
count and table included, unchanged; and in every state reached from
construction by a sequence of channel operations (init, addStream, start,
stop, bufDone, each with arbitrary collaborator results) the stream count is 0
or 1. -/
theorem single_stream_per_channel (MAX : Nat) (env : Env) (ch : QCamera3Channel)
    (t : cam_stream_type_t) (f : cam_format_t) (d : cam_dimension_t) (n : Nat)
    (cam_handle userData : Nat) (ops : List (Env × ChannelOp)) :
    (1 ≤ ch.m_numStreams →
      (ch.addStream MAX env t f d n).rc = BAD_VALUE ∧
      (ch.addStream MAX env t f d n).rc ≠ NO_ERROR ∧
      (ch.addStream MAX env t f d n).calls = [] ∧
      (ch.addStream MAX env t f d n).chan = ch) ∧
    ((QCamera3Channel.run MAX cam_handle userData ops).m_numStreams = 0 ∨
      (QCamera3Channel.run MAX cam_handle userData ops).m_numStreams = 1) := by
  constructor
  · intro h
    have h1 : ch.m_numStreams ≥ 1 := h
    simp [QCamera3Channel.addStream, h1, BAD_VALUE, NO_ERROR]
  · have hle := foldl_apply_numStreams_le MAX ops (QCamera3Channel.ctor MAX cam_handle userData)
      (by simp [QCamera3Channel.ctor])
    unfold QCamera3Channel.run
    omega

theorem single_stream_per_channel_witness :
    (1 ≤ (sampleChannel false).m_numStreams ∧
      ((sampleChannel false).addStream 4 (envWith 0 0)
          cam_stream_type_t.CAM_STREAM_TYPE_VIDEO cam_format_t.CAM_FORMAT_YUV_420_NV12
          { width := 640, height := 480 } 2).rc = BAD_VALUE ∧
      ((sampleChannel false).addStream 4 (envWith 0 0)
          cam_stream_type_t.CAM_STREAM_TYPE_VIDEO cam_format_t.CAM_FORMAT_YUV_420_NV12
          { width := 640, height := 480 } 2).chan = sampleChannel false) ∧
    (QCamera3Channel.run 4 1 9 sampleOps).m_numStreams = 1 :=
  have h := single_stream_per_channel 4 (envWith 0 0) (sampleChannel false)
    cam_stream_type_t.CAM_STREAM_TYPE_VIDEO cam_format_t.CAM_FORMAT_YUV_420_NV12
    { width := 640, height := 480 } 2 1 9 sampleOps
  ⟨⟨by decide, (h.1 (by decide)).1, (h.1 (by decide)).2.2.2⟩, by decide⟩

/-- Counterexample to claim C6 as stated: with a bundle capacity of 4, a
channel holding no stream and a minBufferCount of 5, addStream succeeds and
stores the stream, because the stream's init accepts it. -/
theorem addStream_large_minBuf_stores_stream :
    emptyChannel.m_numStreams = 0 ∧ 5 > 4 ∧
    (emptyChannel.addStream 4 (envWith 0 0) cam_stream_type_t.CAM_STREAM_TYPE_PREVIEW
        cam_format_t.CAM_FORMAT_YUV_420_NV21 { width := 640, height := 480 } 5).rc = NO_ERROR ∧
    (emptyChannel.addStream 4 (envWith 0 0) cam_stream_type_t.CAM_STREAM_TYPE_PREVIEW
        cam_format_t.CAM_FORMAT_YUV_420_NV21 { width := 640, height := 480 } 5).chan.m_numStreams = 1 ∧
    (emptyChannel.addStream 4 (envWith 0 0) cam_stream_type_t.CAM_STREAM_TYPE_PREVIEW
        cam_format_t.CAM_FORMAT_YUV_420_NV21 { width := 640, height := 480 } 5).chan.mStreams
      = [some { sampleStream with minStreamBufNum := 5 }, none, none, none] := by
  decide

/-- Claim C6, amended: on a channel holding no stream, with a bundle capacity
of at least one slot and the stream object allocated, addStream returns the
status of the stream's init for its arguments, whatever the relation of
minBufferCount to the bundle capacity: when that status is non-zero it fails
and stores no stream (the object is unchanged), when it is zero the stream is
stored in slot 0 and the count becomes 1.  The capacity is compared with the
stream count only. -/
theorem addStream_empty_follows_stream_init (MAX : Nat) (env : Env) (ch : QCamera3Channel)
    (t : cam_stream_type_t) (f : cam_format_t) (d : cam_dimension_t) (n : Nat)
    (h0 : ch.m_numStreams = 0) (hmax : 1 ≤ MAX) (halloc : env.newStreamNull = false)
    (hn : n < 256) :
    (ch.addStream MAX env t f d n).rc = env.streamInit t f d n ∧
    (env.streamInit t f d n ≠ 0 →
      (ch.addStream MAX env t f d n).chan = ch) ∧
    (env.streamInit t f d n = 0 →
      (ch.addStream MAX env t f d n).chan.m_numStreams = 1 ∧
      (ch.addStream MAX env t f d n).chan.mStreams
        = ch.mStreams.set 0 (some
            { camHandle := ch.m_camHandle
              channelHandle := ch.m_handle
              myHandle := env.streamMyHandle
              streamType := t
              streamFormat := f
              streamDim := d
              minStreamBufNum := n })) := by
  have hn8 : toUInt8 n = n := by unfold toUInt8; omega
  have hlt : ¬ (0 ≥ MAX) := by omega
  unfold QCamera3Channel.addStream
  simp only [h0, hn8, halloc]
  refine ⟨?_, ?_, ?_⟩
  · simp [hlt]
    split_ifs <;> rfl
  · intro hrc
    simp [hlt, hrc]
  · intro hrc
    simp [hlt, hrc]

theorem addStream_empty_follows_stream_init_witness :
    (emptyChannel.addStream 4 (envWith 0 0) cam_stream_type_t.CAM_STREAM_TYPE_PREVIEW
        cam_format_t.CAM_FORMAT_YUV_420_NV21 { width := 640, height := 480 } 200).rc = 0 ∧
    (emptyChannel.addStream 4 { envWith 0 0 with streamInit := fun _ _ _ _ => -1 }
        cam_stream_type_t.CAM_STREAM_TYPE_PREVIEW
        cam_format_t.CAM_FORMAT_YUV_420_NV21 { width := 640, height := 480 } 200).chan
      = emptyChannel :=
  ⟨(addStream_empty_follows_stream_init 4 (envWith 0 0) emptyChannel
      cam_stream_type_t.CAM_STREAM_TYPE_PREVIEW cam_format_t.CAM_FORMAT_YUV_420_NV21
      { width := 640, height := 480 } 200 (by decide) (by decide) rfl (by decide)).1,
   (addStream_empty_follows_stream_init 4 { envWith 0 0 with streamInit := fun _ _ _ _ => -1 }
      emptyChannel
      cam_stream_type_t.CAM_STREAM_TYPE_PREVIEW cam_format_t.CAM_FORMAT_YUV_420_NV21
      { width := 640, height := 480 } 200 (by decide) (by decide) rfl (by decide)).2.1
      (by decide)⟩

/-! ## Regular channel: request -/

theorem start_calls_no_bufDone (env : Env) (ch : QCamera3Channel) :
    ∀ c ∈ (ch.start env).calls, c.isStreamBufDone = false := by
  intro c hc
  by_cases hrc : env.start_channel = NO_ERROR
  · simp only [QCamera3Channel.start, hrc, ne_eq, not_true_eq_false, if_false,
      List.mem_append, List.mem_map, List.mem_singleton] at hc
    rcases hc with ⟨s, _, rfl⟩ | rfl <;> rfl
  · simp only [QCamera3Channel.start, hrc, ne_eq, not_false_eq_true, if_true,
      List.mem_append, List.mem_map, List.mem_singleton] at hc
    rcases hc with (⟨s, _, rfl⟩ | rfl) | ⟨s, _, rfl⟩ <;> rfl

theorem matchFrom_neg_iff (key : BufferHandle) :
    ∀ (l : List MemSlot) (k : Nat), matchFrom key l k < 0 ↔ ∀ s ∈ l, s.handle ≠ key := by
  intro l
  induction l with
  | nil => intro k; simp [matchFrom]
  | cons a l ih =>
    intro k
    by_cases ha : a.handle = key
    · simp [matchFrom, ha]
    · simp [matchFrom, ha, ih]

/-- Claim C7: on a regular channel whose buffer memory exists, active or not,
request() with a handle the memory does not match (getMatchBufIndex negative)
returns DEAD_OBJECT, makes no bufDone call on any stream (its only calls are
those of the lazy start, when the channel was inactive) and leaves the memory,
hence every recorded frame number, unchanged. -/
theorem regular_request_unknown_buffer (env : Env) (c : QCamera3RegularChannel)
    (mem : QCamera3GrallocMemory) (buffer : BufferHandle) (frameNumber : Nat)
    (hm : c.mMemory = some mem) (hidx : mem.getMatchBufIndex buffer < 0) :
    ∃ r, c.request env buffer frameNumber = some r ∧
      r.rc = DEAD_OBJECT ∧
      r.calls.countP Call.isStreamBufDone = 0 ∧
      (∀ s i, Call.streamBufDone s i ∉ r.calls) ∧
      r.calls = (if c.base.m_bIsActive then [] else (c.base.start env).calls) ∧
      r.chan.mMemory = some mem := by
  have hnone : ∀ l : List Call, (∀ x ∈ l, x.isStreamBufDone = false) →
      l.countP Call.isStreamBufDone = 0 ∧ ∀ s i, Call.streamBufDone s i ∉ l := by
    intro l hl
    refine ⟨?_, ?_⟩
    · rw [List.countP_eq_zero]
      intro x hx
      simp [hl x hx]
    · intro s i hmem
      have := hl _ hmem
      simp [Call.isStreamBufDone] at this
  obtain ⟨base, cstream, nbufs, cbufs, cmem⟩ := c
  simp only at hm
  subst hm
  by_cases hact : base.m_bIsActive = true
  · refine ⟨{ rc := DEAD_OBJECT, chan := ⟨base, cstream, nbufs, cbufs, some mem⟩, calls := [] },
      ?_, rfl, rfl, ?_, ?_, rfl⟩
    · simp [QCamera3RegularChannel.request, hact, hidx, NO_ERROR]
    · intro s i h; cases h
    · simp [hact]
  · have hact' : base.m_bIsActive = false := by simpa using hact
    refine ⟨{ rc := DEAD_OBJECT, chan := ⟨(base.start env).chan, cstream, nbufs, cbufs, some mem⟩,
              calls := (base.start env).calls },
      ?_, rfl, ?_, ?_, ?_, rfl⟩
    · simp [QCamera3RegularChannel.request, hact', hidx, NO_ERROR]
    · exact (hnone _ (start_calls_no_bufDone env base)).1
    · exact (hnone _ (start_calls_no_bufDone env base)).2
    · simp [hact']

theorem regular_request_unknown_buffer_witness :
    ∃ r, (sampleRegular false).request (envWith 0 0) 300 5 = some r ∧
      r.rc = DEAD_OBJECT ∧
      r.calls.countP Call.isStreamBufDone = 0 ∧
      (∀ s i, Call.streamBufDone s i ∉ r.calls) ∧
      r.calls = (if (sampleRegular false).base.m_bIsActive then []
                 else ((sampleRegular false).base.start (envWith 0 0)).calls) ∧
      r.chan.mMemory = some { slots := [{ handle := 100, frameNumber := 0 },
                                        { handle := 200, frameNumber := 0 }] } :=
  regular_request_unknown_buffer (envWith 0 0) (sampleRegular false)
    { slots := [{ handle := 100, frameNumber := 0 }, { handle := 200, frameNumber := 0 }] }
    300 5 rfl (by decide)

/-- Claim C8, evaluated on the code: on an inactive regular channel whose lazy
start fails at the driver (start_channel returns -19), request() for the
registered buffer 200 with frame number 5 returns NO_ERROR, not -19, queues the
buffer (bufDone of index 1 on the stream that was just rolled back) and records
frame number 5 in slot 1. -/
theorem regular_request_ignores_start_failure :
    (envWith (-19) 0).start_channel = -19 ∧
    (sampleRegular false).base.m_bIsActive = false ∧
    (sampleRegular false).request (envWith (-19) 0) 200 5
      = some
          { rc := NO_ERROR
            chan := { sampleRegular false with
                      mMemory := some { slots := [{ handle := 100, frameNumber := 0 },
                                                  { handle := 200, frameNumber := 5 }] } }
            calls := [Call.streamStart sampleStream, Call.start_channel 1 7,
                      Call.streamStop sampleStream, Call.streamBufDone sampleStream 1] } := by
  decide

/-! ## Regular channel: round trip -/

theorem toUInt32_toInt32 (n : Nat) (h : n < 4294967296) : toUInt32 (toInt32 n) = n := by
  unfold toUInt32 toInt32
  have hm : n % 4294967296 = n := Nat.mod_eq_of_lt h
  rw [hm]
  split_ifs <;> omega

theorem matchFrom_of_nodup (key : BufferHandle) :
    ∀ (l : List MemSlot) (k i : Nat), (l.map (fun s => s.handle)).Nodup →
      (l.map (fun s => s.handle))[i]? = some key → matchFrom key l k = ((k + i : Nat) : Int) := by
  intro l
  induction l with
  | nil => intro k i _ h; simp at h
  | cons a l ih =>
    intro k i hnd hi
    rw [List.map_cons, List.nodup_cons] at hnd
    cases i with
    | zero =>
      simp at hi
      simp [matchFrom, hi]
    | succ j =>
      simp only [List.map_cons, List.getElem?_cons_succ] at hi
      have hmem : key ∈ l.map (fun s => s.handle) := List.getElem?_mem hi
      have hne : a.handle ≠ key := by
        intro heq
        exact hnd.1 (heq ▸ hmem)
      simp only [matchFrom, hne, if_false]
      rw [ih (k + 1) j hnd.2 hi]
      congr 1
      omega

theorem getFrameNumber_markFrameNumber (mem : QCamera3GrallocMemory) (i fn : Nat)
    (hi : i < mem.slots.length) :
    (mem.markFrameNumber i fn).2.getFrameNumber i = toInt32 (fn % 4294967296) := by
  have hget : mem.slots[i]? = some mem.slots[i] := List.getElem?_eq_getElem hi
  simp [QCamera3GrallocMemory.markFrameNumber, QCamera3GrallocMemory.getFrameNumber, hget, hi]

theorem addStream_stored_count (MAX : Nat) (env : Env) (ch : QCamera3Channel)
    (t : cam_stream_type_t) (f : cam_format_t) (d : cam_dimension_t) (n : Nat)
    (s0 : QCamera3Stream)
    (h : (ch.addStream MAX env t f d n).rc = NO_ERROR)
    (hs0 : (ch.addStream MAX env t f d n).chan.mStreams.getD 0 none = some s0) :
    s0.minStreamBufNum = n % 256 := by
  simp only [QCamera3Channel.addStream] at h hs0
  split_ifs at h hs0 with h1 h2 h3 h4
  · simp [BAD_VALUE, NO_ERROR] at h
  · simp [BAD_VALUE, NO_ERROR] at h
  · simp [NO_MEMORY, NO_ERROR] at h
  · have hz : ch.m_numStreams = 0 := by omega
    simp only [hz] at hs0
    by_cases hl : 0 < ch.mStreams.length
    · simp [List.getD, List.getElem?_set, hl] at hs0
      rw [← hs0]
      rfl
    · have hnil : ch.mStreams = [] := by
        cases hm : ch.mStreams with
        | nil => rfl
        | cons x xs => rw [hm] at hl; simp at hl
      simp [hnil] at hs0
  · exact absurd h h4

/-- The stream that a successful `registerBuffers` of the regular channel
stores in slot 0 has the buffer count `num_buffers` narrowed to `uint8_t`,
which is below 256. -/
theorem regular_registerBuffers_stream_count
    (MAX V T : Nat) (env : Env) (c : QCamera3RegularChannel) (n : Nat)
    (buffers : List BufferHandle) (privFlags : BufferHandle → Nat)
    (r : Outcome QCamera3RegularChannel) (s0 : QCamera3Stream)
    (h : c.registerBuffers MAX V T env n buffers privFlags = some r) (hrc : r.rc = NO_ERROR)
    (hs0 : r.chan.base.mStreams.getD 0 none = some s0) :
    s0.minStreamBufNum = n % 256 ∧ s0.minStreamBufNum < 256 := by
  have hmain : s0.minStreamBufNum = n % 256 := by
    unfold QCamera3RegularChannel.registerBuffers at h
    cases hb : buffers[0]? with
    | none => rw [hb] at h; cases h
    | some b0 =>
      rw [hb] at h
      simp only [] at h
      split_ifs at h with h1 h2 h3 h4 h5 h6 h7 h8 h9
      all_goals
        simp only [Option.some.injEq] at h
        subst h
        first
        | exact addStream_stored_count _ _ _ _ _ _ _ _ hrc hs0
        | (exfalso; simp only [NO_ERROR, EINVAL, ENOMEM] at hrc; omega)
  exact ⟨hmain, by omega⟩

/-- Claim C10: a super-buffer whose num_bufs is not 1 is dropped by the stream
callback of every single-stream channel variant: the regular, the metadata and
the picture channel make no call at all, so no delivery callback is invoked
and nothing is handed to the post-processor. -/
theorem streamCb_drops_wrong_count (env : Env) (rc : QCamera3RegularChannel)
    (mc : QCamera3MetadataChannel) (pc : QCamera3PicChannel)
    (sf : mm_camera_super_buf_t) (stream : Option QCamera3Stream)
    (h : sf.num_bufs ≠ 1) :
    rc.streamCbRoutine (some sf) stream = some [] ∧
    mc.streamCbRoutine (some sf) stream = some [] ∧
    pc.streamCbRoutine env (some sf) stream = [] := by
  refine ⟨?_, ?_, ?_⟩
  · simp [QCamera3RegularChannel.streamCbRoutine, h]
  · simp [QCamera3MetadataChannel.streamCbRoutine, h]
  · simp [QCamera3PicChannel.streamCbRoutine, h]

theorem streamCb_drops_wrong_count_witness :
    (2 : Nat) ≠ 1 ∧
    (sampleRegular true).streamCbRoutine
        (some { num_bufs := 2, bufs := [some { stream_id := 3, buf_idx := 0 },
                                        some { stream_id := 3, buf_idx := 1 }] })
        (some sampleStream) = some [] ∧
    ({ base := sampleChannel true, mMemory := none } : QCamera3MetadataChannel).streamCbRoutine
        (some { num_bufs := 2, bufs := [some { stream_id := 3, buf_idx := 0 },
                                        some { stream_id := 3, buf_idx := 1 }] })
        (some sampleStream) = some [] ∧
    ({ base := sampleChannel true
       mCamera3Stream := { format := 33, width := 640, height := 480 }
       mNumBufs := 2
       mCamera3Buffers := some [100, 200]
       mCurrentBufIndex := -1
       mMemory := none
       mYuvMemory := none } : QCamera3PicChannel).streamCbRoutine (envWith 0 0)
        (some { num_bufs := 2, bufs := [some { stream_id := 3, buf_idx := 0 },
                                        some { stream_id := 3, buf_idx := 1 }] })
        (some sampleStream) = [] :=
  ⟨by decide,
   streamCb_drops_wrong_count (envWith 0 0) (sampleRegular true)
     { base := sampleChannel true, mMemory := none }
     { base := sampleChannel true
       mCamera3Stream := { format := 33, width := 640, height := 480 }
       mNumBufs := 2
       mCamera3Buffers := some [100, 200]
       mCurrentBufIndex := -1
       mMemory := none
       mYuvMemory := none }
     { num_bufs := 2, bufs := [some { stream_id := 3, buf_idx := 0 },
                               some { stream_id := 3, buf_idx := 1 }] }
     (some sampleStream) (by decide)⟩

/-! ## Malformed callback payloads -/

/-- Counterexample to claim C11 as stated: for a payload of two buffers the
regular and the picture channel make no call at all, so no buffer goes back to
the stream; and for one buffer whose index 256 is out of range for two
registered buffers the regular channel fires the delivery callback (for
slot 0). -/
theorem streamCb_malformed_payload_not_returned :
    doubleBuf.num_bufs ≠ 1 ∧
    (sampleRegular true).streamCbRoutine (some doubleBuf) (some sampleStream) = some [] ∧
    (samplePic true).streamCbRoutine (envWith 0 0) (some doubleBuf) (some sampleStream) = [] ∧
    (sampleRegular true).mNumBufs = 2 ∧
    (sampleRegular true).streamCbRoutine (some (singleBuf 256)) (some sampleStream)
      = some [Call.channelCB none
          (some { stream := { format := 34, width := 640, height := 480 }
                  buffer := 100
                  status := CAMERA3_BUFFER_STATUS_OK
                  acquire_fence := -1
                  release_fence := -1 })
          0 9] := by
  decide

/-- Claim C11, amended: for the regular and the picture channel, a payload
whose num_bufs is not 1 fires no delivery callback and hands nothing to the
post-processor; a one-element payload whose buffer index, narrowed to 8 bits
as the code narrows it, is not below the number of registered buffers makes
exactly one call, the bufDone of the given stream with the narrowed index, and
so fires no delivery callback. -/
theorem streamCb_malformed_payload (env : Env) (rc : QCamera3RegularChannel)
    (pc : QCamera3PicChannel) (sf : mm_camera_super_buf_t) (bd : mm_camera_buf_def_t)
    (s : QCamera3Stream) :
    (sf.num_bufs ≠ 1 →
      (∃ calls, rc.streamCbRoutine (some sf) (some s) = some calls ∧
        calls.countP Call.isChannelCB = 0) ∧
      (pc.streamCbRoutine env (some sf) (some s)).countP Call.isChannelCB = 0 ∧
      (pc.streamCbRoutine env (some sf) (some s)).countP Call.isPostprocProcessData = 0) ∧
    (sf.num_bufs = 1 → sf.buf 0 = some bd →
      (toUInt8 bd.buf_idx ≥ rc.mNumBufs →
        rc.streamCbRoutine (some sf) (some s)
          = some [Call.streamBufDone s (toUInt8 bd.buf_idx)]) ∧
      (toUInt8 bd.buf_idx ≥ pc.mNumBufs →
        pc.streamCbRoutine env (some sf) (some s)
          = [Call.streamBufDone s (toUInt8 bd.buf_idx)])) := by
  refine ⟨?_, ?_⟩
  · intro h
    refine ⟨⟨[], ?_, rfl⟩, ?_, ?_⟩
    · simp [QCamera3RegularChannel.streamCbRoutine, h]
    · simp [QCamera3PicChannel.streamCbRoutine, h]
    · simp [QCamera3PicChannel.streamCbRoutine, h]
  · intro h1 hb
    refine ⟨?_, ?_⟩
    · intro hge
      simp [QCamera3RegularChannel.streamCbRoutine, h1, hb, hge]
    · intro hge
      simp [QCamera3PicChannel.streamCbRoutine, h1, hb, hge]

theorem streamCb_malformed_payload_witness :
    (sampleRegular true).streamCbRoutine (some (singleBuf 7)) (some sampleStream)
      = some [Call.streamBufDone sampleStream 7] ∧
    (samplePic true).streamCbRoutine (envWith 0 0) (some (singleBuf 7)) (some sampleStream)
      = [Call.streamBufDone sampleStream 7] ∧
    doubleBuf.num_bufs ≠ 1 ∧
    ((samplePic true).streamCbRoutine (envWith 0 0) (some doubleBuf)
      (some sampleStream)).countP Call.isChannelCB = 0 ∧
    ((samplePic true).streamCbRoutine (envWith 0 0) (some doubleBuf)
      (some sampleStream)).countP Call.isPostprocProcessData = 0 :=
  have h := streamCb_malformed_payload (envWith 0 0) (sampleRegular true) (samplePic true)
    (singleBuf 7) { stream_id := 3, buf_idx := 7 } sampleStream
  have h2 := streamCb_malformed_payload (envWith 0 0) (sampleRegular true) (samplePic true)
    doubleBuf { stream_id := 3, buf_idx := 0 } sampleStream
  ⟨(h.2 rfl rfl).1 (by decide), (h.2 rfl rfl).2 (by decide), by decide,
   (h2.1 (by decide)).2.1, (h2.1 (by decide)).2.2⟩

/-- Counterexample to claim C12 as stated: with two registered buffers the
one-element payload of index 256 (out of range) is accepted: the regular
channel fires the delivery callback and the picture channel hands the frame to
the post-processor; and for index 300 the index given back to bufDone is 44,
not 300. -/
theorem streamCb_out_of_range_index_accepted :
    (sampleRegular true).mNumBufs = 2 ∧ (samplePic true).mNumBufs = 2 ∧
    (singleBuf 256).buf 0 = some { stream_id := 3, buf_idx := 256 } ∧ 256 ≥ 2 ∧
    (sampleRegular true).streamCbRoutine (some (singleBuf 256)) (some sampleStream)
      = some [Call.channelCB none
          (some { stream := { format := 34, width := 640, height := 480 }
                  buffer := 100
                  status := CAMERA3_BUFFER_STATUS_OK
                  acquire_fence := -1
                  release_fence := -1 })
          0 9] ∧
    (samplePic true).streamCbRoutine (envWith 0 0) (some (singleBuf 256)) (some sampleStream)
      = [Call.postprocProcessData (singleBuf 256)] ∧
    (sampleRegular true).streamCbRoutine (some (singleBuf 300)) (some sampleStream)
      = some [Call.streamBufDone sampleStream 44] ∧
    (samplePic true).streamCbRoutine (envWith 0 0) (some (singleBuf 300)) (some sampleStream)
      = [Call.streamBufDone sampleStream 44] := by
  decide

/-- Claim C12, amended: for the regular and the picture channel with n
registered buffers, every one-element super-buffer whose driver index narrowed
to 8 bits (buf_idx mod 256) is at least n is dropped: the only call is the
bufDone of the given stream (none when the stream pointer is null), so no
delivery callback is invoked and nothing is handed to the post-processor, and
the index passed back is buf_idx mod 256, which is buf_idx itself when
buf_idx is below 256. -/
theorem streamCb_narrowed_index_dropped (env : Env) (rc : QCamera3RegularChannel)
    (pc : QCamera3PicChannel) (sf : mm_camera_super_buf_t) (bd : mm_camera_buf_def_t)
    (s : QCamera3Stream)
    (h1 : sf.num_bufs = 1) (hb : sf.buf 0 = some bd) :
    (bd.buf_idx % 256 ≥ rc.mNumBufs →
      rc.streamCbRoutine (some sf) (some s) = some [Call.streamBufDone s (bd.buf_idx % 256)] ∧
      rc.streamCbRoutine (some sf) none = some []) ∧
    (bd.buf_idx % 256 ≥ pc.mNumBufs →
      pc.streamCbRoutine env (some sf) (some s) = [Call.streamBufDone s (bd.buf_idx % 256)] ∧
      pc.streamCbRoutine env (some sf) none = []) ∧
    (bd.buf_idx < 256 → bd.buf_idx ≥ rc.mNumBufs →
      rc.streamCbRoutine (some sf) (some s) = some [Call.streamBufDone s bd.buf_idx]) ∧
    (bd.buf_idx < 256 → bd.buf_idx ≥ pc.mNumBufs →
      pc.streamCbRoutine env (some sf) (some s) = [Call.streamBufDone s bd.buf_idx]) := by
  refine ⟨?_, ?_, ?_, ?_⟩
  · intro hge
    simp [QCamera3RegularChannel.streamCbRoutine, h1, hb, toUInt8, hge]
  · intro hge
    simp [QCamera3PicChannel.streamCbRoutine, h1, hb, toUInt8, hge]
  · intro hlt hge
    have hm : bd.buf_idx % 256 = bd.buf_idx := Nat.mod_eq_of_lt hlt
    simp [QCamera3RegularChannel.streamCbRoutine, h1, hb, toUInt8, hm, hge]
  · intro hlt hge
    have hm : bd.buf_idx % 256 = bd.buf_idx := Nat.mod_eq_of_lt hlt
    simp [QCamera3PicChannel.streamCbRoutine, h1, hb, toUInt8, hm, hge]

theorem streamCb_narrowed_index_dropped_witness :
    (singleBuf 300).num_bufs = 1 ∧ 300 % 256 ≥ (sampleRegular true).mNumBufs ∧
    (sampleRegular true).streamCbRoutine (some (singleBuf 300)) (some sampleStream)
      = some [Call.streamBufDone sampleStream (300 % 256)] ∧
    (samplePic true).streamCbRoutine (envWith 0 0) (some (singleBuf 300)) (some sampleStream)
      = [Call.streamBufDone sampleStream (300 % 256)] :=
  have h := streamCb_narrowed_index_dropped (envWith 0 0) (sampleRegular true) (samplePic true)
    (singleBuf 300) { stream_id := 3, buf_idx := 300 } sampleStream rfl rfl
  ⟨rfl, by decide, (h.1 (by decide)).1, (h.2.1 (by decide)).1⟩

/-! ## Returning buffers through the channel -/

theorem foldl_forward (env : Env) (step : Int × List Call → Nat → Int × List Call)
    (g : Nat → Option (QCamera3Stream × Nat))
    (hnone : ∀ acc i, g i = none → step acc i = acc)
    (hsome : ∀ acc i p, g i = some p →
      step acc i = (env.streamBufDone p.1 p.2, acc.2 ++ [Call.streamBufDone p.1 p.2])) :
    ∀ (l : List Nat) (acc : Int × List Call),
      l.foldl step acc
        = (match (l.filterMap g).getLast? with
            | none => acc.1
            | some p => env.streamBufDone p.1 p.2,
           acc.2 ++ (l.filterMap g).map (fun p => Call.streamBufDone p.1 p.2)) := by
  intro l
  induction l with
  | nil => intro acc; simp
  | cons i l ih =>
    intro acc
    cases hg : g i with
    | none =>
      rw [List.foldl_cons, hnone acc i hg, ih, List.filterMap_cons_none hg]
    | some p =>
      rw [List.foldl_cons, hsome acc i p hg, ih, List.filterMap_cons_some hg,
        List.getLast?_cons]
      cases hl : (l.filterMap g).getLast? with
      | none => simp
      | some q => simp

/-- Claim C13: bufDone on the channel makes exactly the calls described: in
element order, one bufDone on the owning stream for every non-null element
among the first num_bufs whose stream_id is the handle of an owned stream,
with that element's buf_idx; the other elements cause no call and do not
touch the result; the result is NO_ERROR when nothing was forwarded and the
status of the last forwarded call otherwise; the channel is unchanged. -/
theorem bufDone_forwards_owned_elements (env : Env) (ch : QCamera3Channel)
    (sb : mm_camera_super_buf_t) :
    (ch.bufDone env sb).calls
      = (forwardedElements ch sb).map (fun p => Call.streamBufDone p.1 p.2) ∧
    (ch.bufDone env sb).rc
      = (match (forwardedElements ch sb).getLast? with
          | none => NO_ERROR
          | some p => env.streamBufDone p.1 p.2) ∧
    (ch.bufDone env sb).chan = ch ∧
    (∀ p ∈ forwardedElements ch sb,
      p.1 ∈ ch.loopStreams ∧
      ∃ i b, i < sb.num_bufs ∧ sb.buf i = some b ∧ b.stream_id = p.1.myHandle ∧
        b.buf_idx = p.2) ∧
    (∀ i b t, i < sb.num_bufs → sb.buf i = some b → t ∈ ch.loopStreams →
      t.myHandle = b.stream_id → ∃ s, (s, b.buf_idx) ∈ forwardedElements ch sb) := by
  have hfold := foldl_forward env
    (fun (acc : Int × List Call) (i : Nat) =>
      match sb.buf i with
      | none => acc
      | some b =>
        match ch.findStream b.stream_id with
        | none => acc
        | some s => (env.streamBufDone s b.buf_idx, acc.2 ++ [Call.streamBufDone s b.buf_idx]))
    (fun i => (sb.buf i).bind
      (fun b => (ch.findStream b.stream_id).map (fun s => (s, b.buf_idx))))
    (by
      intro acc i hg
      cases hb : sb.buf i with
      | none => simp [hb]
      | some b =>
        cases hf : ch.findStream b.stream_id with
        | none => simp [hb, hf]
        | some s => simp [hb, hf] at hg)
    (by
      intro acc i p hg
      cases hb : sb.buf i with
      | none => simp [hb] at hg
      | some b =>
        cases hf : ch.findStream b.stream_id with
        | none => simp [hb, hf] at hg
        | some s =>
          simp [hb, hf] at hg
          subst hg
          simp [hb, hf])
    (List.range sb.num_bufs) (NO_ERROR, [])
  refine ⟨?_, ?_, rfl, ?_, ?_⟩
  · have h2 := congrArg Prod.snd hfold
    simpa [QCamera3Channel.bufDone, forwardedElements] using h2
  · have h1 := congrArg Prod.fst hfold
    simpa [QCamera3Channel.bufDone, forwardedElements] using h1
  · intro p hp
    simp only [forwardedElements, List.mem_filterMap, List.mem_range] at hp
    obtain ⟨i, hi, hgi⟩ := hp
    cases hb : sb.buf i with
    | none => simp [hb] at hgi
    | some b =>
      cases hf : ch.findStream b.stream_id with
      | none => simp [hb, hf] at hgi
      | some s =>
        simp [hb, hf] at hgi
        subst hgi
        have hfind := hf
        unfold QCamera3Channel.findStream at hfind
        refine ⟨List.mem_of_find?_eq_some hfind, i, b, hi, hb, ?_, rfl⟩
        have hh := List.find?_some hfind
        simp at hh
        exact hh.symm
  · intro i b t hi hb ht hh
    cases hf : ch.findStream b.stream_id with
    | none =>
      unfold QCamera3Channel.findStream at hf
      have hnone := List.find?_eq_none.mp hf t ht
      simp [hh] at hnone
    | some s =>
      refine ⟨s, ?_⟩
      simp only [forwardedElements, List.mem_filterMap, List.mem_range]
      exact ⟨i, hi, by simp [hb, hf]⟩

theorem bufDone_forwards_owned_elements_witness :
    forwardedElements (sampleChannel true)
        { num_bufs := 4
          bufs := [some { stream_id := 3, buf_idx := 5 }, none,
                   some { stream_id := 8, buf_idx := 6 }, some { stream_id := 3, buf_idx := 7 }] }
      = [(sampleStream, 5), (sampleStream, 7)] ∧
    ((sampleChannel true).bufDone { envWith 0 0 with streamBufDone := fun _ i => -(i : Int) }
        { num_bufs := 4
          bufs := [some { stream_id := 3, buf_idx := 5 }, none,
                   some { stream_id := 8, buf_idx := 6 },
                   some { stream_id := 3, buf_idx := 7 }] }).calls
      = (forwardedElements (sampleChannel true)
          { num_bufs := 4
            bufs := [some { stream_id := 3, buf_idx := 5 }, none,
                     some { stream_id := 8, buf_idx := 6 },
                     some { stream_id := 3, buf_idx := 7 }] }).map
          (fun p => Call.streamBufDone p.1 p.2) ∧
    ((sampleChannel true).bufDone { envWith 0 0 with streamBufDone := fun _ i => -(i : Int) }
        { num_bufs := 4
          bufs := [some { stream_id := 3, buf_idx := 5 }, none,
                   some { stream_id := 8, buf_idx := 6 },
                   some { stream_id := 3, buf_idx := 7 }] }).rc = -7 :=
  ⟨by decide,
   (bufDone_forwards_owned_elements
      { envWith 0 0 with streamBufDone := fun _ i => -(i : Int) } (sampleChannel true)
      { num_bufs := 4
        bufs := [some { stream_id := 3, buf_idx := 5 }, none,
                 some { stream_id := 8, buf_idx := 6 },
                 some { stream_id := 3, buf_idx := 7 }] }).1,
   by decide⟩

/-! ## Regular channel: registerBuffers -/

theorem addStream_streamInit_args (MAX : Nat) (env : Env) (ch : QCamera3Channel)
    (t : cam_stream_type_t) (f : cam_format_t) (d : cam_dimension_t) (n : Nat)
    (s : QCamera3Stream) (h : Call.streamInit s ∈ (ch.addStream MAX env t f d n).calls) :
    s.streamType = t ∧ s.streamFormat = f := by
  simp only [QCamera3Channel.addStream] at h
  split_ifs at h <;> simp at h <;> (subst h; exact ⟨rfl, rfl⟩)

/-- Claim C14: once init() has succeeded, registerBuffers of the regular
channel classifies by the stream format and the flags word of the first
buffer.  IMPLEMENTATION_DEFINED with the video-encoder flag set, the texture
flag set or not, stores the handles and adds a VIDEO / NV12 stream;
IMPLEMENTATION_DEFINED with the video-encoder flag clear and the texture flag
set does the same with a PREVIEW / NV21 stream; every other combination
returns -EINVAL, leaves mNumBufs and the handle array as they were and adds no
stream (no stream is constructed or initialised, the table is unchanged). -/
theorem regular_registerBuffers_classifies
    (MAX VIDEO_ENCODER HW_TEXTURE : Nat) (env : Env) (c : QCamera3RegularChannel)
    (num_buffers : Nat) (buffers : List BufferHandle) (privFlags : BufferHandle → Nat)
    (b0 : BufferHandle) (h0 : buffers[0]? = some b0) (hinit : env.add_channel ≠ 0) :
    (c.mCamera3Stream.format = HAL_PIXEL_FORMAT_IMPLEMENTATION_DEFINED →
      privFlags b0 &&& VIDEO_ENCODER ≠ 0 →
      env.newBufferArrayNull = false → num_buffers ≤ buffers.length →
      ∃ r, c.registerBuffers MAX VIDEO_ENCODER HW_TEXTURE env num_buffers buffers privFlags
          = some r ∧
        r.chan.mNumBufs = num_buffers ∧
        r.chan.mCamera3Buffers = some (buffers.take num_buffers) ∧
        r.rc = ((c.base.init env none false).chan.addStream MAX env
          cam_stream_type_t.CAM_STREAM_TYPE_VIDEO cam_format_t.CAM_FORMAT_YUV_420_NV12
          { width := c.mCamera3Stream.width, height := c.mCamera3Stream.height }
          num_buffers).rc ∧
        r.chan.base = ((c.base.init env none false).chan.addStream MAX env
          cam_stream_type_t.CAM_STREAM_TYPE_VIDEO cam_format_t.CAM_FORMAT_YUV_420_NV12
          { width := c.mCamera3Stream.width, height := c.mCamera3Stream.height }
          num_buffers).chan ∧
        ∀ s, Call.streamInit s ∈ r.calls →
          s.streamType = cam_stream_type_t.CAM_STREAM_TYPE_VIDEO ∧
          s.streamFormat = cam_format_t.CAM_FORMAT_YUV_420_NV12) ∧
    (c.mCamera3Stream.format = HAL_PIXEL_FORMAT_IMPLEMENTATION_DEFINED →
      privFlags b0 &&& VIDEO_ENCODER = 0 → privFlags b0 &&& HW_TEXTURE ≠ 0 →
      env.newBufferArrayNull = false → num_buffers ≤ buffers.length →
      ∃ r, c.registerBuffers MAX VIDEO_ENCODER HW_TEXTURE env num_buffers buffers privFlags
          = some r ∧
        r.chan.mNumBufs = num_buffers ∧
        r.chan.mCamera3Buffers = some (buffers.take num_buffers) ∧
        r.rc = ((c.base.init env none false).chan.addStream MAX env
          cam_stream_type_t.CAM_STREAM_TYPE_PREVIEW cam_format_t.CAM_FORMAT_YUV_420_NV21
          { width := c.mCamera3Stream.width, height := c.mCamera3Stream.height }
          num_buffers).rc ∧
        r.chan.base = ((c.base.init env none false).chan.addStream MAX env
          cam_stream_type_t.CAM_STREAM_TYPE_PREVIEW cam_format_t.CAM_FORMAT_YUV_420_NV21
          { width := c.mCamera3Stream.width, height := c.mCamera3Stream.height }
          num_buffers).chan ∧
        ∀ s, Call.streamInit s ∈ r.calls →
          s.streamType = cam_stream_type_t.CAM_STREAM_TYPE_PREVIEW ∧
          s.streamFormat = cam_format_t.CAM_FORMAT_YUV_420_NV21) ∧
    (¬ (c.mCamera3Stream.format = HAL_PIXEL_FORMAT_IMPLEMENTATION_DEFINED ∧
          (privFlags b0 &&& VIDEO_ENCODER ≠ 0 ∨ privFlags b0 &&& HW_TEXTURE ≠ 0)) →
      ∃ r, c.registerBuffers MAX VIDEO_ENCODER HW_TEXTURE env num_buffers buffers privFlags
          = some r ∧
        r.rc = -EINVAL ∧
        r.chan.mNumBufs = c.mNumBufs ∧
        r.chan.mCamera3Buffers = c.mCamera3Buffers ∧
        r.chan.base.m_numStreams = c.base.m_numStreams ∧
        r.chan.base.mStreams = c.base.mStreams ∧
        r.calls.countP Call.isStreamCreate = 0) := by
  have hrc : ¬ ((c.base.init env none false).rc < 0) := by
    simp [QCamera3Channel.init, hinit, NO_ERROR]
  have hcalls : (c.base.init env none false).calls
      = [Call.add_channel c.base.m_camHandle none false] := by
    simp only [QCamera3Channel.init]
    split_ifs <;> rfl
  refine ⟨?_, ?_, ?_⟩
  · intro hf hv ha hn
    simp only [QCamera3RegularChannel.registerBuffers, h0, hrc, hf, hv, ha, hn, if_true,
      if_false, ne_eq, not_false_eq_true, Bool.false_eq_true]
    refine ⟨_, rfl, rfl, rfl, rfl, rfl, ?_⟩
    · intro s hs
      simp only [hcalls, List.mem_append, List.mem_singleton] at hs
      rcases hs with hs | hs
      · cases hs
      · exact addStream_streamInit_args _ _ _ _ _ _ _ s hs
  · intro hf hv ht ha hn
    simp only [QCamera3RegularChannel.registerBuffers, h0, hrc, hf, hv, ht, ha, hn, if_true,
      if_false, ne_eq, not_false_eq_true, not_true_eq_false, Bool.false_eq_true]
    refine ⟨_, rfl, rfl, rfl, rfl, rfl, ?_⟩
    · intro s hs
      simp only [hcalls, List.mem_append, List.mem_singleton] at hs
      rcases hs with hs | hs
      · cases hs
      · exact addStream_streamInit_args _ _ _ _ _ _ _ s hs
  · intro hnot
    have hcls : (if c.mCamera3Stream.format = HAL_PIXEL_FORMAT_IMPLEMENTATION_DEFINED then
          if privFlags b0 &&& VIDEO_ENCODER ≠ 0 then
            some (cam_stream_type_t.CAM_STREAM_TYPE_VIDEO,
              cam_format_t.CAM_FORMAT_YUV_420_NV12)
          else if privFlags b0 &&& HW_TEXTURE ≠ 0 then
            some (cam_stream_type_t.CAM_STREAM_TYPE_PREVIEW,
              cam_format_t.CAM_FORMAT_YUV_420_NV21)
          else none
        else none) = none := by
      by_cases hf : c.mCamera3Stream.format = HAL_PIXEL_FORMAT_IMPLEMENTATION_DEFINED
      · have hv : ¬ (privFlags b0 &&& VIDEO_ENCODER ≠ 0) := fun h => hnot ⟨hf, Or.inl h⟩
        have ht : ¬ (privFlags b0 &&& HW_TEXTURE ≠ 0) := fun h => hnot ⟨hf, Or.inr h⟩
        simp only [hf, hv, ht, if_true, if_false]
      · simp only [hf, if_false]
    refine ⟨{ rc := -EINVAL, chan := { c with base := (c.base.init env none false).chan },
              calls := (c.base.init env none false).calls }, ?_, rfl, rfl, rfl, ?_, ?_, ?_⟩
    · simp only [QCamera3RegularChannel.registerBuffers, h0, hrc, hcls, if_false]
    · simp only [QCamera3Channel.init]; split_ifs <;> rfl
    · simp only [QCamera3Channel.init]; split_ifs <;> rfl
    · simp [hcalls, Call.isStreamCreate]

theorem regular_registerBuffers_classifies_witness :
    (∃ r, (freshRegular 34).registerBuffers 4 65536 1048576 (envWith 0 0) 2 [100, 200]
          (fun _ => 65536 + 1048576) = some r ∧
        r.chan.mNumBufs = 2 ∧
        r.chan.mCamera3Buffers = some ([100, 200].take 2) ∧
        r.rc = (((freshRegular 34).base.init (envWith 0 0) none false).chan.addStream 4
          (envWith 0 0)
          cam_stream_type_t.CAM_STREAM_TYPE_VIDEO cam_format_t.CAM_FORMAT_YUV_420_NV12
          { width := 640, height := 480 } 2).rc ∧
        r.chan.base = (((freshRegular 34).base.init (envWith 0 0) none false).chan.addStream 4
          (envWith 0 0)
          cam_stream_type_t.CAM_STREAM_TYPE_VIDEO cam_format_t.CAM_FORMAT_YUV_420_NV12
          { width := 640, height := 480 } 2).chan ∧
        ∀ s, Call.streamInit s ∈ r.calls →
          s.streamType = cam_stream_type_t.CAM_STREAM_TYPE_VIDEO ∧
          s.streamFormat = cam_format_t.CAM_FORMAT_YUV_420_NV12) ∧
    ((freshRegular 34).registerBuffers 4 65536 1048576 (envWith 0 0) 2 [100, 200]
        (fun _ => 65536 + 1048576)).map (fun r => (r.rc, r.chan.base.mStreams))
      = some (0, [some { camHandle := 1, channelHandle := 7, myHandle := 3
                         streamType := cam_stream_type_t.CAM_STREAM_TYPE_VIDEO
                         streamFormat := cam_format_t.CAM_FORMAT_YUV_420_NV12
                         streamDim := { width := 640, height := 480 }
                         minStreamBufNum := 2 }, none, none, none]) ∧
    (∃ r, (freshRegular 33).registerBuffers 4 65536 1048576 (envWith 0 0) 2 [100, 200]
          (fun _ => 65536) = some r ∧
        r.rc = -EINVAL ∧
        r.chan.mNumBufs = 0 ∧
        r.chan.mCamera3Buffers = none ∧
        r.chan.base.m_numStreams = 0 ∧
        r.chan.base.mStreams = [none, none, none, none] ∧
        r.calls.countP Call.isStreamCreate = 0) :=
  ⟨(regular_registerBuffers_classifies 4 65536 1048576 (envWith 0 0) (freshRegular 34) 2
      [100, 200] (fun _ => 65536 + 1048576) 100 rfl (by decide)).1 rfl (by decide) rfl
      (by decide),
   by decide,
   (regular_registerBuffers_classifies 4 65536 1048576 (envWith 0 0) (freshRegular 33) 2
      [100, 200] (fun _ => 65536) 100 rfl (by decide)).2.2 (by decide)⟩

/-! ## Metadata channel -/

/-- Claim C15: registerBuffers of the metadata channel returns -EINVAL for
every buffer count and buffer array and in every channel state, makes no call
and leaves the channel unchanged. -/
theorem metadata_registerBuffers_always_fails (c : QCamera3MetadataChannel)
    (num_buffers : Nat) (buffers : List BufferHandle) :
    (c.registerBuffers num_buffers buffers).rc = -EINVAL ∧
    (c.registerBuffers num_buffers buffers).rc = -22 ∧
    (c.registerBuffers num_buffers buffers).rc ≠ NO_ERROR ∧
    (c.registerBuffers num_buffers buffers).chan = c ∧
    (c.registerBuffers num_buffers buffers).calls = [] := by
  refine ⟨rfl, rfl, ?_, rfl, rfl⟩
  simp [QCamera3MetadataChannel.registerBuffers, EINVAL, NO_ERROR]

theorem count_streamStart_map (s : QCamera3Stream) (l : List QCamera3Stream) :
    (l.map Call.streamStart).count (Call.streamStart s) = l.count s := by
  induction l with
  | nil => rfl
  | cons t l ih =>
    by_cases hts : t = s
    · subst hts; simp [ih]
    · have hne : Call.streamStart t ≠ Call.streamStart s := by
        intro h; injection h with h'; exact hts h'
      simp only [List.map_cons]
      rw [List.count_cons_of_ne hne.symm, List.count_cons_of_ne (Ne.symm hts), ih]

theorem countP_startChannel_map (l : List QCamera3Stream) :
    (l.map Call.streamStart).countP Call.isStartChannel = 0 := by
  induction l with
  | nil => rfl
  | cons t l ih => simp [List.countP_cons, Call.isStartChannel, ih]

theorem loopStreams_length_le (ch : QCamera3Channel) :
    ch.loopStreams.length ≤ ch.m_numStreams := by
  unfold QCamera3Channel.loopStreams
  calc ((List.range ch.m_numStreams).filterMap _).length
      ≤ (List.range ch.m_numStreams).length := List.length_filterMap_le _ _
    _ = ch.m_numStreams := List.length_range _

/-- Counterexample to claim C16 as stated: on an inactive metadata channel
whose first request() fails at the driver (start_channel returns -19) and
whose second request() then succeeds, with no stop() of the channel in
between, the stream's start() is called twice and start_channel twice. -/
theorem metadata_request_restarts_after_failure :
    metadataWithStream.base.m_bIsActive = false ∧
    (metadataWithStream.request (envWith (-19) 0) 0 0).rc = -19 ∧
    ((metadataWithStream.request (envWith (-19) 0) 0 0).chan.request (envWith 0 0) 0 1).rc = 0 ∧
    (metadataWithStream.request (envWith (-19) 0) 0 0).calls ++
        ((metadataWithStream.request (envWith (-19) 0) 0 0).chan.request (envWith 0 0) 0 1).calls
      = [Call.streamStart sampleStream, Call.start_channel 1 7, Call.streamStop sampleStream,
         Call.streamStart sampleStream, Call.start_channel 1 7] ∧
    ((metadataWithStream.request (envWith (-19) 0) 0 0).calls ++
        ((metadataWithStream.request (envWith (-19) 0) 0 0).chan.request
          (envWith 0 0) 0 1).calls).count (Call.streamStart sampleStream) = 2 := by
  decide

/-- Claim C16, amended: request() of the metadata channel on an already active
channel returns 0, makes no stream or driver call and changes nothing; hence
for two consecutive request() calls with no stop() in between, whenever the
first call leaves the channel active (it was active, or its start succeeded)
the second call makes no call, and across the two calls start_channel is
called at most once and each stream's start() at most once per slot holding
it, that is at most once on a channel of at most one stream. -/
theorem metadata_request_idempotent (env1 env2 : Env) (c : QCamera3MetadataChannel)
    (b1 f1 b2 f2 : Nat) :
    (c.base.m_bIsActive = true →
      (c.request env1 b1 f1).rc = 0 ∧ (c.request env1 b1 f1).calls = [] ∧
      (c.request env1 b1 f1).chan = c) ∧
    ((c.request env1 b1 f1).chan.base.m_bIsActive = true →
      ((c.request env1 b1 f1).chan.request env2 b2 f2).rc = 0 ∧
      ((c.request env1 b1 f1).chan.request env2 b2 f2).calls = [] ∧
      ((c.request env1 b1 f1).calls ++
        ((c.request env1 b1 f1).chan.request env2 b2 f2).calls).countP Call.isStartChannel ≤ 1 ∧
      (∀ s, ((c.request env1 b1 f1).calls ++
          ((c.request env1 b1 f1).chan.request env2 b2 f2).calls).count (Call.streamStart s)
        ≤ c.base.loopStreams.count s) ∧
      (c.base.m_numStreams ≤ 1 →
        ∀ s, ((c.request env1 b1 f1).calls ++
          ((c.request env1 b1 f1).chan.request env2 b2 f2).calls).count (Call.streamStart s)
        ≤ 1)) := by
  have hactive : ∀ (env : Env) (d : QCamera3MetadataChannel) (b f : Nat),
      d.base.m_bIsActive = true →
      (d.request env b f).rc = 0 ∧ (d.request env b f).calls = [] ∧
      (d.request env b f).chan = d := by
    intro env d b f h
    simp [QCamera3MetadataChannel.request, h]
  refine ⟨hactive env1 c b1 f1, ?_⟩
  intro hpost
  obtain ⟨h2rc, h2calls, _⟩ := hactive env2 (c.request env1 b1 f1).chan b2 f2 hpost
  have hcount : (c.request env1 b1 f1).calls.countP Call.isStartChannel ≤ 1 ∧
      ∀ s, (c.request env1 b1 f1).calls.count (Call.streamStart s)
        ≤ c.base.loopStreams.count s := by
    cases hact : c.base.m_bIsActive with
    | true =>
      have h1 := (hactive env1 c b1 f1 hact).2.1
      rw [h1]
      exact ⟨by simp, fun s => by simp⟩
    | false =>
      have hok : env1.start_channel = NO_ERROR := by
        by_contra hne
        simp [QCamera3MetadataChannel.request, QCamera3Channel.start, hact, hne] at hpost
      have hcalls : (c.request env1 b1 f1).calls
          = c.base.loopStreams.map Call.streamStart
              ++ [Call.start_channel c.base.m_camHandle c.base.m_handle] := by
        simp [QCamera3MetadataChannel.request, QCamera3Channel.start, hact, hok]
      rw [hcalls]
      refine ⟨?_, ?_⟩
      · simp [List.countP_append, countP_startChannel_map, Call.isStartChannel]
      · intro s
        rw [List.count_append, count_streamStart_map]
        simp [List.count_cons]
  rw [h2calls, List.append_nil]
  refine ⟨h2rc, rfl, hcount.1, hcount.2, ?_⟩
  intro hle s
  calc (c.request env1 b1 f1).calls.count (Call.streamStart s)
      ≤ c.base.loopStreams.count s := hcount.2 s
    _ ≤ c.base.loopStreams.length := List.count_le_length _ _
    _ ≤ c.base.m_numStreams := loopStreams_length_le _
    _ ≤ 1 := hle

theorem metadata_request_idempotent_witness :
    (metadataWithStream.request (envWith 0 0) 0 0).chan.base.m_bIsActive = true ∧
    ((metadataWithStream.request (envWith 0 0) 0 0).chan.request (envWith 0 0) 0 1).rc = 0 ∧
    ((metadataWithStream.request (envWith 0 0) 0 0).chan.request (envWith 0 0) 0 1).calls = [] ∧
    ((metadataWithStream.request (envWith 0 0) 0 0).calls ++
      ((metadataWithStream.request (envWith 0 0) 0 0).chan.request
        (envWith 0 0) 0 1).calls).countP Call.isStartChannel ≤ 1 :=
  have h := (metadata_request_idempotent (envWith 0 0) (envWith 0 0) metadataWithStream
    0 0 0 1).2 (by decide)
  ⟨by decide, h.1, h.2.1, h.2.2.1⟩

theorem addStream_rc_zero_adds (MAX : Nat) (env : Env) (ch : QCamera3Channel)
    (t : cam_stream_type_t) (f : cam_format_t) (d : cam_dimension_t) (n : Nat)
    (h : (ch.addStream MAX env t f d n).rc = NO_ERROR) :
    (ch.addStream MAX env t f d n).chan.m_numStreams > 0 := by
  simp only [QCamera3Channel.addStream] at h ⊢
  split_ifs at h ⊢ <;> simp_all [BAD_VALUE, NO_MEMORY, NO_ERROR]

/-- Counterexample to claim C17 as stated: a first initialize() registers the
channel with the driver and then fails in the stream's init, returning -1; the
second initialize() on that channel does not fail: it calls add_channel again,
adds the stream and returns NO_ERROR. -/
theorem metadata_initialize_again_after_failure :
    (sampleMetadata.initializeChannel 4 1000 envStreamInitFails).rc = -1 ∧
    (sampleMetadata.initializeChannel 4 1000 envStreamInitFails).calls.countP
      Call.isAddChannel = 1 ∧
    ((sampleMetadata.initializeChannel 4 1000 envStreamInitFails).chan.initializeChannel
      4 1000 (envWith 0 0)).rc = NO_ERROR ∧
    ((sampleMetadata.initializeChannel 4 1000 envStreamInitFails).chan.initializeChannel
      4 1000 (envWith 0 0)).calls.countP Call.isAddChannel = 1 ∧
    ((sampleMetadata.initializeChannel 4 1000 envStreamInitFails).chan.initializeChannel
      4 1000 (envWith 0 0)).chan.base.m_numStreams = 1 := by
  decide

/-- Claim C17, amended: initialize() of the metadata channel fails when it is
called again after it has succeeded.  On every metadata channel on which a
first initialize() returned NO_ERROR, and more generally on every metadata
channel that holds a stream or whose memory exists, initialize() returns
-EINVAL and makes no call at all (no add_channel, no stream constructed or
added), leaving the channel unchanged. -/
theorem metadata_initialize_twice_fails (MAX metadataSize : Nat) (env1 env2 : Env)
    (c : QCamera3MetadataChannel) :
    ((c.mMemory.isSome = true ∨ c.base.m_numStreams > 0) →
      (c.initializeChannel MAX metadataSize env2).rc = -EINVAL ∧
      (c.initializeChannel MAX metadataSize env2).calls = [] ∧
      (c.initializeChannel MAX metadataSize env2).chan = c) ∧
    ((c.initializeChannel MAX metadataSize env1).rc = NO_ERROR →
      ((c.initializeChannel MAX metadataSize env1).chan.initializeChannel
        MAX metadataSize env2).rc = -EINVAL ∧
      ((c.initializeChannel MAX metadataSize env1).chan.initializeChannel
        MAX metadataSize env2).rc ≠ NO_ERROR ∧
      ((c.initializeChannel MAX metadataSize env1).chan.initializeChannel
        MAX metadataSize env2).calls = [] ∧
      ((c.initializeChannel MAX metadataSize env1).chan.initializeChannel
        MAX metadataSize env2).chan = (c.initializeChannel MAX metadataSize env1).chan) := by
  have hguard : ∀ (env : Env) (d : QCamera3MetadataChannel),
      (d.mMemory.isSome = true ∨ d.base.m_numStreams > 0) →
      (d.initializeChannel MAX metadataSize env).rc = -EINVAL ∧
      (d.initializeChannel MAX metadataSize env).calls = [] ∧
      (d.initializeChannel MAX metadataSize env).chan = d := by
    intro env d h
    have hc : (d.mMemory.isSome || decide (d.base.m_numStreams > 0)) = true := by
      rcases h with h | h
      · simp [h]
      · simp [h]
    simp only [QCamera3MetadataChannel.initializeChannel, hc, if_true, and_self]
  refine ⟨hguard env2 c, ?_⟩
  intro hok
  have hstream : (c.initializeChannel MAX metadataSize env1).chan.base.m_numStreams > 0 := by
    by_cases hg : (c.mMemory.isSome || decide (c.base.m_numStreams > 0)) = true
    · simp [QCamera3MetadataChannel.initializeChannel, hg, EINVAL, NO_ERROR] at hok
    · by_cases hinit : (c.base.init env1 none false).rc < 0
      · simp only [QCamera3MetadataChannel.initializeChannel, hg, hinit, if_true,
          Bool.false_eq_true, if_false] at hok
        rw [hok] at hinit
        simp [NO_ERROR] at hinit
      · simp only [QCamera3MetadataChannel.initializeChannel, hg, hinit, if_false,
          Bool.false_eq_true] at hok ⊢
        exact addStream_rc_zero_adds _ _ _ _ _ _ _ hok
  obtain ⟨h1, h2, h3⟩ := hguard env2 _ (Or.inr hstream)
  refine ⟨h1, ?_, h2, h3⟩
  rw [h1]
  simp [EINVAL, NO_ERROR]

theorem metadata_initialize_twice_fails_witness :
    (sampleMetadata.initializeChannel 4 1000 (envWith 0 0)).rc = NO_ERROR ∧
    ((sampleMetadata.initializeChannel 4 1000 (envWith 0 0)).chan.initializeChannel
      4 1000 (envWith 0 0)).rc = -EINVAL ∧
    ((sampleMetadata.initializeChannel 4 1000 (envWith 0 0)).chan.initializeChannel
      4 1000 (envWith 0 0)).calls = [] :=
  have h := (metadata_initialize_twice_fails 4 1000 (envWith 0 0) (envWith 0 0)
    sampleMetadata).2 (by decide)
  ⟨by decide, h.1, h.2.2.1⟩

/-- Claim C18: for a one-element super-buffer (its element and the stream
pointer non-null) the metadata channel's stream callback makes exactly two
calls, in this order: the registered callback with the whole super-buffer as
metadata, no buffer result and frame number 0, then one bufDone on the stream
with the element's buf_idx. -/
theorem metadata_streamCb_delivers_then_requeues (c : QCamera3MetadataChannel)
    (sf : mm_camera_super_buf_t) (b0 : mm_camera_buf_def_t) (s : QCamera3Stream)
    (h1 : sf.num_bufs = 1) (hb : sf.buf 0 = some b0) :
    c.streamCbRoutine (some sf) (some s)
      = some [Call.channelCB (some sf) none 0 c.base.mUserData,
              Call.streamBufDone s b0.buf_idx] ∧
    (∀ calls, c.streamCbRoutine (some sf) (some s) = some calls →
      calls.countP Call.isChannelCB = 1 ∧ calls.countP Call.isStreamBufDone = 1) := by
  have hres : c.streamCbRoutine (some sf) (some s)
      = some [Call.channelCB (some sf) none 0 c.base.mUserData,
              Call.streamBufDone s b0.buf_idx] := by
    simp [QCamera3MetadataChannel.streamCbRoutine, h1, hb]
  refine ⟨hres, ?_⟩
  intro calls hc
  rw [hres] at hc
  cases hc
  exact ⟨rfl, rfl⟩

theorem metadata_streamCb_delivers_then_requeues_witness :
    (singleBuf 2).num_bufs = 1 ∧
    metadataWithStream.streamCbRoutine (some (singleBuf 2)) (some sampleStream)
      = some [Call.channelCB (some (singleBuf 2)) none 0 9,
              Call.streamBufDone sampleStream 2] :=
  ⟨rfl, (metadata_streamCb_delivers_then_requeues metadataWithStream (singleBuf 2)
    { stream_id := 3, buf_idx := 2 } sampleStream rfl rfl).1⟩

/-! ## Picture channel: request -/

theorem matchFrom_first (key : BufferHandle) :
    ∀ (l : List MemSlot) (k i : Nat),
      (l.map (fun s => s.handle))[i]? = some key →
      (∀ j, j < i → (l.map (fun s => s.handle))[j]? ≠ some key) →
      matchFrom key l k = ((k + i : Nat) : Int) := by
  intro l
  induction l with
  | nil => intro k i h _; simp at h
  | cons a l ih =>
    intro k i hi hfirst
    cases i with
    | zero =>
      simp at hi
      simp [matchFrom, hi]
    | succ j =>
      have hne : a.handle ≠ key := by
        have h0 := hfirst 0 (Nat.succ_pos j)
        simpa using h0
      simp only [List.map_cons, List.getElem?_cons_succ] at hi
      have hrest : ∀ j', j' < j → (l.map (fun s => s.handle))[j']? ≠ some key := by
        intro j' hj'
        have h1 := hfirst (j' + 1) (Nat.succ_lt_succ hj')
        simpa using h1
      simp only [matchFrom, hne, if_false]
      rw [ih (k + 1) j hi hrest]
      congr 1
      omega


theorem start_calls_countP_zero (env : Env) (ch : QCamera3Channel) (P : Call → Bool)
    (h1 : ∀ s, P (Call.streamStart s) = false) (h2 : ∀ a b, P (Call.start_channel a b) = false)
    (h3 : ∀ s, P (Call.streamStop s) = false) :
    (ch.start env).calls.countP P = 0 := by
  rw [List.countP_eq_zero]
  intro c hc
  by_cases hrc : env.start_channel = NO_ERROR
  · simp only [QCamera3Channel.start, hrc, ne_eq, not_true_eq_false, if_false,
      List.mem_append, List.mem_map, List.mem_singleton] at hc
    rcases hc with ⟨s, _, rfl⟩ | rfl
    · simp [h1]
    · simp [h2]
  · simp only [QCamera3Channel.start, hrc, ne_eq, not_false_eq_true, if_true,
      List.mem_append, List.mem_map, List.mem_singleton] at hc
    rcases hc with (⟨s, _, rfl⟩ | rfl) | ⟨s, _, rfl⟩
    · simp [h1]
    · simp [h2]
    · simp [h3]

/-- Claim C19: request() of the picture channel with a buffer that the output
memory does not hold (the memory is absent, or getMatchBufIndex is negative)
returns an error code and issues nothing for the capture: no post-processor
start, no request_super_buf call, the memory and so every recorded frame
number unchanged, mCurrentBufIndex unchanged.  Its only calls are those of the
lazy start when the channel was inactive. -/
theorem pic_request_unknown_buffer (env : Env) (c : QCamera3PicChannel)
    (buffer : BufferHandle) (frameNumber : Nat) (jpegSettings : Option jpeg_settings_t)
    (h : ∀ mem, c.mMemory = some mem → mem.getMatchBufIndex buffer < 0) :
    (c.request env buffer frameNumber jpegSettings).rc ≠ NO_ERROR ∧
    (c.request env buffer frameNumber jpegSettings).calls.countP Call.isPostprocStart = 0 ∧
    (c.request env buffer frameNumber jpegSettings).calls.countP Call.isRequestSuperBuf = 0 ∧
    (c.request env buffer frameNumber jpegSettings).chan.mMemory = c.mMemory ∧
    (c.request env buffer frameNumber jpegSettings).chan.mCurrentBufIndex
      = c.mCurrentBufIndex ∧
    (c.request env buffer frameNumber jpegSettings).calls
      = (if c.base.m_bIsActive then [] else (c.base.start env).calls) := by
  have hcalls : (c.request env buffer frameNumber jpegSettings).calls
      = (if c.base.m_bIsActive then [] else (c.base.start env).calls) ∧
      (c.request env buffer frameNumber jpegSettings).rc ≠ NO_ERROR ∧
      (c.request env buffer frameNumber jpegSettings).chan.mMemory = c.mMemory ∧
      (c.request env buffer frameNumber jpegSettings).chan.mCurrentBufIndex
        = c.mCurrentBufIndex := by
    obtain ⟨base, cstream, nbufs, cbufs, cur, cmem, yuv, js, pp⟩ := c
    simp only at h
    cases hact : base.m_bIsActive with
    | true =>
      cases cmem with
      | none => simp [QCamera3PicChannel.request, hact, NO_ERROR, NO_MEMORY]
      | some mem =>
        have hneg := h mem rfl
        simp [QCamera3PicChannel.request, hact, hneg, NO_ERROR, DEAD_OBJECT]
    | false =>
      by_cases hrc : (base.start env).rc = NO_ERROR
      · cases cmem with
        | none => simp [QCamera3PicChannel.request, hact, hrc, NO_ERROR, NO_MEMORY]
        | some mem =>
          have hneg := h mem rfl
          simp [QCamera3PicChannel.request, hact, hrc, hneg, NO_ERROR, DEAD_OBJECT]
      · simp [QCamera3PicChannel.request, hact, hrc]
  obtain ⟨hc, hrc, hm, hcur⟩ := hcalls
  refine ⟨hrc, ?_, ?_, hm, hcur, hc⟩
  · rw [hc]
    split_ifs
    · rfl
    · exact start_calls_countP_zero env c.base _ (fun _ => rfl) (fun _ _ => rfl) (fun _ => rfl)
  · rw [hc]
    split_ifs
    · rfl
    · exact start_calls_countP_zero env c.base _ (fun _ => rfl) (fun _ _ => rfl) (fun _ => rfl)

theorem pic_request_unknown_buffer_witness :
    ((samplePic false).request (envWith 0 0) 300 5 none).rc ≠ NO_ERROR ∧
    ((samplePic false).request (envWith 0 0) 300 5 none).calls.countP Call.isPostprocStart = 0 ∧
    ((samplePic false).request (envWith 0 0) 300 5 none).calls.countP
      Call.isRequestSuperBuf = 0 ∧
    ((samplePic false).request (envWith 0 0) 300 5 none).chan.mMemory
      = (samplePic false).mMemory ∧
    ((samplePic false).request (envWith 0 0) 300 5 none).chan.mCurrentBufIndex = -1 :=
  have h := pic_request_unknown_buffer (envWith 0 0) (samplePic false) 300 5 none
    (by
      intro mem hm
      have hmem : mem = { slots := [{ handle := 100, frameNumber := 0 },
                                    { handle := 200, frameNumber := 0 }] } := by
        simp [samplePic] at hm
        exact hm.symm
      subst hmem
      decide)
  ⟨h.1, h.2.1, h.2.2.1, h.2.2.2.1, h.2.2.2.2.1⟩

/-- Claim C20: on an active picture channel, request() for a buffer
registered at slot i of the output memory (i being the first slot that holds
the handle, the only one when handles are pairwise distinct) records the frame
number against slot i, sets mCurrentBufIndex to i and makes exactly two calls,
in this order: postProcessor.start with the memory and i, then the driver's
request_super_buf with a count of 1. -/
theorem pic_request_registered_buffer (env : Env) (c : QCamera3PicChannel)
    (mem : QCamera3GrallocMemory) (buffer : BufferHandle) (i frameNumber : Nat)
    (jpegSettings : Option jpeg_settings_t)
    (hact : c.base.m_bIsActive = true) (hm : c.mMemory = some mem)
    (hi : (mem.slots.map (fun s => s.handle))[i]? = some buffer)
    (hfirst : ∀ j, j < i → (mem.slots.map (fun s => s.handle))[j]? ≠ some buffer) :
    (c.request env buffer frameNumber jpegSettings).chan.mMemory
      = some (mem.markFrameNumber i frameNumber).2 ∧
    (mem.markFrameNumber i frameNumber).2.getFrameNumber i
      = toInt32 (frameNumber % 4294967296) ∧
    (c.request env buffer frameNumber jpegSettings).rc = NO_ERROR ∧
    (c.request env buffer frameNumber jpegSettings).chan.mCurrentBufIndex = (i : Int) ∧
    (c.request env buffer frameNumber jpegSettings).calls
      = [Call.postprocStart (mem.markFrameNumber i frameNumber).2 i,
         Call.request_super_buf c.base.m_camHandle c.base.m_handle 1] ∧
    (c.request env buffer frameNumber jpegSettings).calls.countP Call.isPostprocStart = 1 ∧
    (c.request env buffer frameNumber jpegSettings).calls.countP Call.isRequestSuperBuf = 1 := by
  have hmi : mem.getMatchBufIndex buffer = (i : Int) := by
    have h := matchFrom_first buffer mem.slots 0 i hi hfirst
    simpa [QCamera3GrallocMemory.getMatchBufIndex] using h
  have hislots : i < mem.slots.length := by
    obtain ⟨h, _⟩ := List.getElem?_eq_some.mp hi
    simpa using h
  have hget : mem.slots[i]? = some mem.slots[i] := List.getElem?_eq_getElem hislots
  have hmark : (mem.markFrameNumber i frameNumber).1 = NO_ERROR := by
    simp [QCamera3GrallocMemory.markFrameNumber, hget]
  have hnn : ¬ ((i : Int) < 0) := by omega
  obtain ⟨base, cstream, nbufs, cbufs, cur, cmem, yuv, js, pp⟩ := c
  simp only at hact hm
  subst hm
  have hcalls : (QCamera3PicChannel.request env ⟨base, cstream, nbufs, cbufs, cur, some mem, yuv, js, pp⟩
      buffer frameNumber jpegSettings).calls
      = [Call.postprocStart (mem.markFrameNumber i frameNumber).2 i,
         Call.request_super_buf base.m_camHandle base.m_handle 1] := by
    simp [QCamera3PicChannel.request, hact, hmi, hnn, NO_ERROR]
  refine ⟨?_, getFrameNumber_markFrameNumber mem i frameNumber hislots, ?_, ?_, hcalls, ?_, ?_⟩
  · simp [QCamera3PicChannel.request, hact, hmi, hnn, NO_ERROR]
  · simp only [QCamera3PicChannel.request, hact, hmi, hnn, NO_ERROR, Bool.not_true,
      Bool.false_eq_true, if_false, ne_eq, not_true_eq_false, Int.toNat_ofNat]
    exact hmark
  · simp [QCamera3PicChannel.request, hact, hmi, hnn, NO_ERROR]
  · rw [hcalls]; rfl
  · rw [hcalls]; rfl

theorem pic_request_registered_buffer_witness :
    (samplePic true).base.m_bIsActive = true ∧
    ((samplePic true).request (envWith 0 0) 200 5 none).chan.mMemory
      = some { slots := [{ handle := 100, frameNumber := 0 },
                         { handle := 200, frameNumber := 5 }] } ∧
    ((samplePic true).request (envWith 0 0) 200 5 none).rc = NO_ERROR ∧
    ((samplePic true).request (envWith 0 0) 200 5 none).chan.mCurrentBufIndex = 1 ∧
    ((samplePic true).request (envWith 0 0) 200 5 none).calls
      = [Call.postprocStart { slots := [{ handle := 100, frameNumber := 0 },
                                        { handle := 200, frameNumber := 5 }] } 1,
         Call.request_super_buf 1 7 1] :=
  have h := pic_request_registered_buffer (envWith 0 0) (samplePic true)
    { slots := [{ handle := 100, frameNumber := 0 }, { handle := 200, frameNumber := 0 }] }
    200 1 5 none rfl rfl (by decide) (by decide)
  ⟨rfl, h.1, h.2.2.1, h.2.2.2.1, h.2.2.2.2.1⟩

/-! ## Picture channel: encode completion -/

theorem jpegEvtHandle_result (status : jpeg_job_status_t) (client_hdl jobId : Nat)
    (out : mm_jpeg_output_t) (obj : QCamera3PicChannel) (settings : jpeg_settings_t)
    (mem : QCamera3GrallocMemory) (bufs : List BufferHandle) (b : BufferHandle)
    (hs : obj.mJpegSettings = some settings) (hm : obj.mMemory = some mem)
    (hb : obj.mCamera3Buffers = some bufs) (hidx : 0 ≤ obj.mCurrentBufIndex)
    (hbuf : bufs[obj.mCurrentBufIndex.toNat]? = some b) :
    QCamera3PicChannel.jpegEvtHandle status client_hdl jobId (some out) (some obj)
      = some
          { chan := some (if jobId ∈ obj.m_postprocessor.ongoingJobs then
                { obj with m_postprocessor :=
                    { ongoingJobs := obj.m_postprocessor.ongoingJobs.erase jobId } }
              else obj)
            calls :=
              [Call.trailerWrite out.buf_vaddr
                 (jpegEvtMaxJpegSize settings.max_jpeg_size (mem.getSize obj.mCurrentBufIndex)
                    - sizeofJpegHeader)
                 CAMERA3_JPEG_BLOB_ID (out.buf_filled_len % 4294967296),
               Call.cleanInvalidateCache obj.mCurrentBufIndex,
               Call.channelCB none
                 (some { stream := obj.mCamera3Stream
                         buffer := b
                         status :=
                           if jobId ∉ obj.m_postprocessor.ongoingJobs ∨
                               status = jpeg_job_status_t.JPEG_JOB_STATUS_ERROR then
                             CAMERA3_BUFFER_STATUS_ERROR
                           else CAMERA3_BUFFER_STATUS_OK
                         acquire_fence := -1
                         release_fence := -1 })
                 (toUInt32 (mem.getFrameNumber obj.mCurrentBufIndex.toNat))
                 obj.base.mUserData]
              ++ (if jobId ∈ obj.m_postprocessor.ongoingJobs then
                    [Call.releaseJpegJobData jobId] else []) } := by
  have hneg : ¬ (obj.mCurrentBufIndex < 0) := by omega
  by_cases hj : jobId ∈ obj.m_postprocessor.ongoingJobs
  · simp [QCamera3PicChannel.jpegEvtHandle, hs, hm, hb, hneg, hbuf, hj]
  · simp [QCamera3PicChannel.jpegEvtHandle, hs, hm, hb, hneg, hbuf, hj]

/-- Claim C21: when jpegEvtHandle runs on a channel that has served a request,
it writes the trailer exactly once, at byte offset M - 8 from the start of the
output buffer, with the blob identifier and a length field equal to the
encoder's buf_filled_len, where C is the size of the current output buffer and
M is max_jpeg_size when 0 < max_jpeg_size <= C and C otherwise. -/
theorem jpegEvt_trailer_placement (status : jpeg_job_status_t) (client_hdl jobId : Nat)
    (out : mm_jpeg_output_t) (obj : QCamera3PicChannel) (settings : jpeg_settings_t)
    (mem : QCamera3GrallocMemory) (bufs : List BufferHandle) (b : BufferHandle) (C : Int)
    (hs : obj.mJpegSettings = some settings) (hm : obj.mMemory = some mem)
    (hb : obj.mCamera3Buffers = some bufs) (hidx : 0 ≤ obj.mCurrentBufIndex)
    (hbuf : bufs[obj.mCurrentBufIndex.toNat]? = some b)
    (hC : mem.getSize obj.mCurrentBufIndex = C) (hlen : out.buf_filled_len < 4294967296) :
    ∃ r, QCamera3PicChannel.jpegEvtHandle status client_hdl jobId (some out) (some obj) = some r ∧
      r.calls.filter Call.isTrailerWrite
        = [Call.trailerWrite out.buf_vaddr
            ((if 0 < settings.max_jpeg_size ∧ settings.max_jpeg_size ≤ C
                then settings.max_jpeg_size else C) - 8)
            CAMERA3_JPEG_BLOB_ID out.buf_filled_len] := by
  refine ⟨_, jpegEvtHandle_result status client_hdl jobId out obj settings mem bufs b
    hs hm hb hidx hbuf, ?_⟩
  have hM : jpegEvtMaxJpegSize settings.max_jpeg_size C
      = (if 0 < settings.max_jpeg_size ∧ settings.max_jpeg_size ≤ C
          then settings.max_jpeg_size else C) := by
    unfold jpegEvtMaxJpegSize
    split_ifs <;> omega
  have hl : out.buf_filled_len % 4294967296 = out.buf_filled_len := Nat.mod_eq_of_lt hlen
  rw [hC, hM, hl]
  by_cases hj : jobId ∈ obj.m_postprocessor.ongoingJobs
  · simp [hj, List.filter, Call.isTrailerWrite, sizeofJpegHeader]
  · simp [hj, List.filter, Call.isTrailerWrite, sizeofJpegHeader]

theorem jpegEvt_trailer_placement_witness :
    ∃ r, QCamera3PicChannel.jpegEvtHandle jpeg_job_status_t.JPEG_JOB_STATUS_DONE 0 77
        (some { buf_vaddr := 4096, buf_filled_len := 731 }) (some (picInFlight 1000)) = some r ∧
      r.calls.filter Call.isTrailerWrite
        = [Call.trailerWrite 4096
            ((if (0 : Int) < 1000 ∧ (1000 : Int) ≤ 2000 then (1000 : Int) else 2000) - 8)
            CAMERA3_JPEG_BLOB_ID 731] :=
  jpegEvt_trailer_placement jpeg_job_status_t.JPEG_JOB_STATUS_DONE 0 77
    { buf_vaddr := 4096, buf_filled_len := 731 } (picInFlight 1000)
    { max_jpeg_size := 1000, jpeg_orientation := 0, jpeg_quality := 85
      thumbnail_size := { width := 0, height := 0 } }
    { slots := [{ handle := 100, frameNumber := 0, size := 2000 },
                { handle := 200, frameNumber := 5, size := 2000 }] }
    [100, 200] 200 2000 rfl rfl rfl (by decide) (by decide) (by decide) (by decide)

/-- Delivery by jpegEvtHandle when the output descriptor is present: on a
channel that has served a request the delivery callback is invoked exactly
once, for every job status and every job identifier, known or not; the call
carries no metadata and a buffer result whose status is ERROR exactly when the
job identifier is not found or the job status is JPEG_JOB_STATUS_ERROR, and OK
otherwise. -/
theorem jpegEvt_delivers_exactly_once (status : jpeg_job_status_t) (client_hdl jobId : Nat)
    (out : mm_jpeg_output_t) (obj : QCamera3PicChannel) (settings : jpeg_settings_t)
    (mem : QCamera3GrallocMemory) (bufs : List BufferHandle) (b : BufferHandle)
    (hs : obj.mJpegSettings = some settings) (hm : obj.mMemory = some mem)
    (hb : obj.mCamera3Buffers = some bufs) (hidx : 0 ≤ obj.mCurrentBufIndex)
    (hbuf : bufs[obj.mCurrentBufIndex.toNat]? = some b) :
    ∃ r result frame_number,
      QCamera3PicChannel.jpegEvtHandle status client_hdl jobId (some out) (some obj) = some r ∧
      r.calls.filter Call.isChannelCB
        = [Call.channelCB none (some result) frame_number obj.base.mUserData] ∧
      r.calls.countP Call.isChannelCB = 1 ∧
      (result.status = CAMERA3_BUFFER_STATUS_ERROR ↔
        (jobId ∉ obj.m_postprocessor.ongoingJobs ∨
          status = jpeg_job_status_t.JPEG_JOB_STATUS_ERROR)) ∧
      (result.status = CAMERA3_BUFFER_STATUS_OK ↔
        ¬ (jobId ∉ obj.m_postprocessor.ongoingJobs ∨
          status = jpeg_job_status_t.JPEG_JOB_STATUS_ERROR)) := by
  refine ⟨_,
    { stream := obj.mCamera3Stream
      buffer := b
      status :=
        if jobId ∉ obj.m_postprocessor.ongoingJobs ∨
            status = jpeg_job_status_t.JPEG_JOB_STATUS_ERROR then
          CAMERA3_BUFFER_STATUS_ERROR
        else CAMERA3_BUFFER_STATUS_OK
      acquire_fence := -1
      release_fence := -1 },
    toUInt32 (mem.getFrameNumber obj.mCurrentBufIndex.toNat),
    jpegEvtHandle_result status client_hdl jobId out obj settings mem bufs b
      hs hm hb hidx hbuf, ?_, ?_, ?_, ?_⟩
  · by_cases hj : jobId ∈ obj.m_postprocessor.ongoingJobs
    · simp [hj, List.filter, Call.isChannelCB]
    · simp [hj, List.filter, Call.isChannelCB]
  · by_cases hj : jobId ∈ obj.m_postprocessor.ongoingJobs
    · simp [hj, List.countP_cons, Call.isChannelCB]
    · simp [hj, List.countP_cons, Call.isChannelCB]
  · simp only
    split_ifs with h
    · simp [h]
    · simp [h, CAMERA3_BUFFER_STATUS_OK, CAMERA3_BUFFER_STATUS_ERROR]
  · simp only
    split_ifs with h
    · simp [h, CAMERA3_BUFFER_STATUS_OK, CAMERA3_BUFFER_STATUS_ERROR]
    · simp [h]

theorem jpegEvt_delivers_exactly_once_witness :
    (QCamera3PicChannel.jpegEvtHandle jpeg_job_status_t.JPEG_JOB_STATUS_DONE 0 12
        (some { buf_vaddr := 4096, buf_filled_len := 731 }) (some (picInFlight 1000))).map
        (fun r => r.calls.filter Call.isChannelCB)
      = some [Call.channelCB none
          (some { stream := { format := 33, width := 640, height := 480 }
                  buffer := 200
                  status := CAMERA3_BUFFER_STATUS_ERROR
                  acquire_fence := -1
                  release_fence := -1 })
          5 9] ∧
    ∃ r result frame_number,
      QCamera3PicChannel.jpegEvtHandle jpeg_job_status_t.JPEG_JOB_STATUS_DONE 0 77
        (some { buf_vaddr := 4096, buf_filled_len := 731 }) (some (picInFlight 1000)) = some r ∧
      r.calls.filter Call.isChannelCB
        = [Call.channelCB none (some result) frame_number (picInFlight 1000).base.mUserData] ∧
      r.calls.countP Call.isChannelCB = 1 ∧
      (result.status = CAMERA3_BUFFER_STATUS_ERROR ↔
        (77 ∉ (picInFlight 1000).m_postprocessor.ongoingJobs ∨
          jpeg_job_status_t.JPEG_JOB_STATUS_DONE = jpeg_job_status_t.JPEG_JOB_STATUS_ERROR)) ∧
      (result.status = CAMERA3_BUFFER_STATUS_OK ↔
        ¬ (77 ∉ (picInFlight 1000).m_postprocessor.ongoingJobs ∨
          jpeg_job_status_t.JPEG_JOB_STATUS_DONE = jpeg_job_status_t.JPEG_JOB_STATUS_ERROR)) :=
  ⟨by decide,
   jpegEvt_delivers_exactly_once jpeg_job_status_t.JPEG_JOB_STATUS_DONE 0 77
    { buf_vaddr := 4096, buf_filled_len := 731 } (picInFlight 1000)
    { max_jpeg_size := 1000, jpeg_orientation := 0, jpeg_quality := 85
      thumbnail_size := { width := 0, height := 0 } }
    { slots := [{ handle := 100, frameNumber := 0, size := 2000 },
                { handle := 200, frameNumber := 5, size := 2000 }] }
    [100, 200] 200 rfl rfl rfl (by decide) (by decide)⟩

/-- Claim C22, evaluated on the code: a completion with status
JPEG_JOB_STATUS_ERROR and a null output descriptor, on a channel that has
served a request and holds the job.  The status ERROR is computed, but the
next statement reads `p_output->buf_filled_len` through the null pointer
before anything is delivered: the behaviour is undefined and no delivery
callback is made.  With a descriptor present the same completion is delivered
once, with status ERROR. -/
theorem jpegEvt_null_output_no_delivery :
    QCamera3PicChannel.jpegEvtHandle jpeg_job_status_t.JPEG_JOB_STATUS_ERROR 0 77
        none (some (picInFlight 1000)) = none ∧
    (QCamera3PicChannel.jpegEvtHandle jpeg_job_status_t.JPEG_JOB_STATUS_ERROR 0 77
        (some { buf_vaddr := 4096, buf_filled_len := 0 }) (some (picInFlight 1000))).map
        (fun r => r.calls.filter Call.isChannelCB)
      = some [Call.channelCB none
          (some { stream := { format := 33, width := 640, height := 480 }
                  buffer := 200
                  status := CAMERA3_BUFFER_STATUS_ERROR
                  acquire_fence := -1
                  release_fence := -1 })
          5 9] := by
  decide

/-- Claim C27, evaluated on the code: with max_jpeg_size = 4 and an output
buffer of 2000 bytes the value 4 passes the range test (it is neither <= 0 nor
above 2000), and the trailer is written at displacement 4 - 8 = -4, that is
four bytes before the start of the output buffer. -/
theorem jpegEvt_trailer_before_buffer :
    (picInFlight 4).mMemory.map (fun m => m.getSize (picInFlight 4).mCurrentBufIndex)
      = some 2000 ∧
    (QCamera3PicChannel.jpegEvtHandle jpeg_job_status_t.JPEG_JOB_STATUS_DONE 0 77
        (some { buf_vaddr := 4096, buf_filled_len := 731 }) (some (picInFlight 4))).map
        (fun r => r.calls.filter Call.isTrailerWrite)
      = some [Call.trailerWrite 4096 (-4) CAMERA3_JPEG_BLOB_ID 731] := by
  decide

/-! ## Picture channel: the single current slot -/

theorem markFrameNumber_handles (mem : QCamera3GrallocMemory) (k fn : Nat) :
    (mem.markFrameNumber k fn).2.slots.map (fun s => s.handle)
      = mem.slots.map (fun s => s.handle) := by
  unfold QCamera3GrallocMemory.markFrameNumber
  cases hk : mem.slots[k]? with
  | none => rfl
  | some sl =>
    simp only
    apply List.ext_getElem?
    intro n
    by_cases hn : k = n
    · subst hn
      simp [List.getElem?_map, List.getElem?_set, hk]
      have hlt : k < mem.slots.length := by
        obtain ⟨h, _⟩ := List.getElem?_eq_some.mp hk
        exact h
      simp [hlt]
    · simp [List.getElem?_map, List.getElem?_set, hn]

theorem matchFrom_congr (key : BufferHandle) :
    ∀ (l l' : List MemSlot) (k : Nat),
      l.map (fun s => s.handle) = l'.map (fun s => s.handle) →
      matchFrom key l k = matchFrom key l' k := by
  intro l
  induction l with
  | nil =>
    intro l' k h
    cases l' with
    | nil => rfl
    | cons a l' => simp at h
  | cons a l ih =>
    intro l' k h
    cases l' with
    | nil => simp at h
    | cons a' l' =>
      simp only [List.map_cons, List.cons.injEq] at h
      simp only [matchFrom, h.1]
      rw [ih l' (k + 1) h.2]

theorem pic_request_active_chan (env : Env) (c : QCamera3PicChannel)
    (mem : QCamera3GrallocMemory) (b : BufferHandle) (k fn : Nat)
    (settings : Option jpeg_settings_t)
    (hact : c.base.m_bIsActive = true) (hm : c.mMemory = some mem)
    (hk : mem.getMatchBufIndex b = (k : Int)) :
    (c.request env b fn settings).chan
      = { c with mJpegSettings := settings
                 mMemory := some (mem.markFrameNumber k fn).2
                 mCurrentBufIndex := (k : Int) } ∧
    (c.request env b fn settings).rc = (mem.markFrameNumber k fn).1 ∧
    (c.request env b fn settings).calls
      = [Call.postprocStart (mem.markFrameNumber k fn).2 k,
         Call.request_super_buf c.base.m_camHandle c.base.m_handle 1] := by
  have hnn : ¬ ((k : Int) < 0) := by omega
  obtain ⟨base, cstream, nbufs, cbufs, cur, cmem, yuv, js, pp⟩ := c
  simp only at hact hm
  subst hm
  simp [QCamera3PicChannel.request, hact, hk, hnn, NO_ERROR]

/-- Claim C26: the picture channel is a single-slot rendezvous.  On a channel
that has served a request, the buffer handle and the frame number that
jpegEvtHandle delivers are those of slot mCurrentBufIndex, whatever job
identifier, job status or output descriptor the handler is given.  So when two
requests, for the buffers at slots i and j (i different from j) with frame
numbers f1 and f2, are issued on an active channel before any completion, the
two completions both deliver the buffer of slot j with frame number f2. -/
theorem pic_single_slot_rendezvous
    (obj : QCamera3PicChannel) (settings : jpeg_settings_t) (mem : QCamera3GrallocMemory)
    (bufs : List BufferHandle) (b : BufferHandle)
    (status1 status2 : jpeg_job_status_t) (job1 job2 : Nat) (out1 out2 : mm_jpeg_output_t)
    (env1 env2 : Env) (c : QCamera3PicChannel) (mem0 : QCamera3GrallocMemory)
    (cbufs : List BufferHandle) (bi bj : BufferHandle) (i j f1 f2 : Nat)
    (s1 : Option jpeg_settings_t) (s2 : jpeg_settings_t) :
    (obj.mJpegSettings = some settings → obj.mMemory = some mem →
      obj.mCamera3Buffers = some bufs → 0 ≤ obj.mCurrentBufIndex →
      bufs[obj.mCurrentBufIndex.toNat]? = some b →
      ∃ r1 r2 res1 res2,
        QCamera3PicChannel.jpegEvtHandle status1 0 job1 (some out1) (some obj) = some r1 ∧
        QCamera3PicChannel.jpegEvtHandle status2 0 job2 (some out2) (some obj) = some r2 ∧
        r1.calls.filter Call.isChannelCB
          = [Call.channelCB none (some res1)
              (toUInt32 (mem.getFrameNumber obj.mCurrentBufIndex.toNat)) obj.base.mUserData] ∧
        r2.calls.filter Call.isChannelCB
          = [Call.channelCB none (some res2)
              (toUInt32 (mem.getFrameNumber obj.mCurrentBufIndex.toNat)) obj.base.mUserData] ∧
        res1.buffer = b ∧ res2.buffer = b) ∧
    (c.base.m_bIsActive = true → c.mMemory = some mem0 → c.mCamera3Buffers = some cbufs →
      mem0.slots.map (fun s => s.handle) = cbufs → cbufs.Nodup →
      cbufs[i]? = some bi → cbufs[j]? = some bj → i ≠ j → f2 < 4294967296 →
      ∃ r1 c3 r2 res1 res2,
        QCamera3PicChannel.jpegEvtHandle status1 0 job1 (some out1)
            (some ((c.request env1 bi f1 s1).chan.request env2 bj f2 (some s2)).chan) = some r1 ∧
        r1.chan = some c3 ∧
        QCamera3PicChannel.jpegEvtHandle status2 0 job2 (some out2) (some c3) = some r2 ∧
        r1.calls.filter Call.isChannelCB
          = [Call.channelCB none (some res1) f2 c.base.mUserData] ∧
        r2.calls.filter Call.isChannelCB
          = [Call.channelCB none (some res2) f2 c.base.mUserData] ∧
        res1.buffer = bj ∧ res2.buffer = bj) := by
  have hfilter : ∀ (st : jpeg_job_status_t) (job : Nat) (out : mm_jpeg_output_t)
      (o : QCamera3PicChannel) (st' : jpeg_settings_t) (m : QCamera3GrallocMemory)
      (bs : List BufferHandle) (bb : BufferHandle),
      o.mJpegSettings = some st' → o.mMemory = some m → o.mCamera3Buffers = some bs →
      0 ≤ o.mCurrentBufIndex → bs[o.mCurrentBufIndex.toNat]? = some bb →
      ∃ r res, QCamera3PicChannel.jpegEvtHandle st 0 job (some out) (some o) = some r ∧
        r.calls.filter Call.isChannelCB
          = [Call.channelCB none (some res)
              (toUInt32 (m.getFrameNumber o.mCurrentBufIndex.toNat)) o.base.mUserData] ∧
        res.buffer = bb ∧
        r.chan = some (if job ∈ o.m_postprocessor.ongoingJobs then
            { o with m_postprocessor :=
                { ongoingJobs := o.m_postprocessor.ongoingJobs.erase job } }
          else o) := by
    intro st job out o st' m bs bb h1 h2 h3 h4 h5
    refine ⟨_,
      { stream := o.mCamera3Stream
        buffer := bb
        status :=
          if job ∉ o.m_postprocessor.ongoingJobs ∨
              st = jpeg_job_status_t.JPEG_JOB_STATUS_ERROR then
            CAMERA3_BUFFER_STATUS_ERROR
          else CAMERA3_BUFFER_STATUS_OK
        acquire_fence := -1
        release_fence := -1 },
      jpegEvtHandle_result st 0 job out o st' m bs bb h1 h2 h3 h4 h5, ?_, rfl, rfl⟩
    by_cases hj : job ∈ o.m_postprocessor.ongoingJobs
    · simp [hj, List.filter, Call.isChannelCB]
    · simp [hj, List.filter, Call.isChannelCB]
  refine ⟨?_, ?_⟩
  · intro h1 h2 h3 h4 h5
    obtain ⟨r1, res1, e1, f1', b1, _⟩ :=
      hfilter status1 job1 out1 obj settings mem bufs b h1 h2 h3 h4 h5
    obtain ⟨r2, res2, e2, f2', b2, _⟩ :=
      hfilter status2 job2 out2 obj settings mem bufs b h1 h2 h3 h4 h5
    exact ⟨r1, r2, res1, res2, e1, e2, f1', f2', b1, b2⟩
  · intro hact hm hb hmatch hnd hi hj hij hf2
    have hki : mem0.getMatchBufIndex bi = (i : Int) := by
      have h := matchFrom_of_nodup bi mem0.slots 0 i (hmatch ▸ hnd) (hmatch ▸ hi)
      simpa [QCamera3GrallocMemory.getMatchBufIndex] using h
    obtain ⟨hc1, _, _⟩ := pic_request_active_chan env1 c mem0 bi i f1 s1 hact hm hki
    have hh1 := markFrameNumber_handles mem0 i f1
    have hkj : (mem0.markFrameNumber i f1).2.getMatchBufIndex bj = (j : Int) := by
      have h := matchFrom_of_nodup bj (mem0.markFrameNumber i f1).2.slots 0 j
        (by rw [hh1, hmatch]; exact hnd) (by rw [hh1, hmatch]; exact hj)
      simpa [QCamera3GrallocMemory.getMatchBufIndex] using h
    obtain ⟨hc2, _, _⟩ := pic_request_active_chan env2 (c.request env1 bi f1 s1).chan
      (mem0.markFrameNumber i f1).2 bj j f2 (some s2)
      (by rw [hc1]; exact hact) (by rw [hc1]) hkj
    have hjlen : j < (mem0.markFrameNumber i f1).2.slots.length := by
      have hl : ((mem0.markFrameNumber i f1).2.slots.map (fun s => s.handle)).length
          = cbufs.length := by rw [hh1, hmatch]
      rw [List.length_map] at hl
      obtain ⟨h, _⟩ := List.getElem?_eq_some.mp hj
      omega
    have hfr := getFrameNumber_markFrameNumber (mem0.markFrameNumber i f1).2 j f2 hjlen
    have hf2' : f2 % 4294967296 = f2 := Nat.mod_eq_of_lt hf2
    rw [hf2'] at hfr
    have hfn : toUInt32 (((mem0.markFrameNumber i f1).2.markFrameNumber j f2).2.getFrameNumber j)
        = f2 := by rw [hfr]; exact toUInt32_toInt32 f2 hf2
    rw [hc2, hc1]
    obtain ⟨r1, res1, e1, g1, b1, hchan1⟩ := hfilter status1 job1 out1
      { c with mJpegSettings := some s2
               mMemory := some ((mem0.markFrameNumber i f1).2.markFrameNumber j f2).2
               mCurrentBufIndex := (j : Int) }
      s2 ((mem0.markFrameNumber i f1).2.markFrameNumber j f2).2 cbufs bj rfl rfl hb
      (by simp) (by simpa using hj)
    simp only [Int.toNat_ofNat, hfn] at g1
    by_cases hjob : job1 ∈ c.m_postprocessor.ongoingJobs
    · simp only [hjob, if_true] at hchan1
      obtain ⟨r2, res2, e2, g2, b2, _⟩ := hfilter status2 job2 out2
        { c with mJpegSettings := some s2
                 mMemory := some ((mem0.markFrameNumber i f1).2.markFrameNumber j f2).2
                 mCurrentBufIndex := (j : Int)
                 m_postprocessor := { ongoingJobs := c.m_postprocessor.ongoingJobs.erase job1 } }
        s2 ((mem0.markFrameNumber i f1).2.markFrameNumber j f2).2 cbufs bj rfl rfl hb
        (by simp) (by simpa using hj)
      simp only [Int.toNat_ofNat, hfn] at g2
      exact ⟨r1, _, r2, res1, res2, e1, hchan1, e2, g1, g2, b1, b2⟩
    · simp only [hjob, if_false] at hchan1
      obtain ⟨r2, res2, e2, g2, b2, _⟩ := hfilter status2 job2 out2
        { c with mJpegSettings := some s2
                 mMemory := some ((mem0.markFrameNumber i f1).2.markFrameNumber j f2).2
                 mCurrentBufIndex := (j : Int) }
        s2 ((mem0.markFrameNumber i f1).2.markFrameNumber j f2).2 cbufs bj rfl rfl hb
        (by simp) (by simpa using hj)
      simp only [Int.toNat_ofNat, hfn] at g2
      exact ⟨r1, _, r2, res1, res2, e1, hchan1, e2, g1, g2, b1, b2⟩

theorem pic_single_slot_rendezvous_witness :
    (QCamera3PicChannel.jpegEvtHandle jpeg_job_status_t.JPEG_JOB_STATUS_DONE 0 1
        (some { buf_vaddr := 4096, buf_filled_len := 731 })
        (some (((samplePic true).request (envWith 0 0) 100 5 (some sampleSettings)).chan.request
          (envWith 0 0) 200 6 (some sampleSettings)).chan)).map
        (fun r => r.calls.filter Call.isChannelCB)
      = some [Call.channelCB none
          (some { stream := { format := 33, width := 640, height := 480 }
                  buffer := 200
                  status := CAMERA3_BUFFER_STATUS_ERROR
                  acquire_fence := -1
                  release_fence := -1 })
          6 9] ∧
    ∃ r1 c3 r2 res1 res2,
      QCamera3PicChannel.jpegEvtHandle jpeg_job_status_t.JPEG_JOB_STATUS_DONE 0 1
          (some { buf_vaddr := 4096, buf_filled_len := 731 })
          (some (((samplePic true).request (envWith 0 0) 100 5 (some sampleSettings)).chan.request
            (envWith 0 0) 200 6 (some sampleSettings)).chan) = some r1 ∧
      r1.chan = some c3 ∧
      QCamera3PicChannel.jpegEvtHandle jpeg_job_status_t.JPEG_JOB_STATUS_DONE 0 2
          (some { buf_vaddr := 8192, buf_filled_len := 640 }) (some c3) = some r2 ∧
      r1.calls.filter Call.isChannelCB
        = [Call.channelCB none (some res1) 6 (samplePic true).base.mUserData] ∧
      r2.calls.filter Call.isChannelCB
        = [Call.channelCB none (some res2) 6 (samplePic true).base.mUserData] ∧
      res1.buffer = 200 ∧ res2.buffer = 200 :=
  ⟨by decide,
   (pic_single_slot_rendezvous (picInFlight 1000) sampleSettings
      { slots := [{ handle := 100, frameNumber := 0, size := 2000 },
                  { handle := 200, frameNumber := 5, size := 2000 }] }
      [100, 200] 200
      jpeg_job_status_t.JPEG_JOB_STATUS_DONE jpeg_job_status_t.JPEG_JOB_STATUS_DONE 1 2
      { buf_vaddr := 4096, buf_filled_len := 731 } { buf_vaddr := 8192, buf_filled_len := 640 }
      (envWith 0 0) (envWith 0 0) (samplePic true)
      { slots := [{ handle := 100, frameNumber := 0 }, { handle := 200, frameNumber := 0 }] }
      [100, 200] 100 200 0 1 5 6 (some sampleSettings) sampleSettings).2
      rfl rfl rfl rfl (by decide) rfl rfl (by decide) (by decide)⟩

/-! ## Picture channel: which count the stream callback tests -/

theorem pic_registerBuffers_numBufs (MAX : Nat) (env : Env) (c : QCamera3PicChannel)
    (n : Nat) (buffers : List BufferHandle) (r : Outcome QCamera3PicChannel)
    (h : c.registerBuffers MAX env n buffers = some r) (hrc : 0 ≤ r.rc) :
    r.chan.mNumBufs = n ∧ r.chan.mCamera3Buffers = some (buffers.take n) := by
  unfold QCamera3PicChannel.registerBuffers at h
  simp only at h
  split_ifs at h with h1 h2 h3 h4
  · cases h; omega
  · cases h; simp [ENOMEM] at hrc
  · cases h; exact ⟨rfl, rfl⟩
  · cases h; simp [EINVAL] at hrc

theorem pic_getStreamBufs_pool (env : Env) (c : QCamera3PicChannel) (len : Nat)
    (bufSize : BufferHandle → Nat) (yuv : QCamera3HeapMemory)
    (h : (c.getStreamBufs env len bufSize).2 = some yuv) :
    yuv.count = 2 ∧ (c.getStreamBufs env len bufSize).1.mYuvMemory = some yuv ∧
    (c.getStreamBufs env len bufSize).1.mNumBufs = c.mNumBufs := by
  unfold QCamera3PicChannel.getStreamBufs at h ⊢
  cases hb : c.mCamera3Buffers with
  | none => simp [hb] at h
  | some bufs =>
    simp only [hb] at h ⊢
    split_ifs at h ⊢
    simp only [Option.some.injEq] at h
    subst h
    exact ⟨rfl, rfl, rfl⟩

/-- Claim C28: the stream callback of the picture channel tests the narrowed
driver index against mNumBufs, the number of registered output buffers (the
count registerBuffers stores), and not against the capture stream's own pool,
which getStreamBufs allocates with kMaxBuffers + 1 = 2 buffers.  With the
frame copy allocated, a non-null one-element super-buffer is handed to the
post-processor, once, if (buf_idx mod 256) < mNumBufs, and otherwise is given
back with one bufDone on the stream and not handed over; the result is the
same whatever the capture pool is. -/
theorem pic_streamCb_tests_output_count (env : Env) (pc : QCamera3PicChannel)
    (sf : mm_camera_super_buf_t) (bd : mm_camera_buf_def_t) (s : QCamera3Stream)
    (pool : Option QCamera3HeapMemory)
    (MAX : Nat) (env0 : Env) (c : QCamera3PicChannel) (n len : Nat)
    (buffers : List BufferHandle) (bufSize : BufferHandle → Nat)
    (r : Outcome QCamera3PicChannel) (yuv : QCamera3HeapMemory)
    (h1 : sf.num_bufs = 1) (hb : sf.buf 0 = some bd) (hmalloc : env.mallocNull = false) :
    (bd.buf_idx % 256 < pc.mNumBufs →
      pc.streamCbRoutine env (some sf) (some s) = [Call.postprocProcessData sf]) ∧
    (¬ bd.buf_idx % 256 < pc.mNumBufs →
      pc.streamCbRoutine env (some sf) (some s) = [Call.streamBufDone s (bd.buf_idx % 256)]) ∧
    ({ pc with mYuvMemory := pool }).streamCbRoutine env (some sf) (some s)
      = pc.streamCbRoutine env (some sf) (some s) ∧
    (c.registerBuffers MAX env0 n buffers = some r → 0 ≤ r.rc → r.chan.mNumBufs = n) ∧
    ((c.getStreamBufs env0 len bufSize).2 = some yuv →
      yuv.count = QCamera3PicChannel_kMaxBuffers + 1 ∧ yuv.count = 2 ∧
      (c.getStreamBufs env0 len bufSize).1.mNumBufs = c.mNumBufs) := by
  refine ⟨?_, ?_, ?_, ?_, ?_⟩
  · intro hlt
    have hge : ¬ (bd.buf_idx % 256 ≥ pc.mNumBufs) := by omega
    simp [QCamera3PicChannel.streamCbRoutine, h1, hb, toUInt8, hge, hmalloc]
  · intro hlt
    have hge : bd.buf_idx % 256 ≥ pc.mNumBufs := by omega
    simp [QCamera3PicChannel.streamCbRoutine, h1, hb, toUInt8, hge]
  · simp [QCamera3PicChannel.streamCbRoutine]
  · intro h hrc
    exact (pic_registerBuffers_numBufs MAX env0 c n buffers r h hrc).1
  · intro h
    obtain ⟨h2, _, h3⟩ := pic_getStreamBufs_pool env0 c len bufSize yuv h
    exact ⟨h2, h2, h3⟩

theorem pic_streamCb_tests_output_count_witness :
    ((freshPic 33).registerBuffers 4 (envWith 0 0) 5 [100, 200, 300, 400, 500]).map
        (fun r => (r.rc, r.chan.mNumBufs)) = some (0, 5) ∧
    (((freshPic 33).getStreamBufs (envWith 0 0) 460800 (fun _ => 2000)).2 = none) ∧
    ((3 % 256 < ({ samplePic true with mNumBufs := 5 } : QCamera3PicChannel).mNumBufs) ∧
      ({ samplePic true with mNumBufs := 5 } : QCamera3PicChannel).streamCbRoutine (envWith 0 0)
          (some (singleBuf 3)) (some sampleStream)
        = [Call.postprocProcessData (singleBuf 3)]) ∧
    ((¬ 1 % 256 < ({ samplePic true with mNumBufs := 1 } : QCamera3PicChannel).mNumBufs) ∧
      ({ samplePic true with mNumBufs := 1 } : QCamera3PicChannel).streamCbRoutine (envWith 0 0)
          (some (singleBuf 1)) (some sampleStream)
        = [Call.streamBufDone sampleStream (1 % 256)]) ∧
    (((samplePic true).getStreamBufs (envWith 0 0) 460800 (fun _ => 2000)).2
        = some { count := 2, size := 460800 } →
      ({ count := 2, size := 460800 } : QCamera3HeapMemory).count
          = QCamera3PicChannel_kMaxBuffers + 1 ∧
        ({ count := 2, size := 460800 } : QCamera3HeapMemory).count = 2 ∧
        ((samplePic true).getStreamBufs (envWith 0 0) 460800 (fun _ => 2000)).1.mNumBufs
          = (samplePic true).mNumBufs) :=
  have h5 := pic_streamCb_tests_output_count (envWith 0 0)
    { samplePic true with mNumBufs := 5 } (singleBuf 3) { stream_id := 3, buf_idx := 3 }
    sampleStream none 4 (envWith 0 0) (samplePic true) 2 460800 [100, 200] (fun _ => 2000)
    { rc := 0, chan := samplePic true, calls := [] } { count := 2, size := 460800 } rfl rfl rfl
  have h1 := pic_streamCb_tests_output_count (envWith 0 0)
    { samplePic true with mNumBufs := 1 } (singleBuf 1) { stream_id := 3, buf_idx := 1 }
    sampleStream none 4 (envWith 0 0) (samplePic true) 2 460800 [100, 200] (fun _ => 2000)
    { rc := 0, chan := samplePic true, calls := [] } { count := 2, size := 460800 } rfl rfl rfl
  ⟨by decide, by decide, ⟨by decide, h5.1 (by decide)⟩, ⟨by decide, h1.2.1 (by decide)⟩,
   h5.2.2.2.2⟩

/-! ## Picture channel: what request returns -/

/-- Claim C29: a request() of the picture channel that reaches the slot lookup
(channel active, or its lazy start succeeded) with a buffer the output memory
holds returns exactly the status of markFrameNumber; it starts the
post-processor and calls request_super_buf whatever that status is, and the
result of request_super_buf changes nothing of what request() returns or
leaves.  On every call, successful or not, mJpegSettings is replaced by the
settings argument. -/
theorem pic_request_returns_mark_status (env : Env) (c : QCamera3PicChannel)
    (mem : QCamera3GrallocMemory) (buffer : BufferHandle) (i frameNumber : Nat)
    (jpegSettings : Option jpeg_settings_t) (rsb : Int)
    (c' : QCamera3PicChannel) (buffer' : BufferHandle) (frameNumber' : Nat) :
    (c.mMemory = some mem → mem.getMatchBufIndex buffer = (i : Int) →
      (c.base.m_bIsActive = true ∨ env.start_channel = NO_ERROR) →
      (c.request env buffer frameNumber jpegSettings).rc
        = (mem.markFrameNumber i frameNumber).1 ∧
      (c.request env buffer frameNumber jpegSettings).calls
        = (if c.base.m_bIsActive then [] else (c.base.start env).calls) ++
          [Call.postprocStart (mem.markFrameNumber i frameNumber).2 i,
           Call.request_super_buf c.base.m_camHandle c.base.m_handle 1]) ∧
    (c.request { env with request_super_buf := rsb } buffer frameNumber jpegSettings).rc
      = (c.request env buffer frameNumber jpegSettings).rc ∧
    (c.request { env with request_super_buf := rsb } buffer frameNumber jpegSettings).chan
      = (c.request env buffer frameNumber jpegSettings).chan ∧
    (c.request { env with request_super_buf := rsb } buffer frameNumber jpegSettings).calls
      = (c.request env buffer frameNumber jpegSettings).calls ∧
    (c'.request env buffer' frameNumber' jpegSettings).chan.mJpegSettings = jpegSettings := by
  refine ⟨?_, rfl, rfl, rfl, ?_⟩
  · intro hm hk hreach
    have hnn : ¬ ((i : Int) < 0) := by omega
    obtain ⟨base, cstream, nbufs, cbufs, cur, cmem, yuv, js, pp⟩ := c
    simp only at hm hreach
    subst hm
    cases hact : base.m_bIsActive with
    | true => simp [QCamera3PicChannel.request, hact, hk, hnn, NO_ERROR]
    | false =>
      have hok : env.start_channel = NO_ERROR := by
        rcases hreach with h | h
        · rw [hact] at h; cases h
        · exact h
      have hs : (base.start env).rc = 0 := by
        simp [QCamera3Channel.start, hok, NO_ERROR]
      have hch : (base.start env).chan.m_camHandle = base.m_camHandle ∧
          (base.start env).chan.m_handle = base.m_handle := by
        simp [QCamera3Channel.start, hok]
      simp [QCamera3PicChannel.request, hact, hk, hnn, NO_ERROR, hs, hch.1, hch.2]
  · cases hmem : c'.mMemory with
    | none =>
      simp only [QCamera3PicChannel.request, hmem]
      split_ifs <;> rfl
    | some m =>
      simp only [QCamera3PicChannel.request, hmem]
      split_ifs <;> rfl

theorem pic_request_returns_mark_status_witness :
    ((samplePic false).request { envWith 0 0 with request_super_buf := -1 } 200 5
        (some sampleSettings)).rc = NO_ERROR ∧
    ((samplePic false).request { envWith 0 0 with request_super_buf := -1 } 200 5
        (some sampleSettings)).calls
      = [Call.streamStart sampleStream, Call.start_channel 1 7,
         Call.postprocStart { slots := [{ handle := 100, frameNumber := 0 },
                                        { handle := 200, frameNumber := 5 }] } 1,
         Call.request_super_buf 1 7 1] ∧
    ((samplePic false).request { envWith 0 0 with request_super_buf := -1 } 200 5
        (some sampleSettings)).rc
      = (QCamera3GrallocMemory.markFrameNumber
          { slots := [{ handle := 100, frameNumber := 0 },
                      { handle := 200, frameNumber := 0 }] } 1 5).1 :=
  ⟨by decide, by decide,
   ((pic_request_returns_mark_status { envWith 0 0 with request_super_buf := -1 }
      (samplePic false)
      { slots := [{ handle := 100, frameNumber := 0 }, { handle := 200, frameNumber := 0 }] }
      200 1 5 (some sampleSettings) 0 (samplePic false) 200 5).1 rfl (by decide)
      (Or.inr (by decide))).1⟩

end QCamera3

namespace MmQCameraApp

/-! ## The flagged list of the parameter batch -/

theorem mem_insertSorted (p x : Nat) (l : List Nat) :
    x ∈ insertSorted p l ↔ x = p ∨ x ∈ l := by
  induction l with
  | nil => simp [insertSorted]
  | cons y ys ih =>
    unfold insertSorted
    split_ifs with h1 h2
    · subst h1
      simp only [List.mem_cons]
      tauto
    · simp [List.mem_cons]
    · simp only [List.mem_cons, ih]
      tauto

theorem sorted_insertSorted (p : Nat) (l : List Nat) (h : l.Pairwise (· < ·)) :
    (insertSorted p l).Pairwise (· < ·) := by
  induction l with
  | nil => simp [insertSorted]
  | cons y ys ih =>
    rw [List.pairwise_cons] at h
    unfold insertSorted
    split_ifs with h1 h2
    · exact List.pairwise_cons.mpr h
    · refine List.pairwise_cons.mpr ⟨?_, List.pairwise_cons.mpr h⟩
      intro z hz
      rcases List.mem_cons.mp hz with hz | hz
      · omega
      · have := h.1 z hz
        omega
    · refine List.pairwise_cons.mpr ⟨?_, ih h.2⟩
      intro z hz
      rcases (mem_insertSorted p z ys).mp hz with hz | hz
      · omega
      · exact h.1 z hz

theorem insertSorted_of_mem (p : Nat) (l : List Nat) (h : l.Pairwise (· < ·)) (hp : p ∈ l) :
    insertSorted p l = l := by
  induction l with
  | nil => cases hp
  | cons y ys ih =>
    rw [List.pairwise_cons] at h
    unfold insertSorted
    split_ifs with h1 h2
    · rfl
    · rcases List.mem_cons.mp hp with hp | hp
      · exact absurd hp h1
      · have := h.1 p hp
        omega
    · rcases List.mem_cons.mp hp with hp | hp
      · exact absurd hp h1
      · rw [ih h.2 hp]

theorem Linked_lt (MAX : Nat) (next : Nat → Nat) :
    ∀ (l : List Nat) (c : Nat), Linked MAX next c l → ∀ x ∈ l, x < MAX := by
  intro l
  induction l with
  | nil => intro c _ x hx; cases hx
  | cons y ys ih =>
    intro c h x hx
    obtain ⟨_, hy, hrest⟩ := h
    rcases List.mem_cons.mp hx with hx | hx
    · subst hx; exact hy
    · exact ih _ hrest x hx

theorem Linked_update (MAX : Nat) (next : Nat → Nat) (q v : Nat) :
    ∀ (l : List Nat) (c : Nat), Linked MAX next c l → q ∉ l →
      Linked MAX (Function.update next q v) c l := by
  intro l
  induction l with
  | nil => intro c h _; exact h
  | cons y ys ih =>
    intro c h hq
    obtain ⟨hc, hy, hrest⟩ := h
    have hne : y ≠ q := fun e => hq (e ▸ List.mem_cons_self _ _)
    refine ⟨hc, hy, ?_⟩
    rw [Function.update_noteq hne]
    exact ih _ hrest (fun hm => hq (List.mem_cons_of_mem _ hm))

theorem Linked_flaggedFrom (MAX : Nat) (t : parm_buffer_t) :
    ∀ (l : List Nat) (c fuel : Nat), Linked MAX t.next_flagged_entry c l → l.length < fuel →
      flaggedFrom MAX t fuel c = some l := by
  intro l
  induction l with
  | nil =>
    intro c fuel h hf
    cases fuel with
    | zero => omega
    | succ n =>
      have hc : c = MAX := h
      simp [flaggedFrom, hc]
  | cons y ys ih =>
    intro c fuel h hf
    obtain ⟨hc, hy, hrest⟩ := h
    cases fuel with
    | zero => omega
    | succ n =>
      have hne : y ≠ MAX := by omega
      have hlen : ys.length < n := by simp at hf; omega
      subst hc
      simp [flaggedFrom, hne, ih _ n hrest hlen]

theorem sorted_length_le (MAX : Nat) (l : List Nat) (hs : l.Pairwise (· < ·))
    (hlt : ∀ x ∈ l, x < MAX) : l.length ≤ MAX := by
  have hnd : l.Nodup := hs.imp (fun h => Nat.ne_of_lt h)
  have hsub : l.toFinset ⊆ Finset.range MAX := by
    intro x hx
    exact Finset.mem_range.mpr (hlt x (List.mem_toFinset.mp hx))
  have hcard := Finset.card_le_card hsub
  rw [List.toFinset_card_of_nodup hnd, Finset.card_range] at hcard
  exact hcard

theorem searchLoop_slot (MAX p : Nat) (t : parm_buffer_t) :
    ∀ (xs : List Nat) (x fuel : Nat),
      Linked MAX t.next_flagged_entry x (x :: xs) → (x :: xs).Pairwise (· < ·) →
      x < p → p < MAX → xs.length < fuel →
      ∃ c, searchLoop t p fuel x = some c ∧ c ∈ x :: xs ∧
        Linked MAX
          (if p ≠ t.next_flagged_entry c then
            Function.update (Function.update t.next_flagged_entry c p) p (t.next_flagged_entry c)
           else t.next_flagged_entry)
          x (x :: insertSorted p xs) ∧
        (p ∈ xs → t.next_flagged_entry c = p) := by
  intro xs
  induction xs with
  | nil =>
    intro x fuel hl _ hxp hp hf
    obtain ⟨_, hx, hnext⟩ := hl
    have hnext' : t.next_flagged_entry x = MAX := hnext
    cases fuel with
    | zero => omega
    | succ n =>
      refine ⟨x, ?_, List.mem_cons_self _ _, ?_, ?_⟩
      · have hng : ¬ (p > t.next_flagged_entry x) := by omega
        simp [searchLoop, GET_NEXT_PARAM_ID, hng]
      · have hne : p ≠ t.next_flagged_entry x := by omega
        have hxne : x ≠ p := by omega
        simp only [hne, ne_eq, not_false_eq_true, if_true, insertSorted]
        refine ⟨rfl, hx, ?_⟩
        rw [Function.update_noteq hxne, Function.update_same]
        refine ⟨rfl, hp, ?_⟩
        rw [Function.update_same]
        exact hnext'
      · intro h; cases h
  | cons y ys ih =>
    intro x fuel hl hs hxp hp hf
    obtain ⟨_, hx, hrest⟩ := hl
    obtain ⟨hxy, hy, hys⟩ := hrest
    have hxy' : t.next_flagged_entry x = y := hxy
    rw [List.pairwise_cons] at hs
    obtain ⟨hxall, hs'⟩ := hs
    have hyall := (List.pairwise_cons.mp hs').1
    cases fuel with
    | zero => omega
    | succ n =>
      have hlen : ys.length < n := by simp at hf; omega
      rcases Nat.lt_trichotomy p y with hlt | heq | hgt
      · -- the new type goes between x and y
        have hng : ¬ (p > t.next_flagged_entry x) := by omega
        have hne : p ≠ t.next_flagged_entry x := by omega
        have hxne : x ≠ p := by omega
        have hpy : ¬ p = y := by omega
        have hxnot : x ∉ y :: ys := fun hm => by
          have := hxall x hm
          omega
        have hpnot : p ∉ y :: ys := fun hm => by
          rcases List.mem_cons.mp hm with h | h
          · omega
          · have := hyall p h
            omega
        refine ⟨x, ?_, List.mem_cons_self _ _, ?_, ?_⟩
        · simp [searchLoop, GET_NEXT_PARAM_ID, hng]
        · simp only [hne, ne_eq, not_false_eq_true, if_true, insertSorted, hpy, if_false, hlt]
          refine ⟨rfl, hx, ?_⟩
          rw [Function.update_noteq hxne, Function.update_same]
          refine ⟨rfl, hp, ?_⟩
          rw [Function.update_same, hxy']
          have hbase : Linked MAX t.next_flagged_entry y (y :: ys) := ⟨rfl, hy, hys⟩
          exact Linked_update MAX _ p y _ _
            (Linked_update MAX _ x p _ _ hbase hxnot) hpnot
        · intro hm
          exact absurd hm hpnot
      · -- the type is already the successor of x
        subst heq
        have hng : ¬ (p > t.next_flagged_entry x) := by omega
        refine ⟨x, ?_, List.mem_cons_self _ _, ?_, ?_⟩
        · simp [searchLoop, GET_NEXT_PARAM_ID, hng]
        · have heqn : ¬ (p ≠ t.next_flagged_entry x) := by
            rw [hxy']; simp
          simp only [heqn, if_false, insertSorted, if_true]
          exact ⟨rfl, hx, hxy, hy, hys⟩
        · intro _; exact hxy'
      · -- the search moves on to y
        have hg : p > t.next_flagged_entry x := by omega
        obtain ⟨c, hc, hcmem, hlinked, hpres⟩ :=
          ih y n ⟨rfl, hy, hys⟩ hs' hgt hp hlen
        have hcx : x ≠ c := fun e => by
          have := hxall c (e ▸ hcmem)
          omega
        have hxne : x ≠ p := by omega
        have hpy : ¬ p = y := by omega
        have hply : ¬ p < y := by omega
        refine ⟨c, ?_, List.mem_cons_of_mem _ hcmem, ?_, ?_⟩
        · simp only [searchLoop, GET_NEXT_PARAM_ID, hg, if_true]
          rw [hxy']
          exact hc
        · simp only [insertSorted, hpy, hply, if_false]
          refine ⟨rfl, hx, ?_⟩
          have hsame : (if p ≠ t.next_flagged_entry c then
              Function.update (Function.update t.next_flagged_entry c p) p
                (t.next_flagged_entry c)
              else t.next_flagged_entry) x = y := by
            split_ifs
            · rw [Function.update_noteq hxne, Function.update_noteq hcx, hxy']
            · exact hxy'
          rw [hsame]
          exact hlinked
        · intro hm
          rcases List.mem_cons.mp hm with h | h
          · exact absurd h hpy
          · exact hpres h

theorem AddSetParmEntryToBatch_links (fuel entrySize : Nat) (t t1 : parm_buffer_t)
    (p len : Nat) (val : List Nat)
    (h : (if p = GET_FIRST_PARAM_ID t then some t
          else if p < GET_FIRST_PARAM_ID t then
            some (SET_FIRST_PARAM_ID (SET_NEXT_PARAM_ID p t (GET_FIRST_PARAM_ID t)) p)
          else
            match searchLoop t p fuel (GET_FIRST_PARAM_ID t) with
            | none => none
            | some current =>
              if p ≠ GET_NEXT_PARAM_ID current t then
                some (SET_NEXT_PARAM_ID p (SET_NEXT_PARAM_ID current t p)
                  (GET_NEXT_PARAM_ID current t))
              else some t) = some t1) :
    ∃ st t2, AddSetParmEntryToBatch fuel entrySize t p len val = some (st, t2) ∧
      t2.first_flagged_entry = t1.first_flagged_entry ∧
      t2.next_flagged_entry = t1.next_flagged_entry := by
  unfold AddSetParmEntryToBatch
  simp only []
  rw [h]
  by_cases hlen : len > entrySize
  · refine ⟨Status.MM_CAMERA_E_GENERAL, t1, ?_, rfl, rfl⟩
    simp only [hlen, if_true]
  · refine ⟨Status.MM_CAMERA_OK,
      { t1 with data := Function.update t1.data p
                  (val.take len ++ (t1.data p).drop len) }, ?_, rfl, rfl⟩
    simp only [hlen, if_false]

theorem AddSetParmEntryToBatch_step (MAX fuel entrySize : Nat) (t : parm_buffer_t)
    (l : List Nat) (p len : Nat) (val : List Nat)
    (hl : Linked MAX t.next_flagged_entry t.first_flagged_entry l)
    (hs : l.Pairwise (· < ·)) (hp : p < MAX) (hf : MAX ≤ fuel) :
    ∃ st t2, AddSetParmEntryToBatch fuel entrySize t p len val = some (st, t2) ∧
      Linked MAX t2.next_flagged_entry t2.first_flagged_entry (insertSorted p l) ∧
      (p ∈ l → t2.first_flagged_entry = t.first_flagged_entry ∧
        t2.next_flagged_entry = t.next_flagged_entry) := by
  cases l with
  | nil =>
    have hfirst : t.first_flagged_entry = MAX := hl
    have hne : ¬ p = t.first_flagged_entry := by omega
    have hlt : p < t.first_flagged_entry := by omega
    obtain ⟨st, t2, hadd, h1, h2⟩ := AddSetParmEntryToBatch_links fuel entrySize t
      (SET_FIRST_PARAM_ID (SET_NEXT_PARAM_ID p t (GET_FIRST_PARAM_ID t)) p) p len val
      (by simp only [GET_FIRST_PARAM_ID, hne, hlt, if_false, if_true])
    refine ⟨st, t2, hadd, ?_, ?_⟩
    · rw [h1, h2]
      simp only [SET_FIRST_PARAM_ID, SET_NEXT_PARAM_ID, GET_FIRST_PARAM_ID, insertSorted]
      refine ⟨rfl, hp, ?_⟩
      rw [Function.update_same]
      exact hfirst
    · intro h; cases h
  | cons x xs =>
    obtain ⟨hfirst, hx, hrest⟩ := hl
    have hfirst' : t.first_flagged_entry = x := hfirst
    have hxall := (List.pairwise_cons.mp hs).1
    rcases Nat.lt_trichotomy p x with hlt | heq | hgt
    · have hne : ¬ p = t.first_flagged_entry := by omega
      have hlt' : p < t.first_flagged_entry := by omega
      have hpx : ¬ p = x := by omega
      have hpnot : p ∉ x :: xs := fun hm => by
        rcases List.mem_cons.mp hm with h | h
        · omega
        · have := hxall p h
          omega
      obtain ⟨st, t2, hadd, h1, h2⟩ := AddSetParmEntryToBatch_links fuel entrySize t
        (SET_FIRST_PARAM_ID (SET_NEXT_PARAM_ID p t (GET_FIRST_PARAM_ID t)) p) p len val
        (by simp only [GET_FIRST_PARAM_ID, hne, hlt', if_false, if_true])
      refine ⟨st, t2, hadd, ?_, ?_⟩
      · rw [h1, h2]
        simp only [SET_FIRST_PARAM_ID, SET_NEXT_PARAM_ID, GET_FIRST_PARAM_ID, insertSorted,
          hpx, hlt, if_false, if_true]
        refine ⟨rfl, hp, ?_⟩
        rw [Function.update_same, hfirst']
        exact Linked_update MAX _ p x _ _ ⟨rfl, hx, hrest⟩ hpnot
      · intro hm
        exact absurd hm hpnot
    · subst heq
      obtain ⟨st, t2, hadd, h1, h2⟩ := AddSetParmEntryToBatch_links fuel entrySize t t p len val
        (by simp only [GET_FIRST_PARAM_ID, hfirst', if_true])
      refine ⟨st, t2, hadd, ?_, ?_⟩
      · rw [h1, h2]
        simp only [insertSorted, if_true]
        exact ⟨hfirst, hx, hrest⟩
      · intro _
        exact ⟨h1, h2⟩
    · have hne : ¬ p = t.first_flagged_entry := by omega
      have hnlt : ¬ p < t.first_flagged_entry := by omega
      have hpx : ¬ p = x := by omega
      have hplx : ¬ p < x := by omega
      have hlen : xs.length < fuel := by
        have := sorted_length_le MAX (x :: xs) hs (fun y hy =>
          Linked_lt MAX t.next_flagged_entry (x :: xs) x ⟨rfl, hx, hrest⟩ y hy)
        simp only [List.length_cons] at this
        omega
      obtain ⟨c, hc, _, hlinked, hpres⟩ :=
        searchLoop_slot MAX p t xs x fuel ⟨rfl, hx, hrest⟩ hs hgt hp hlen
      obtain ⟨st, t2, hadd, h1, h2⟩ := AddSetParmEntryToBatch_links fuel entrySize t
        (if p ≠ GET_NEXT_PARAM_ID c t then
          SET_NEXT_PARAM_ID p (SET_NEXT_PARAM_ID c t p) (GET_NEXT_PARAM_ID c t)
         else t) p len val
        (by
          simp only [GET_FIRST_PARAM_ID, hne, hnlt, if_false, hfirst', hc]
          split_ifs <;> rfl)
      refine ⟨st, t2, hadd, ?_, ?_⟩
      · rw [h1, h2]
        simp only [insertSorted, hpx, hplx, if_false]
        have hnext : (if p ≠ GET_NEXT_PARAM_ID c t then
            SET_NEXT_PARAM_ID p (SET_NEXT_PARAM_ID c t p) (GET_NEXT_PARAM_ID c t)
            else t).next_flagged_entry =
            (if p ≠ t.next_flagged_entry c then
              Function.update (Function.update t.next_flagged_entry c p) p
                (t.next_flagged_entry c)
             else t.next_flagged_entry) := by
          simp only [GET_NEXT_PARAM_ID, SET_NEXT_PARAM_ID]
          split_ifs <;> rfl
        have hfst : (if p ≠ GET_NEXT_PARAM_ID c t then
            SET_NEXT_PARAM_ID p (SET_NEXT_PARAM_ID c t p) (GET_NEXT_PARAM_ID c t)
            else t).first_flagged_entry = x := by
          simp only [GET_NEXT_PARAM_ID, SET_NEXT_PARAM_ID]
          split_ifs <;> exact hfirst'
        rw [hnext, hfst]
        exact hlinked
      · intro hm
        have hin : p ∈ xs := by
          rcases List.mem_cons.mp hm with h | h
          · exact absurd h hpx
          · exact h
        have hcp : ¬ (p ≠ GET_NEXT_PARAM_ID c t) := by
          simp only [GET_NEXT_PARAM_ID, hpres hin, ne_eq, not_true_eq_false, not_false_eq_true]
        rw [h1, h2]
        simp only [hcp, if_false, and_self]

theorem foldl_adds_linked (MAX fuel entrySize : Nat) (hf : MAX ≤ fuel) :
    ∀ (calls : List AddCall) (t : parm_buffer_t) (l : List Nat),
      Linked MAX t.next_flagged_entry t.first_flagged_entry l → l.Pairwise (· < ·) →
      (∀ c ∈ calls, c.paramType < MAX) →
      ∃ t2 L,
        calls.foldl
          (fun acc c => acc.bind (fun t =>
            (AddSetParmEntryToBatch fuel entrySize t c.paramType c.paramLength c.paramValue).map
              (fun r => r.2)))
          (some t) = some t2 ∧
        Linked MAX t2.next_flagged_entry t2.first_flagged_entry L ∧ L.Pairwise (· < ·) ∧
        (∀ x, x ∈ L ↔ x ∈ l ∨ x ∈ calls.map (fun c => c.paramType)) := by
  intro calls
  induction calls with
  | nil =>
    intro t l hl hs _
    exact ⟨t, l, rfl, hl, hs, fun x => by simp⟩
  | cons c cs ih =>
    intro t l hl hs hall
    have hc : c.paramType < MAX := hall c (List.mem_cons_self _ _)
    obtain ⟨st, t1, hadd, hl1, _⟩ :=
      AddSetParmEntryToBatch_step MAX fuel entrySize t l c.paramType c.paramLength c.paramValue
        hl hs hc hf
    obtain ⟨t2, L, hrun, hl2, hs2, hmem⟩ :=
      ih t1 (insertSorted c.paramType l) hl1 (sorted_insertSorted _ _ hs)
        (fun d hd => hall d (List.mem_cons_of_mem _ hd))
    refine ⟨t2, L, ?_, hl2, hs2, ?_⟩
    · simp only [List.foldl_cons, Option.some_bind, hadd, Option.map_some']
      exact hrun
    · intro x
      rw [hmem x, mem_insertSorted]
      simp only [List.map_cons, List.mem_cons]
      tauto

/-- Claim C30: starting from `initBatchUpdate`, after any sequence of
`AddSetParmEntryToBatch` calls with parameter types below `CAM_INTF_PARM_MAX`
(the search loop given at least `CAM_INTF_PARM_MAX` tests), every call
returns; following the next-flagged links from `first_flagged_entry` reaches
`CAM_INTF_PARM_MAX` and visits a strictly ascending list holding exactly the
types passed to the calls; a further call with any type below the limit
returns, and one with a type already present leaves the head and every link
as they were. -/
theorem batch_links_sorted (MAX fuel entrySize : Nat) (old : parm_buffer_t)
    (calls : List AddCall) (hf : MAX ≤ fuel) (hcalls : ∀ c ∈ calls, c.paramType < MAX) :
    ∃ t L, runBatch fuel MAX entrySize old calls = some t ∧
      flaggedList MAX t = some L ∧
      L.Pairwise (· < ·) ∧
      (∀ x, x ∈ L ↔ x ∈ calls.map (fun c => c.paramType)) ∧
      (∀ p len val, p < MAX →
        ∃ st t2, AddSetParmEntryToBatch fuel entrySize t p len val = some (st, t2) ∧
          (p ∈ L → t2.first_flagged_entry = t.first_flagged_entry ∧
            t2.next_flagged_entry = t.next_flagged_entry)) := by
  have hinit : Linked MAX (initBatchUpdate MAX entrySize old).2.next_flagged_entry
      (initBatchUpdate MAX entrySize old).2.first_flagged_entry [] := rfl
  obtain ⟨t, L, hrun, hl, hs, hmem⟩ :=
    foldl_adds_linked MAX fuel entrySize hf calls _ [] hinit List.Pairwise.nil hcalls
  refine ⟨t, L, hrun, ?_, hs, ?_, ?_⟩
  · have hlen := sorted_length_le MAX L hs
      (Linked_lt MAX t.next_flagged_entry L t.first_flagged_entry hl)
    exact Linked_flaggedFrom MAX t L t.first_flagged_entry (MAX + 1) hl (by omega)
  · intro x
    rw [hmem x]
    simp
  · intro p len val hp
    obtain ⟨st, t2, hadd, _, hsame⟩ :=
      AddSetParmEntryToBatch_step MAX fuel entrySize t L p len val hl hs hp hf
    exact ⟨st, t2, hadd, hsame⟩

/-- Witness for C30: limit 10, entries of 4 bytes, the types 7, 2, 7 and 5
added to a stale table; the links visit 2, 5 and 7. -/
theorem batch_links_sorted_witness :
    (runBatch 10 10 4 staleTable sampleAdds).bind (flaggedList 10) = some [2, 5, 7] ∧
    ∃ t L, runBatch 10 10 4 staleTable sampleAdds = some t ∧
      flaggedList 10 t = some L ∧
      L.Pairwise (· < ·) ∧
      (∀ x, x ∈ L ↔ x ∈ sampleAdds.map (fun c => c.paramType)) ∧
      (∀ p len val, p < 10 →
        ∃ st t2, AddSetParmEntryToBatch 10 4 t p len val = some (st, t2) ∧
          (p ∈ L → t2.first_flagged_entry = t.first_flagged_entry ∧
            t2.next_flagged_entry = t.next_flagged_entry)) :=
  ⟨by decide, batch_links_sorted 10 10 4 staleTable sampleAdds (by decide) (by decide)⟩

end MmQCameraApp

namespace QCamera3

/-! ## Floating-point lemmas -/

theorem bitLength_zero (fuel : ℕ) : bitLength fuel 0 = 0 := by
  cases fuel <;> simp [bitLength]

theorem bitLength_bounds :
    ∀ (fuel n : ℕ), n ≤ fuel → 0 < n →
      2 ^ (bitLength fuel n - 1) ≤ n ∧ n < 2 ^ bitLength fuel n := by
  intro fuel
  induction fuel with
  | zero => intro n h1 h2; omega
  | succ f ih =>
    intro n hle hpos
    have hn : n ≠ 0 := by omega
    simp only [bitLength, hn, if_false]
    by_cases h2 : n / 2 = 0
    · have h1 : n = 1 := by omega
      subst h1
      simp [bitLength_zero]
    · obtain ⟨hlo, hhi⟩ := ih (n / 2) (by omega) (by omega)
      have hb : 1 ≤ bitLength f (n / 2) := by
        by_contra hc
        have h0 : bitLength f (n / 2) = 0 := by omega
        rw [h0] at hhi
        simp at hhi
        omega
      constructor
      · have hpow : 2 ^ (bitLength f (n / 2) + 1 - 1) = 2 * 2 ^ (bitLength f (n / 2) - 1) := by
          have : bitLength f (n / 2) + 1 - 1 = (bitLength f (n / 2) - 1) + 1 := by omega
          rw [this, pow_succ]
          ring
        rw [hpow]
        omega
      · rw [pow_succ]
        omega

theorem binaryExponent_le (x : ℚ) (hx : 0 < x) : (2 : ℚ) ^ binaryExponent x ≤ x := by
  unfold binaryExponent
  split_ifs with h
  · exact h
  · have hnum : 0 < x.num := Rat.num_pos.mpr hx
    have hn : 0 < x.num.natAbs := Int.natAbs_pos.mpr (ne_of_gt hnum)
    have hd : 0 < x.den := x.den_pos
    obtain ⟨hlo, hup⟩ := bitLength_bounds x.num.natAbs x.num.natAbs le_rfl hn
    obtain ⟨_, hhi⟩ := bitLength_bounds x.den x.den le_rfl hd
    have hxeq : x = (x.num.natAbs : ℚ) / (x.den : ℚ) := by
      rw [Nat.cast_natAbs, abs_of_pos hnum]
      exact (Rat.num_div_den x).symm
    generalize bitLength x.num.natAbs x.num.natAbs = A at hlo hup ⊢
    generalize bitLength x.den x.den = B at hhi ⊢
    have ha : 1 ≤ A := by
      rcases Nat.eq_zero_or_pos A with h0 | hp
      · rw [h0] at hup
        simp only [pow_zero, Nat.lt_one_iff] at hup
        omega
      · exact hp
    have hexp : (A : ℤ) - (B : ℤ) - 1 = ((A - 1 : ℕ) : ℤ) - ((B : ℕ) : ℤ) := by
      omega
    rw [hexp, zpow_sub₀ (two_ne_zero), zpow_natCast, zpow_natCast]
    have hlo' : ((2 : ℚ) ^ (A - 1)) ≤ (x.num.natAbs : ℚ) := by
      exact_mod_cast hlo
    have hhi' : (x.den : ℚ) ≤ (2 : ℚ) ^ B := by
      exact_mod_cast le_of_lt hhi
    have hdq : (0 : ℚ) < (x.den : ℚ) := by exact_mod_cast hd
    have hnq : (0 : ℚ) ≤ (x.num.natAbs : ℚ) := by positivity
    calc (2 : ℚ) ^ (A - 1) / 2 ^ B ≤ (x.num.natAbs : ℚ) / (x.den : ℚ) :=
          div_le_div₀ hnq hlo' hdq hhi'
      _ = x := hxeq.symm

theorem roundNearestEven_nonneg (x : ℚ) (hx : 0 ≤ x) : 0 ≤ roundNearestEven x := by
  have hf : 0 ≤ ⌊x⌋ := Int.floor_nonneg.mpr hx
  unfold roundNearestEven
  split_ifs <;> omega

theorem roundNearestEven_pos_iff (x : ℚ) (hx : 0 ≤ x) :
    1 ≤ roundNearestEven x ↔ 1 / 2 < x := by
  have hf : 0 ≤ ⌊x⌋ := Int.floor_nonneg.mpr hx
  have hfl : (⌊x⌋ : ℚ) ≤ x := Int.floor_le x
  have hlt : x < ⌊x⌋ + 1 := Int.lt_floor_add_one x
  rcases eq_or_lt_of_le hf with h0 | hpos
  · have h0' : ⌊x⌋ = 0 := h0.symm
    unfold roundNearestEven
    simp only [h0', Int.cast_zero, sub_zero]
    split_ifs with h1 h2 h3
    · constructor
      · intro h; omega
      · intro h; linarith
    · constructor
      · intro _; exact h2
      · intro _; omega
    · constructor
      · intro h; omega
      · intro h; exact absurd h h2
    · omega
  · have h1 : (1 : ℚ) ≤ (⌊x⌋ : ℚ) := by exact_mod_cast hpos
    constructor
    · intro _; linarith
    · intro _
      unfold roundNearestEven
      split_ifs <;> omega

theorem roundMagnitude_nonneg (p : ℕ) (emin : ℤ) (x : ℚ) (hx : 0 ≤ x) :
    0 ≤ roundMagnitude p emin x := by
  unfold roundMagnitude
  split_ifs with h
  · exact le_refl 0
  · have hpow : (0 : ℚ) < (2 : ℚ) ^ ulpExponent p emin x := by positivity
    have hq : 0 ≤ x / (2 : ℚ) ^ ulpExponent p emin x := div_nonneg hx (le_of_lt hpow)
    have hr : (0 : ℚ) ≤ (roundNearestEven (x / (2 : ℚ) ^ ulpExponent p emin x) : ℚ) := by
      exact_mod_cast roundNearestEven_nonneg _ hq
    exact mul_nonneg hr (le_of_lt hpow)

theorem roundMagnitude_pos (p : ℕ) (emin : ℤ) (x : ℚ) (hp : 1 ≤ p) (hx : 0 < x)
    (hmin : (2 : ℚ) ^ (emin - (p - 1)) ≤ x) : 0 < roundMagnitude p emin x := by
  have hulp : (2 : ℚ) ^ ulpExponent p emin x ≤ x := by
    unfold ulpExponent
    rcases le_total (binaryExponent x) emin with hle | hge
    · rw [max_eq_right hle]
      exact hmin
    · rw [max_eq_left hge]
      have hp1 : (0 : ℤ) ≤ (p : ℤ) - 1 := by omega
      calc (2 : ℚ) ^ (binaryExponent x - ((p : ℤ) - 1)) ≤ (2 : ℚ) ^ binaryExponent x :=
            zpow_le_zpow_right₀ (by norm_num) (by omega)
        _ ≤ x := binaryExponent_le x hx
  have hpow : (0 : ℚ) < (2 : ℚ) ^ ulpExponent p emin x := by positivity
  have hq : 1 ≤ x / (2 : ℚ) ^ ulpExponent p emin x := by
    rw [le_div_iff₀ hpow]
    linarith
  have hr : 1 ≤ roundNearestEven (x / (2 : ℚ) ^ ulpExponent p emin x) :=
    (roundNearestEven_pos_iff _ (by linarith)).mpr (by linarith)
  have hrq : (1 : ℚ) ≤ (roundNearestEven (x / (2 : ℚ) ^ ulpExponent p emin x) : ℚ) := by
    exact_mod_cast hr
  unfold roundMagnitude
  rw [if_neg (ne_of_gt hx)]
  exact mul_pos (by linarith) hpow

theorem roundMagnitude_zero (p : ℕ) (emin : ℤ) : roundMagnitude p emin 0 = 0 := by
  simp [roundMagnitude]

theorem roundBinary_neg (p : ℕ) (emin : ℤ) (x : ℚ) :
    roundBinary p emin (-x) = -roundBinary p emin x := by
  unfold roundBinary
  rcases lt_trichotomy x 0 with h | h | h
  · have h1 : ¬ (-x < 0) := by linarith
    rw [if_neg h1, if_pos h, neg_neg]
  · subst h
    simp [roundMagnitude_zero]
  · have h1 : -x < 0 := by linarith
    have h2 : ¬ (x < 0) := by linarith
    rw [if_pos h1, if_neg h2, neg_neg]

theorem printf_f_neg (value : ℚ) : printf_f (-value) = -printf_f value := by
  unfold printf_f
  rcases lt_trichotomy value 0 with h | h | h
  · have h1 : ¬ (-value < 0) := by linarith
    rw [if_neg h1, if_pos h, neg_neg]
  · subst h
    simp [roundNearestEven]
  · have h1 : -value < 0 := by linarith
    have h2 : ¬ (value < 0) := by linarith
    rw [if_pos h1, if_neg h2, neg_neg]

theorem printf_f_neg_iff (value : ℚ) : printf_f value < 0 ↔ value < -(1 / 2000000) := by
  unfold printf_f
  by_cases h : value < 0
  · rw [if_pos h]
    have hnn : 0 ≤ -value * 1000000 := by linarith
    have hr := roundNearestEven_nonneg _ hnn
    have hiff := roundNearestEven_pos_iff _ hnn
    constructor
    · intro hlt
      have hpos : (0 : ℚ) < (roundNearestEven (-value * 1000000) : ℚ) := by
        by_contra hc
        have h0 : (roundNearestEven (-value * 1000000) : ℚ) ≤ 0 := not_lt.mp hc
        have : (0 : ℚ) ≤ -((roundNearestEven (-value * 1000000) : ℚ) / 1000000) := by
          have := div_nonpos_of_nonpos_of_nonneg h0 (by norm_num : (0 : ℚ) ≤ 1000000)
          linarith
        linarith
      have h1 : 1 ≤ roundNearestEven (-value * 1000000) := by
        have : (0 : ℤ) < roundNearestEven (-value * 1000000) := by exact_mod_cast hpos
        omega
      have := hiff.mp h1
      linarith
    · intro hv
      have h1 : 1 ≤ roundNearestEven (-value * 1000000) := hiff.mpr (by linarith)
      have h1q : (1 : ℚ) ≤ (roundNearestEven (-value * 1000000) : ℚ) := by exact_mod_cast h1
      have : (0 : ℚ) < (roundNearestEven (-value * 1000000) : ℚ) / 1000000 := by positivity
      linarith
  · rw [if_neg h]
    have hnn : 0 ≤ value * 1000000 := by
      have := not_lt.mp h
      positivity
    have hr : (0 : ℚ) ≤ (roundNearestEven (value * 1000000) : ℚ) := by
      exact_mod_cast roundNearestEven_nonneg _ hnn
    constructor
    · intro hlt
      have : (0 : ℚ) ≤ (roundNearestEven (value * 1000000) : ℚ) / 1000000 := by positivity
      linarith
    · intro hv
      have := not_lt.mp h
      linarith

theorem printf_f_le_of_neg (value : ℚ) (h : printf_f value < 0) :
    1 / 1000000 ≤ -printf_f value := by
  have hv : value < -(1 / 2000000) := (printf_f_neg_iff value).mp h
  have hneg : value < 0 := by linarith
  have hnn : 0 ≤ -value * 1000000 := by linarith
  have h1 : 1 ≤ roundNearestEven (-value * 1000000) :=
    (roundNearestEven_pos_iff _ hnn).mpr (by linarith)
  have h1q : (1 : ℚ) ≤ (roundNearestEven (-value * 1000000) : ℚ) := by exact_mod_cast h1
  unfold printf_f
  rw [if_pos hneg, neg_neg]
  rw [div_le_div_iff₀ (by norm_num) (by norm_num)]
  linarith

theorem strtof_printf_neg_iff (value : ℚ) :
    strtof (printf_f value) < 0 ↔ value < -(1 / 2000000) := by
  rw [← printf_f_neg_iff]
  unfold strtof toFloat roundBinary
  by_cases h : printf_f value < 0
  · rw [if_pos h]
    have hle := printf_f_le_of_neg value h
    have hpos : 0 < roundMagnitude 24 (-126) (-printf_f value) := by
      apply roundMagnitude_pos 24 (-126) _ (by norm_num) (by linarith)
      refine le_trans ?_ hle
      norm_num
    constructor
    · intro _; exact h
    · intro _; linarith
  · rw [if_neg h]
    have := roundMagnitude_nonneg 24 (-126) _ (not_lt.mp h)
    constructor
    · intro hlt; linarith
    · intro hlt; exact absurd hlt h

theorem parseGPSCoordinate_neg (coord_str : ℚ) :
    parseGPSCoordinate (-coord_str) = parseGPSCoordinate coord_str := by
  have hneg : toFloat (atof (-coord_str)) = -toFloat (atof coord_str) := by
    unfold toFloat atof toDouble
    rw [roundBinary_neg, roundBinary_neg]
  have habs : (if toFloat (atof (-coord_str)) < 0 then -toFloat (atof (-coord_str))
      else toFloat (atof (-coord_str)))
      = (if toFloat (atof coord_str) < 0 then -toFloat (atof coord_str)
          else toFloat (atof coord_str)) := by
    rw [hneg]
    rcases lt_trichotomy (toFloat (atof coord_str)) 0 with h | h | h
    · have h1 : ¬ (-toFloat (atof coord_str) < 0) := by linarith
      rw [if_neg h1, if_pos h]
    · rw [h]
      simp
    · have h1 : -toFloat (atof coord_str) < 0 := by linarith
      have h2 : ¬ (toFloat (atof coord_str) < 0) := by linarith
      rw [if_pos h1, if_neg h2, neg_neg]
  unfold parseGPSCoordinate
  simp only []
  rw [habs]

theorem floatToInt_eq_some (x : ℚ) (i : ℤ) (h : floatToInt x = some i) :
    i = truncate x ∧ -2147483648 ≤ i ∧ i ≤ 2147483647 := by
  unfold floatToInt at h
  split_ifs at h with hr
  simp only [Option.some.injEq] at h
  subst h
  exact ⟨rfl, hr.1, hr.2⟩

/-- Claim C23, amended: the decomposition is done in single precision.
Whenever `parseGPSCoordinate` returns, with `degF` the magnitude of the
text's number rounded to `double` and then to `float`, the degree
numerator is the integral part of `degF`, the minute numerator the integral
part of `minF`, the fraction of `degF` times 60 rounded to `float`, and the
seconds numerator the integral part of the fraction of `minF` times 60 and
then times 10000, each product rounded to `float`; the denominators are 1, 1
and 10000, and the degree numerator is the floor of `degF`.  For the value
37.7749 the rationals are 37/1, 46/1 and 296347/10000. -/
theorem gps_decomposition_single_precision (coord_str : ℚ) (coord : List rat_t)
    (h : parseGPSCoordinate coord_str = some coord) :
    (coord = [ { num := toUInt32 (truncate |toFloat (atof coord_str)|), denom := 1 },
               { num := toUInt32 (truncate
                   (toFloat (toFloat (|toFloat (atof coord_str)|
                     - toFloat (truncate |toFloat (atof coord_str)|)) * 60))), denom := 1 },
               { num := toUInt32 (truncate (toFloat
                   (toFloat (toFloat
                     (toFloat (toFloat (|toFloat (atof coord_str)|
                         - toFloat (truncate |toFloat (atof coord_str)|)) * 60)
                       - toFloat (truncate
                           (toFloat (toFloat (|toFloat (atof coord_str)|
                             - toFloat (truncate |toFloat (atof coord_str)|)) * 60)))) * 60)
                     * 10000))), denom := 10000 } ]) ∧
    ((coord.map (fun r => r.num)).head? = some ⌊|toFloat (atof coord_str)|⌋₊) ∧
    (getExifLatitude (toDouble (377749 / 10000))).map (fun r => r.2.1)
      = some [ { num := 37, denom := 1 }, { num := 46, denom := 1 },
               { num := 296347, denom := 10000 } ] := by
  have habs : (if toFloat (atof coord_str) < 0 then -toFloat (atof coord_str)
      else toFloat (atof coord_str)) = |toFloat (atof coord_str)| := by
    split_ifs with hlt
    · exact (abs_of_neg hlt).symm
    · exact (abs_of_nonneg (not_lt.mp hlt)).symm
  have hnn : 0 ≤ |toFloat (atof coord_str)| := abs_nonneg _
  unfold parseGPSCoordinate at h
  simp only [] at h
  rw [habs] at h
  generalize |toFloat (atof coord_str)| = degF at h hnn ⊢
  cases hd : floatToInt degF with
  | none => rw [hd] at h; cases h
  | some deg =>
    rw [hd] at h
    simp only [] at h
    obtain ⟨hdeg, hdlo, hdhi⟩ := floatToInt_eq_some _ _ hd
    subst hdeg
    cases hm : floatToInt (toFloat (toFloat (degF - toFloat (truncate degF)) * 60)) with
    | none => rw [hm] at h; cases h
    | some min =>
      rw [hm] at h
      simp only [] at h
      obtain ⟨hmin, _, _⟩ := floatToInt_eq_some _ _ hm
      subst hmin
      cases hs : floatToInt (toFloat (toFloat (toFloat
          (toFloat (toFloat (degF - toFloat (truncate degF)) * 60)
            - toFloat (truncate (toFloat (toFloat (degF - toFloat (truncate degF)) * 60))))
          * 60) * 10000)) with
      | none => rw [hs] at h; cases h
      | some sec =>
        rw [hs] at h
        simp only [Option.some.injEq] at h
        obtain ⟨hsec, _, _⟩ := floatToInt_eq_some _ _ hs
        subst hsec
        subst h
        refine ⟨rfl, ?_, by decide!⟩
        have htr : truncate degF = ⌊degF⌋ := by
          unfold truncate
          rw [if_neg (not_lt.mpr hnn)]
        have hfl : 0 ≤ ⌊degF⌋ := Int.floor_nonneg.mpr hnn
        rw [htr] at hdhi
        simp only [List.map_cons, List.head?_cons, getRational, Option.some.injEq, htr, toUInt32]
        rw [← Int.floor_toNat]
        congr 1
        omega


/-- Witness for C23: the text `37.7749`. -/
theorem gps_decomposition_single_precision_witness :
    parseGPSCoordinate (377749 / 10000)
      = some [ { num := 37, denom := 1 }, { num := 46, denom := 1 },
               { num := 296347, denom := 10000 } ] ∧
    ([ ({ num := 37, denom := 1 } : rat_t), { num := 46, denom := 1 },
       { num := 296347, denom := 10000 } ].map (fun r => r.num)).head?
      = some ⌊|toFloat (atof (377749 / 10000))|⌋₊ :=
  ⟨by decide!, (gps_decomposition_single_precision (377749 / 10000) _ (by decide!)).2.1⟩

/-- Counterexample to claim C23 as stated: for the value 37.7749, given as the
nearest `double` to `getExifLatitude` and `getExifLongitude` or as the text
`37.7749` to `parseGPSCoordinate`, the rationals are not 37/1, 46/1 and
296400/10000: the seconds numerator is 296347. -/
theorem gps_37_7749_is_not_296400 :
    (getExifLatitude (toDouble (377749 / 10000))).map (fun r => r.2.1)
      ≠ some [ { num := 37, denom := 1 }, { num := 46, denom := 1 },
               { num := 296400, denom := 10000 } ] ∧
    (getExifLongitude (toDouble (377749 / 10000))).map (fun r => r.2.1)
      ≠ some [ { num := 37, denom := 1 }, { num := 46, denom := 1 },
               { num := 296400, denom := 10000 } ] ∧
    parseGPSCoordinate (377749 / 10000)
      = some [ { num := 37, denom := 1 }, { num := 46, denom := 1 },
               { num := 296347, denom := 10000 } ] := by
  decide!

/-- Claim C24, amended: the hemisphere letter follows the sign of the
value as `"%f"` prints it.  `latRef` is `S` when the value is below
-0.0000005 and `N` otherwise; `lonRef` is `W` when the value is below
-0.0000005 and `E` otherwise, and never `S`; the rationals are the same for
a value and its negation. -/
theorem hemisphere_letter_follows_printed_sign (value : ℚ) :
    (∀ r, getExifLatitude value = some r →
      r.2.2 = if value < -(1 / 2000000) then "S" else "N") ∧
    (∀ r, getExifLongitude value = some r →
      (r.2.2 = if value < -(1 / 2000000) then "W" else "E") ∧ r.2.2 ≠ "S") ∧
    (getExifLatitude (-value)).map (fun r => r.2.1)
      = (getExifLatitude value).map (fun r => r.2.1) ∧
    (getExifLongitude (-value)).map (fun r => r.2.1)
      = (getExifLongitude value).map (fun r => r.2.1) := by
  have hsign := strtof_printf_neg_iff value
  have hparse : parseGPSCoordinate (printf_f (-value)) = parseGPSCoordinate (printf_f value) := by
    rw [printf_f_neg, parseGPSCoordinate_neg]
  refine ⟨?_, ?_, ?_, ?_⟩
  · intro r hr
    unfold getExifLatitude at hr
    simp only [] at hr
    cases hp : parseGPSCoordinate (printf_f value) with
    | none => rw [hp] at hr; cases hr
    | some coord =>
      rw [hp] at hr
      simp only [Option.some.injEq] at hr
      subst hr
      by_cases hv : value < -(1 / 2000000)
      · simp only [hsign.mpr hv, hv, if_true]
      · have hn : ¬ strtof (printf_f value) < 0 := fun hc => hv (hsign.mp hc)
        simp only [hn, hv, if_false]
  · intro r hr
    unfold getExifLongitude at hr
    simp only [] at hr
    cases hp : parseGPSCoordinate (printf_f value) with
    | none => rw [hp] at hr; cases hr
    | some coord =>
      rw [hp] at hr
      simp only [Option.some.injEq] at hr
      subst hr
      by_cases hv : value < -(1 / 2000000)
      · simp only [hsign.mpr hv, hv, if_true]
        exact ⟨trivial, by decide⟩
      · have hn : ¬ strtof (printf_f value) < 0 := fun hc => hv (hsign.mp hc)
        simp only [hn, hv, if_false]
        exact ⟨trivial, by decide⟩
  · unfold getExifLatitude
    simp only []
    rw [hparse]
    cases parseGPSCoordinate (printf_f value) <;> rfl
  · unfold getExifLongitude
    simp only []
    rw [hparse]
    cases parseGPSCoordinate (printf_f value) <;> rfl

/-- Witness for C24: the `double` nearest to -37.7749. -/
theorem hemisphere_letter_follows_printed_sign_witness :
    getExifLatitude (-toDouble (377749 / 10000))
      = some (NO_ERROR, [ { num := 37, denom := 1 }, { num := 46, denom := 1 },
                          { num := 296347, denom := 10000 } ], "S") ∧
    getExifLongitude (-toDouble (377749 / 10000))
      = some (NO_ERROR, [ { num := 37, denom := 1 }, { num := 46, denom := 1 },
                          { num := 296347, denom := 10000 } ], "W") ∧
    ("S" = if -toDouble (377749 / 10000) < -(1 / 2000000) then "S" else "N") ∧
    ("W" = if -toDouble (377749 / 10000) < -(1 / 2000000) then "W" else "E") :=
  ⟨by decide!, by decide!,
   (hemisphere_letter_follows_printed_sign (-toDouble (377749 / 10000))).1
     (NO_ERROR, [ { num := 37, denom := 1 }, { num := 46, denom := 1 },
                  { num := 296347, denom := 10000 } ], "S") (by decide!),
   ((hemisphere_letter_follows_printed_sign (-toDouble (377749 / 10000))).2.1
     (NO_ERROR, [ { num := 37, denom := 1 }, { num := 46, denom := 1 },
                  { num := 296347, denom := 10000 } ], "W") (by decide!)).1⟩

/-- Counterexample to claim C24 as stated: the negative value `-2^-24` is printed
as `-0.000000`, which reads back as a zero, and the letters are `N` and
`E`. -/
theorem tiny_negative_coordinate_gets_N_and_E :
    (-(1 / 16777216) : ℚ) < 0 ∧
    (getExifLatitude (-(1 / 16777216))).map (fun r => r.2.2) = some "N" ∧
    (getExifLongitude (-(1 / 16777216))).map (fun r => r.2.2) = some "E" := by
  decide!


/-! ## EXIF assembly -/

theorem getExifFocalLength_rc (value : ℚ) (r : Int × rat_t)
    (h : getExifFocalLength value = some r) : r.1 = NO_ERROR := by
  unfold getExifFocalLength at h
  cases hf : floatToInt (toFloat (value * FOCAL_LENGTH_DECIMAL_PRECISION)) with
  | none => rw [hf] at h; cases h
  | some v =>
    rw [hf] at h
    simp only [Option.some.injEq] at h
    subst h
    rfl

theorem getExifLatitude_rc (value : ℚ) (r : Int × List rat_t × String)
    (h : getExifLatitude value = some r) : r.1 = NO_ERROR := by
  unfold getExifLatitude at h
  simp only [] at h
  cases hp : parseGPSCoordinate (printf_f value) with
  | none => rw [hp] at h; cases h
  | some v =>
    rw [hp] at h
    simp only [Option.some.injEq] at h
    subst h
    rfl

theorem getExifLongitude_rc (value : ℚ) (r : Int × List rat_t × String)
    (h : getExifLongitude value = some r) : r.1 = NO_ERROR := by
  unfold getExifLongitude at h
  simp only [] at h
  cases hp : parseGPSCoordinate (printf_f value) with
  | none => rw [hp] at h; cases h
  | some v =>
    rw [hp] at h
    simp only [Option.some.injEq] at h
    subst h
    rfl

theorem getExifAltitude_rc (value : ℚ) (r : Int × rat_t × Nat)
    (h : getExifAltitude value = some r) : r.1 = NO_ERROR := by
  unfold getExifAltitude at h
  simp only [] at h
  split at h
  · cases h
  · simp only [Option.some.injEq] at h
    subst h
    rfl

theorem getExifGpsDateTimeStamp_rc (libc : Libc) (value : Int) (r : Int × String × List rat_t)
    (h : getExifGpsDateTimeStamp libc value = some r) : r.1 = NO_ERROR := by
  unfold getExifGpsDateTimeStamp at h
  simp only [] at h
  split at h
  · cases h
  · simp only [Option.some.injEq] at h
    subst h
    rfl

theorem getExifData_shape (libc : Libc) (s : Option jpeg_settings_t) :
    ∃ rest : Option (List ExifEntry),
      ∀ (c : QCamera3PicChannel) (timeinfo : tm), c.mJpegSettings = s →
        c.getExifData libc timeinfo
          = rest.map (fun r =>
              ({ tag_id := .EXIFTAGID_EXIF_DATE_TIME_ORIGINAL, type := .EXIF_ASCII, count := 20
                 data := .ascii (bufferChars (getExifDateTime timeinfo).2.1 20) } : ExifEntry)
              :: r) := by
  cases s with
  | none =>
    refine ⟨none, fun c timeinfo hc => ?_⟩
    simp only [QCamera3PicChannel.getExifData, hc, Option.map_none']
  | some st =>
    cases h1 : getExifFocalLength st.lens_focal_length with
    | none =>
      refine ⟨none, fun c timeinfo hc => ?_⟩
      simp only [QCamera3PicChannel.getExifData, hc, h1, Option.map_none']
    | some focalLength =>
      cases h2 : getExifLatitude st.gps_coordinates.1 with
      | none =>
        refine ⟨none, fun c timeinfo hc => ?_⟩
        simp only [QCamera3PicChannel.getExifData, hc, h1, h2, Option.map_none']
      | some latitude =>
        cases h3 : getExifLongitude st.gps_coordinates.2.1 with
        | none =>
          refine ⟨none, fun c timeinfo hc => ?_⟩
          simp only [QCamera3PicChannel.getExifData, hc, h1, h2, h3, Option.map_none']
        | some longitude =>
          cases h4 : getExifAltitude st.gps_coordinates.2.2 with
          | none =>
            refine ⟨none, fun c timeinfo hc => ?_⟩
            simp only [QCamera3PicChannel.getExifData, hc, h1, h2, h3, h4, Option.map_none']
          | some altitude =>
            cases h5 : getExifGpsDateTimeStamp libc st.gps_timestamp with
            | none =>
              refine ⟨none, fun c timeinfo hc => ?_⟩
              simp only [QCamera3PicChannel.getExifData, hc, h1, h2, h3, h4, h5,
                Option.map_none']
            | some gpsDateTimeStamp =>
              have c1 := getExifFocalLength_rc _ _ h1
              have c2 : (getExifGpsProcessingMethod st.gps_processing_method).1 = NO_ERROR := rfl
              have c3 := getExifLatitude_rc _ _ h2
              have c4 := getExifLongitude_rc _ _ h3
              have c5 := getExifAltitude_rc _ _ h4
              have c6 := getExifGpsDateTimeStamp_rc _ _ _ h5
              refine ⟨some
                [ { tag_id := .EXIFTAGID_FOCAL_LENGTH, type := .EXIF_RATIONAL, count := 1
                    data := .rationals [focalLength.2] },
                  { tag_id := .EXIFTAGID_GPS_PROCESSINGMETHOD, type := .EXIF_ASCII
                    count := (getExifGpsProcessingMethod st.gps_processing_method).2.2
                    data := .ascii (getExifGpsProcessingMethod st.gps_processing_method).2.1 },
                  { tag_id := .EXIFTAGID_GPS_LATITUDE, type := .EXIF_RATIONAL, count := 3
                    data := .rationals latitude.2.1 },
                  { tag_id := .EXIFTAGID_GPS_LATITUDE_REF, type := .EXIF_ASCII, count := 2
                    data := .ascii (bufferChars latitude.2.2 2) },
                  { tag_id := .EXIFTAGID_GPS_LONGITUDE, type := .EXIF_RATIONAL, count := 3
                    data := .rationals longitude.2.1 },
                  { tag_id := .EXIFTAGID_GPS_LONGITUDE_REF, type := .EXIF_ASCII, count := 2
                    data := .ascii (bufferChars longitude.2.2 2) },
                  { tag_id := .EXIFTAGID_GPS_ALTITUDE, type := .EXIF_RATIONAL, count := 1
                    data := .rationals [altitude.2.1] },
                  { tag_id := .EXIFTAGID_GPS_ALTITUDE_REF, type := .EXIF_BYTE, count := 1
                    data := .byte altitude.2.2 },
                  { tag_id := .EXIFTAGID_GPS_DATESTAMP, type := .EXIF_ASCII
                    count := gpsDateTimeStamp.2.1.length + 1
                    data := .ascii (bufferChars gpsDateTimeStamp.2.1
                      (gpsDateTimeStamp.2.1.length + 1)) },
                  { tag_id := .EXIFTAGID_GPS_TIMESTAMP, type := .EXIF_RATIONAL, count := 3
                    data := .rationals gpsDateTimeStamp.2.2 } ],
                fun c timeinfo hc => ?_⟩
              unfold QCamera3PicChannel.getExifData
              simp only []
              rw [hc]
              simp only [h1, h2, h3, h4, h5]
              have c0 : (getExifDateTime timeinfo).1 = NO_ERROR := rfl
              rw [if_pos c1, if_pos c2, if_pos c3, if_pos c4, if_pos c5, if_pos c6, if_pos c0]
              rfl

/-- Claim C25, amended: the entries are a function of the settings and of the local time read at the call.  For two calls with equal
settings, whatever the channels and the times, the lists agree from the
second entry on and return together; the first entry is the date and time of
the call, its tag, type and count (20) being fixed; and when the times agree
too the lists are equal. -/
theorem exif_entries_depend_on_settings_and_clock (libc : Libc) (c1 c2 : QCamera3PicChannel)
    (t1 t2 : tm) (h : c1.mJpegSettings = c2.mJpegSettings) :
    (c1.getExifData libc t1).map List.tail = (c2.getExifData libc t2).map List.tail ∧
    (∀ l, c1.getExifData libc t1 = some l →
      l.head? = some { tag_id := .EXIFTAGID_EXIF_DATE_TIME_ORIGINAL, type := .EXIF_ASCII
                       count := 20
                       data := .ascii (bufferChars (getExifDateTime t1).2.1 20) }) ∧
    (t1 = t2 → c1.getExifData libc t1 = c2.getExifData libc t2) := by
  obtain ⟨rest, hrest⟩ := getExifData_shape libc c1.mJpegSettings
  have e1 := hrest c1 t1 rfl
  have e2 := hrest c2 t2 h.symm
  refine ⟨?_, ?_, ?_⟩
  · rw [e1, e2]
    cases rest with
    | none => simp only [Option.map_none']
    | some r => simp only [Option.map_some', List.tail_cons]
  · intro l hl
    rw [e1] at hl
    cases rest with
    | none => simp only [Option.map_none'] at hl; cases hl
    | some r =>
      simp only [Option.map_some', Option.some.injEq] at hl
      subst hl
      simp only [List.head?_cons]
  · intro ht
    subst ht
    rw [e1, e2]

/-- Witness for C25: two channels with the settings `sampleGpsSettings`,
asked one second apart. -/
theorem exif_entries_depend_on_settings_and_clock_witness :
    (samplePicGps 0).mJpegSettings = (samplePicGps 1).mJpegSettings ∧
    ((samplePicGps 0).getExifData sampleLibc sampleNoon).map List.tail
      = ((samplePicGps 1).getExifData sampleLibc sampleNoonLater).map List.tail :=
  ⟨rfl, (exif_entries_depend_on_settings_and_clock sampleLibc (samplePicGps 0) (samplePicGps 1)
    sampleNoon sampleNoonLater rfl).1⟩

/-- Counterexample to claim C25 as stated: one channel, the same settings, two
calls one second apart; both return a list, and the lists differ in the
value of the first entry. -/
theorem exif_entries_change_with_time_of_call :
    ((samplePicGps 0).getExifData sampleLibc sampleNoon).map
        (fun l => (l.map (fun e => e.data)).head?)
      = some (some (ExifValue.ascii
          (String.mk ("2014:03:09 12:30:45".data ++ [Char.ofNat 0])))) ∧
    ((samplePicGps 0).getExifData sampleLibc sampleNoonLater).map
        (fun l => (l.map (fun e => e.data)).head?)
      = some (some (ExifValue.ascii
          (String.mk ("2014:03:09 12:30:46".data ++ [Char.ofNat 0])))) ∧
    (samplePicGps 0).getExifData sampleLibc sampleNoon
      ≠ (samplePicGps 0).getExifData sampleLibc sampleNoonLater := by
  decide!

end QCamera3
